import Mathlib

/-!
# Session-based authentication of the user service

A shallow embedding of the session store (`repository/session_repository.go`),
the user lookup (`repository/user_repository.go`) and the session manager
(`service/user_service.go`), followed by the properties established for them.

Modelling conventions.

* The PostgreSQL database behind `*sql.DB` is an explicit value `DB` holding
  the rows of the `users` and `sessions` tables in insertion order.  A query is
  a pure function of that value; a statement returns the new value.  A row is
  read back exactly as `insertSession` was given it; what the `TIMESTAMP`
  columns of `sessions` keep of an instant is a parameter of
  `CreateSessionStored`, of which `CreateSession` is the instance for columns
  that keep every nanosecond.
* Every call into the database takes a `fault : Option String`.  `some m` means
  the driver reported the error `m` for that call; the statement then has no
  effect.  `none` means the call reached the tables.
* `time.Time` is an integer count of nanoseconds on the wall clock and
  `time.Duration` an integer number of nanoseconds.  Every `time.Now()` in the
  source is an explicit clock reading passed by the caller.
* `uuid.New()` is an explicit 16-byte value passed by the caller.
* `bcrypt` and `Time.Format` are functions passed by the caller (`Library`).
-/

namespace SocialNetwork

/-! ## Time -/

/-- A `time.Time`: nanoseconds on the wall clock. -/
abbrev Time := Int

/-- A `time.Duration`: nanoseconds. -/
abbrev Duration := Int

/-- The constant `time.Second`. -/
def Second : Duration := 1000000000

/-- The constant `time.Hour`. -/
def Hour : Duration := 3600 * Second

/-- The method `t.Add(d)`. -/
def Time.Add (t : Time) (d : Duration) : Time := t + d

/-- The method `t.After(u)`: `t` is strictly later than `u`. -/
def Time.After (t u : Time) : Bool := decide (u < t)

/-! ## Errors -/

/-- The Go `error` values that occur in the session subsystem. -/
inductive GoError where
  /-- The sentinel `sql.ErrNoRows`. -/
  | ErrNoRows
  /-- A value built by `errors.New(text)`. -/
  | New (text : String)
  /-- Any other error reported by the database driver. -/
  | driver (text : String)
  deriving DecidableEq, Repr

/-- The method `err.Error()`. -/
def GoError.Error : GoError → String
  | .ErrNoRows => "sql: no rows in result set"
  | .New text => text
  | .driver text => text

/-! ## Records (`models/user.go`, `models/session.go`) -/

/-- The struct `models.User`. -/
structure User where
  ID : Int
  Username : String
  Password : String
  Email : String
  Name : String
  Surname : String
  Birthdate : Time
  PhoneNumber : String
  CreatedAt : Time
  UpdatedAt : Time
  deriving DecidableEq, Repr

/-- The struct `models.Session`. -/
structure Session where
  ID : String
  UserID : Int
  Username : String
  SessionToken : String
  ExpiresAt : Time
  CreatedAt : Time
  deriving DecidableEq, Repr

/-- The struct `models.AuthResponse`. -/
structure AuthResponse where
  Username : String
  Message : String
  Token : String
  ExpiresAt : String
  deriving DecidableEq, Repr

/-- The struct `models.LoginRequest`. -/
structure LoginRequest where
  Username : String
  Password : String
  deriving DecidableEq, Repr

/-! ## Tokens (`uuid.New().String()`) -/

/-- A `uuid.UUID`: sixteen bytes. -/
structure UUID where
  byte : Fin 16 → Fin 256

/-- One lower-case hexadecimal digit. -/
def hexDigit (n : Nat) : Char :=
  if n < 10 then Char.ofNat (48 + n) else Char.ofNat (87 + n)

/-- Two hexadecimal digits for every byte, as `hex.Encode` writes them. -/
def encodeHex (bs : List (Fin 256)) : List Char :=
  bs.flatMap fun b => [hexDigit (b.val / 16), hexDigit (b.val % 16)]

/-- The bytes `u[i], ..., u[i+n-1]`. -/
def UUID.slice (u : UUID) (i n : Nat) : List (Fin 256) :=
  (List.range' i n).map fun k => if h : k < 16 then u.byte ⟨k, h⟩ else 0

/-- The method `u.String()`: the form `xxxxxxxx-xxxx-xxxx-xxxx-xxxxxxxxxxxx`. -/
def UUID.String (u : UUID) : String :=
  String.mk (encodeHex (u.slice 0 4) ++ '-' :: encodeHex (u.slice 4 2) ++ '-' ::
    encodeHex (u.slice 6 2) ++ '-' :: encodeHex (u.slice 8 2) ++ '-' ::
    encodeHex (u.slice 10 6))

/-! ## The database -/

/-- The tables created by the two `Init` methods, and the `SERIAL` counter of
`sessions.id`, which advances with every row inserted. -/
structure DB where
  users : List User
  sessions : List Session
  sessionSeq : Nat
  deriving DecidableEq, Repr

/-- The result of a repository or service call: the returned value or error,
and the database afterwards. -/
structure Outcome (α : Type) where
  result : Except GoError α
  db : DB

/-- The error PostgreSQL raises for a second row with the same
`session_token` (`UNIQUE`). -/
def uniqueViolation : GoError :=
  .driver "pq: duplicate key value violates unique constraint \"sessions_session_token_key\""

/-- The error PostgreSQL raises for a `user_id` without a row in `users`
(`REFERENCES users(id)`). -/
def foreignKeyViolation : GoError :=
  .driver "pq: insert or update on table \"sessions\" violates foreign key constraint \"sessions_user_id_fkey\""

/-! ## `SessionRepository` -/

/-- The statement `INSERT INTO sessions (...) VALUES (...) RETURNING id` under
the constraints declared in `SessionRepository.Init`.  `session` is the row as
the columns keep it. -/
def insertSession (db : DB) (session : Session) (fault : Option String) :
    Outcome String :=
  match fault with
  | some m => ⟨.error (.driver m), db⟩
  | none =>
    if db.sessions.any (fun s => s.SessionToken == session.SessionToken) then
      ⟨.error uniqueViolation, db⟩
    else if !db.users.any (fun u => u.ID == session.UserID) then
      ⟨.error foreignKeyViolation, db⟩
    else
      let id := toString (db.sessionSeq + 1)
      ⟨.ok id, { db with sessions := db.sessions ++ [{ session with ID := id }],
                         sessionSeq := db.sessionSeq + 1 }⟩

/-- The method `SessionRepository.CreateSession`.  `uuid` is the value of
`uuid.New()`, `now1` and `now2` the two readings of `time.Now()`. -/
def CreateSession (db : DB) (userID : Int) (username : String) (duration : Duration)
    (uuid : UUID) (now1 now2 : Time) (fault : Option String) : Outcome Session :=
  let token := uuid.String
  let expiresAt := Time.Add now1 duration
  let session : Session :=
    { ID := "", UserID := userID, Username := username, SessionToken := token,
      ExpiresAt := expiresAt, CreatedAt := now2 }
  match insertSession db session fault with
  | ⟨.error err, db'⟩ => ⟨.error err, db'⟩
  | ⟨.ok id, db'⟩ => ⟨.ok { session with ID := id }, db'⟩

/-- What a PostgreSQL `TIMESTAMP` column keeps of an instant written to it
with nanoseconds: the nearest whole microsecond, half a microsecond going
up. -/
def timestampColumn (t : Time) : Time := (t + 500) / 1000 * 1000

/-- The row a table keeps of a written `session` when its `TIMESTAMP` columns
`expires_at` and `created_at` keep `column t` of an instant `t`. -/
def Session.stored (column : Time → Time) (session : Session) : Session :=
  { session with ExpiresAt := column session.ExpiresAt,
                 CreatedAt := column session.CreatedAt }

/-- The method `SessionRepository.CreateSession` with the precision of the
`TIMESTAMP` columns made explicit: the row inserted is what the columns keep
of `session`, the record returned is the Go value `session` itself, with the
instants as computed and the `id` scanned from `RETURNING id`.  `CreateSession`
above is the instance for columns that keep every nanosecond. -/
def CreateSessionStored (column : Time → Time) (db : DB) (userID : Int)
    (username : String) (duration : Duration) (uuid : UUID) (now1 now2 : Time)
    (fault : Option String) : Outcome Session :=
  let token := uuid.String
  let expiresAt := Time.Add now1 duration
  let session : Session :=
    { ID := "", UserID := userID, Username := username, SessionToken := token,
      ExpiresAt := expiresAt, CreatedAt := now2 }
  match insertSession db (session.stored column) fault with
  | ⟨.error err, db'⟩ => ⟨.error err, db'⟩
  | ⟨.ok id, db'⟩ => ⟨.ok { session with ID := id }, db'⟩

/-- The method `SessionRepository.GetSessionByToken`: the row selected by
`WHERE session_token = $1`, or `sql.ErrNoRows`. -/
def GetSessionByToken (db : DB) (token : String) (fault : Option String) :
    Except GoError Session :=
  match fault with
  | some m => .error (.driver m)
  | none =>
    match db.sessions.find? (fun s => s.SessionToken == token) with
    | none => .error .ErrNoRows
    | some session => .ok session

/-- The method `SessionRepository.DeleteSession`:
`DELETE FROM sessions WHERE session_token = $1`. -/
def DeleteSession (db : DB) (token : String) (fault : Option String) : Outcome Unit :=
  match fault with
  | some m => ⟨.error (.driver m), db⟩
  | none => ⟨.ok (), { db with sessions := db.sessions.filter (fun s => !(s.SessionToken == token)) }⟩

/-- The method `SessionRepository.DeleteAllUserSessions`:
`DELETE FROM sessions WHERE username = $1`. -/
def DeleteAllUserSessions (db : DB) (username : String) (fault : Option String) :
    Outcome Unit :=
  match fault with
  | some m => ⟨.error (.driver m), db⟩
  | none => ⟨.ok (), { db with sessions := db.sessions.filter (fun s => !(s.Username == username)) }⟩

/-- The method `SessionRepository.CleanExpiredSessions`:
`DELETE FROM sessions WHERE expires_at < $1` with `$1 = time.Now()`. -/
def CleanExpiredSessions (db : DB) (now : Time) (fault : Option String) : Outcome Unit :=
  match fault with
  | some m => ⟨.error (.driver m), db⟩
  | none => ⟨.ok (), { db with sessions := db.sessions.filter (fun s => !decide (s.ExpiresAt < now)) }⟩

/-! ## `UserRepository` -/

/-- The method `UserRepository.GetUserByUsername`: the row selected by
`WHERE username = $1`; `sql.ErrNoRows` becomes `errors.New("user not found")`. -/
def GetUserByUsername (db : DB) (username : String) (fault : Option String) :
    Except GoError User :=
  match fault with
  | some m => .error (.driver m)
  | none =>
    match db.users.find? (fun u => u.Username == username) with
    | none => .error (.New "user not found")
    | some user => .ok user

/-! ## `UserService` -/

/-- The library functions the service calls. -/
structure Library where
  /-- The function `models.CheckPasswordHash(password, hash)`, which is
  `bcrypt.CompareHashAndPassword(hash, password) == nil`. -/
  CheckPasswordHash : String → String → Bool
  /-- The call `t.Format(time.RFC3339)`. -/
  FormatRFC3339 : Time → String

/-- The method `UserService.LoginWithSession`.  `lookupFault` belongs to the
user query, `uuid`, `now1`, `now2` and `createFault` to `CreateSession`. -/
def LoginWithSession (lib : Library) (db : DB) (req : LoginRequest)
    (lookupFault : Option String) (uuid : UUID) (now1 now2 : Time)
    (createFault : Option String) : Outcome AuthResponse :=
  match GetUserByUsername db req.Username lookupFault with
  | .error err => ⟨.error err, db⟩
  | .ok user =>
    if !lib.CheckPasswordHash req.Password user.Password then
      ⟨.error (.New "invalid credentials"), db⟩
    else
      match CreateSession db user.ID user.Username (24 * Hour) uuid now1 now2 createFault with
      | ⟨.error err, db'⟩ => ⟨.error err, db'⟩
      | ⟨.ok session, db'⟩ =>
        let expiresFormatted := lib.FormatRFC3339 session.ExpiresAt
        ⟨.ok { Username := user.Username, Message := "Login successful",
               Token := session.SessionToken, ExpiresAt := expiresFormatted }, db'⟩

/-- The method `UserService.Logout`. -/
def Logout (db : DB) (token : String) (fault : Option String) : Outcome Unit :=
  DeleteSession db token fault

/-- The method `UserService.ValidateSession`.  `now` is the reading of
`time.Now()`, `getFault` belongs to the lookup and `deleteFault` to the
`DeleteSession` call, whose error the method discards. -/
def ValidateSession (db : DB) (token : String) (now : Time)
    (getFault deleteFault : Option String) : Outcome Session :=
  match GetSessionByToken db token getFault with
  | .error err => ⟨.error err, db⟩
  | .ok session =>
    if Time.After now session.ExpiresAt then
      ⟨.error (.New "session expired"), (DeleteSession db token deleteFault).db⟩
    else
      ⟨.ok session, db⟩

/-! ## Invariant and example data -/

/-- The tokens of the stored sessions are pairwise distinct (the `UNIQUE`
constraint on `sessions.session_token`). -/
def UniqueTokens (db : DB) : Prop :=
  (db.sessions.map (fun s => s.SessionToken)).Nodup

instance (db : DB) : Decidable (UniqueTokens db) := by
  unfold UniqueTokens; infer_instance

/-- The row a successful `CreateSession` writes and returns. -/
def newSession (db : DB) (userID : Int) (username : String) (duration : Duration)
    (uuid : UUID) (now1 now2 : Time) : Session :=
  { ID := toString (db.sessionSeq + 1), UserID := userID, Username := username,
    SessionToken := uuid.String, ExpiresAt := now1 + duration, CreatedAt := now2 }

/-- A user row for `bob`, with id 1. -/
def bob : User :=
  { ID := 1, Username := "bob", Password := "#secret", Email := "bob@example.com",
    Name := "Bob", Surname := "B", Birthdate := 0, PhoneNumber := "", CreatedAt := 0,
    UpdatedAt := 0 }

/-- A user row for `carol`, with id 2. -/
def carol : User :=
  { ID := 2, Username := "carol", Password := "#hunter2", Email := "carol@example.com",
    Name := "Carol", Surname := "C", Birthdate := 0, PhoneNumber := "", CreatedAt := 0,
    UpdatedAt := 0 }

/-- A session of `bob` that expires at instant 100. -/
def bobSession : Session :=
  { ID := "1", UserID := 1, Username := "bob", SessionToken := "t-bob", ExpiresAt := 100,
    CreatedAt := 40 }

/-- A session of `carol` that expires at instant 200. -/
def carolSession : Session :=
  { ID := "2", UserID := 2, Username := "carol", SessionToken := "t-carol",
    ExpiresAt := 200, CreatedAt := 50 }

/-- A second session of `carol`, expiring at instant 90. -/
def carolSession2 : Session :=
  { ID := "3", UserID := 2, Username := "carol", SessionToken := "t-carol-2",
    ExpiresAt := 90, CreatedAt := 60 }

/-- A database with two users and three sessions. -/
def sampleDB : DB :=
  { users := [bob, carol], sessions := [bobSession, carolSession, carolSession2],
    sessionSeq := 3 }

/-- A database with the two users and no session. -/
def emptyDB : DB := { users := [bob, carol], sessions := [], sessionSeq := 0 }

/-- The UUID whose bytes are all zero. -/
def zeroUUID : UUID := ⟨fun _ => 0⟩

/-- The UUID whose bytes are all one. -/
def oneUUID : UUID := ⟨fun _ => 1⟩

/-- A stand-in for the password functions: the hash of `p` is `"#" ++ p`. -/
def sampleLibrary : Library :=
  { CheckPasswordHash := fun password hash => hash == "#" ++ password
    FormatRFC3339 := fun t => toString t }

/-! ## Reachable stores -/

/-- The stores reachable from a store without sessions by the operations of
the session repository and by `ValidateSession`, whatever their arguments,
clock readings and driver faults. -/
inductive Reachable : DB → Prop where
  | empty (users : List User) (seq : Nat) : Reachable ⟨users, [], seq⟩
  | createSession {db : DB} (userID : Int) (username : String) (duration : Duration)
      (uuid : UUID) (now1 now2 : Time) (fault : Option String) :
      Reachable db →
      Reachable (CreateSession db userID username duration uuid now1 now2 fault).db
  | deleteSession {db : DB} (token : String) (fault : Option String) :
      Reachable db → Reachable (DeleteSession db token fault).db
  | deleteAllUserSessions {db : DB} (username : String) (fault : Option String) :
      Reachable db → Reachable (DeleteAllUserSessions db username fault).db
  | cleanExpiredSessions {db : DB} (now : Time) (fault : Option String) :
      Reachable db → Reachable (CleanExpiredSessions db now fault).db
  | validateSession {db : DB} (token : String) (now : Time)
      (getFault deleteFault : Option String) :
      Reachable db → Reachable (ValidateSession db token now getFault deleteFault).db

/-! ## Strings -/

/-- The function `strings.Contains(s, substr)`. -/
def strings.Contains (s substr : String) : Bool :=
  decide (substr.toList <:+: s.toList)

/-! ## Request validation (`api/validation.go`, struct tags of `models/user.go`) -/

/-- The part of `validator.Validate` the tags rely on from outside: the test
behind the `email` tag. -/
structure Validator where
  isEmail : String → Bool

/-- The validation tags of `SignInRequest` and `LoginRequest`. -/
inductive Tag where
  | required
  | min (n : Nat)
  | max (n : Nat)
  | email
  deriving DecidableEq, Repr

/-- Whether a string field passes a tag: `required` asks for a non-empty
value, `min` and `max` bound the number of characters. -/
def Tag.holds (validate : Validator) : Tag → String → Bool
  | .required, v => !(v == "")
  | .min n, v => decide (n ≤ v.length)
  | .max n, v => decide (v.length ≤ n)
  | .email, v => validate.isEmail v

/-- A struct field as the validator sees it: its JSON name (the registered tag
name function), its value and its `validate` tags in order. -/
structure Field where
  name : String
  value : String
  tags : List Tag

/-- The first tag of the field that fails, which is the one reported. -/
def Field.failure (validate : Validator) (f : Field) : Option Tag :=
  f.tags.find? fun t => !t.holds validate f.value

/-- The result of `validate.Struct`: one entry per failing field, in field
order. -/
def validateStruct (validate : Validator) (fields : List Field) : List (String × Tag) :=
  fields.filterMap fun f => (f.failure validate).map fun t => (f.name, t)

/-- The message chosen by the `switch e.Tag()` of `Validate`. -/
def errorMessage : String × Tag → String
  | (field, .required) => field ++ " is required"
  | (field, .email) => field ++ " must be a valid email address"
  | (field, .min n) => field ++ " must be min " ++ toString n ++ " characters long"
  | (field, .max n) => field ++ " must not max " ++ toString n ++ " characters long"

/-- The function `Validate`: `none` is the `nil` error. -/
def Validate (validate : Validator) (fields : List Field) : Option GoError :=
  match validateStruct validate fields with
  | [] => none
  | errs => some (.New (String.intercalate "; " (errs.map errorMessage)))

/-- The struct `models.SignInRequest`. -/
structure SignInRequest where
  Username : String
  Email : String
  Password : String
  deriving DecidableEq, Repr

/-- The fields and tags of `SignInRequest`. -/
def SignInRequest.fields (req : SignInRequest) : List Field :=
  [⟨"username", req.Username, [.required, .min 3, .max 50]⟩,
   ⟨"email", req.Email, [.required, .email]⟩,
   ⟨"password", req.Password, [.required, .min 6, .max 100]⟩]

/-- The fields and tags of `LoginRequest`. -/
def LoginRequest.fields (req : LoginRequest) : List Field :=
  [⟨"username", req.Username, [.required]⟩, ⟨"password", req.Password, [.required]⟩]

/-! ## HTTP (`net/http`) -/

/-- The constant `http.StatusOK`. -/
def StatusOK : Nat := 200
/-- The constant `http.StatusBadRequest`. -/
def StatusBadRequest : Nat := 400
/-- The constant `http.StatusUnauthorized`. -/
def StatusUnauthorized : Nat := 401
/-- The constant `http.StatusNotFound`. -/
def StatusNotFound : Nat := 404
/-- The constant `http.StatusInternalServerError`. -/
def StatusInternalServerError : Nat := 500

/-- The field `SameSite` of a cookie; `unset` is the zero value. -/
inductive SameSite where
  | unset
  | SameSiteDefaultMode
  | SameSiteLaxMode
  | SameSiteStrictMode
  | SameSiteNoneMode
  deriving DecidableEq, Repr

/-- The struct `http.Cookie`, with the fields the handlers set.  `Expires` is
`none` for the zero time. -/
structure Cookie where
  Name : String
  Value : String
  Path : String
  Expires : Option Time
  MaxAge : Int
  HttpOnly : Bool
  SameSite : SameSite
  deriving DecidableEq, Repr

/-- A `context.Context`: the values attached by `context.WithValue`, newest
first. -/
abbrev Context := List (String × String)

/-- The function `context.WithValue`. -/
def Context.WithValue (ctx : Context) (key val : String) : Context := (key, val) :: ctx

/-- The method `ctx.Value(key)`. -/
def Context.Value (ctx : Context) (key : String) : Option String :=
  (ctx.find? fun kv => kv.1 == key).map fun kv => kv.2

/-- An `http.Request`: the cookies it carries in header order, its body, its
context, and the bytes of its `Authorization` header if it has one. -/
structure Request where
  cookies : List Cookie
  body : String
  context : Context
  authorization : Option (List (Fin 256))
  deriving DecidableEq, Repr

/-- The sentinel `http.ErrNoCookie`. -/
def ErrNoCookie : GoError := .New "http: named cookie not present"

/-- The method `r.Cookie(name)`: the first cookie of that name, or
`http.ErrNoCookie`. -/
def Request.Cookie (r : Request) (name : String) : Except GoError Cookie :=
  match r.cookies.find? fun c => c.Name == name with
  | some c => .ok c
  | none => .error ErrNoCookie

/-- The method `r.WithContext(ctx)`. -/
def Request.WithContext (r : Request) (ctx : Context) : Request := { r with context := ctx }

/-- What an `http.ResponseWriter` has received: the status once the header is
written, the header fields, the cookies added by `http.SetCookie` and the
body. -/
structure ResponseWriter where
  status : Option Nat
  header : List (String × String)
  cookies : List Cookie
  body : String
  deriving DecidableEq, Repr

/-- A writer nothing has been written to. -/
def ResponseWriter.fresh : ResponseWriter := ⟨none, [], [], ""⟩

/-- The call `w.Header().Set(key, value)`; without effect once the header is
written. -/
def ResponseWriter.HeaderSet (w : ResponseWriter) (key value : String) : ResponseWriter :=
  match w.status with
  | some _ => w
  | none => { w with header := (key, value) :: w.header.filter fun kv => !(kv.1 == key) }

/-- The method `w.WriteHeader(code)`; only the first call counts. -/
def ResponseWriter.WriteHeader (w : ResponseWriter) (code : Nat) : ResponseWriter :=
  match w.status with
  | some _ => w
  | none => { w with status := some code }

/-- The method `w.Write(data)`; writes the header with status 200 first if it
has not been written. -/
def ResponseWriter.Write (w : ResponseWriter) (data : String) : ResponseWriter :=
  let w1 := w.WriteHeader StatusOK
  { w1 with body := w1.body ++ data }

/-- The function `http.SetCookie`; without effect once the header is written. -/
def http.SetCookie (w : ResponseWriter) (cookie : Cookie) : ResponseWriter :=
  match w.status with
  | some _ => w
  | none => { w with cookies := w.cookies ++ [cookie] }

/-- The function `http.Error`: a plain-text reply with the given status and
the message followed by a newline. -/
def http.Error (w : ResponseWriter) (error : String) (code : Nat) : ResponseWriter :=
  let w1 := w.HeaderSet "Content-Type" "text/plain; charset=utf-8"
  let w2 := w1.HeaderSet "X-Content-Type-Options" "nosniff"
  (w2.WriteHeader code).Write (error ++ "\n")

/-- The output of `json.NewEncoder(w).Encode(map[string]string{"message": m})`
for a message without characters that JSON escapes. -/
def encodeMessage (m : String) : String := "\x7b\"message\":\"" ++ m ++ "\"\x7d\n"

/-- The JSON functions applied to request and response bodies. -/
structure JSONCodec where
  /-- The call `json.NewDecoder(r.Body).Decode(&req)` for a `LoginRequest`. -/
  DecodeLoginRequest : String → Except GoError LoginRequest
  /-- The output of `json.NewEncoder(w).Encode(response)`. -/
  EncodeAuthResponse : AuthResponse → String

/-- An `http.HandlerFunc` acting on the database. -/
abbrev HandlerFunc := ResponseWriter → Request → DB → ResponseWriter × DB

/-- What serving a request through a middleware produced: the writer, the
database, and the requests with which the wrapped handler ran, in order. -/
structure Served where
  w : ResponseWriter
  db : DB
  calls : List Request

/-! ## `UserHandler` (`api/handlers.go`) -/

/-- The handler `UserHandler.LoginWithSession`.  The arguments after `db` are
those of the service call; `handlerNow` is the reading of `time.Now()` for the
cookie. -/
def UserHandler.LoginWithSession (json : JSONCodec) (validate : Validator) (lib : Library)
    (w : ResponseWriter) (r : Request) (db : DB) (lookupFault : Option String)
    (uuid : UUID) (now1 now2 : Time) (createFault : Option String) (handlerNow : Time) :
    ResponseWriter × DB :=
  match json.DecodeLoginRequest r.body with
  | .error _ => (http.Error w "Invalid request body" StatusBadRequest, db)
  | .ok req =>
    match Validate validate req.fields with
    | some err => (http.Error w err.Error StatusBadRequest, db)
    | none =>
      match SocialNetwork.LoginWithSession lib db req lookupFault uuid now1 now2
        createFault with
      | ⟨.error err, db'⟩ =>
        if strings.Contains err.Error "invalid credentials" then
          (http.Error w "Invalid username or password" StatusUnauthorized, db')
        else if strings.Contains err.Error "not found" then
          (http.Error w "User not found" StatusNotFound, db')
        else
          (http.Error w ("Login failed: " ++ err.Error) StatusInternalServerError, db')
      | ⟨.ok response, db'⟩ =>
        let w1 := http.SetCookie w
          { Name := "session_token", Value := response.Token,
            Expires := some (Time.Add handlerNow (24 * Hour)), HttpOnly := true,
            Path := "/", SameSite := .SameSiteStrictMode, MaxAge := 0 }
        let w2 := w1.HeaderSet "Content-Type" "application/json"
        (w2.Write (json.EncodeAuthResponse response), db')

/-- The handler `UserHandler.Logout`. -/
def UserHandler.Logout (w : ResponseWriter) (r : Request) (db : DB)
    (fault : Option String) : ResponseWriter × DB :=
  match r.Cookie "session_token" with
  | .error err =>
    if err = ErrNoCookie then
      ((w.WriteHeader StatusOK).Write (encodeMessage "Already logged out"), db)
    else
      (http.Error w "Error reading cookie" StatusBadRequest, db)
  | .ok cookie =>
    match SocialNetwork.Logout db cookie.Value fault with
    | ⟨.error err, db'⟩ =>
      (http.Error w ("Logout failed: " ++ err.Error) StatusInternalServerError, db')
    | ⟨.ok _, db'⟩ =>
      let w1 := http.SetCookie w
        { Name := "session_token", Value := "", MaxAge := -1, HttpOnly := true, Path := "/",
          Expires := none, SameSite := .unset }
      ((w1.WriteHeader StatusOK).Write (encodeMessage "Logged out successfully"), db')

/-- The handler returned by `UserHandler.SessionAuthMiddleware(next)`. -/
def UserHandler.SessionAuthMiddleware (next : HandlerFunc) (w : ResponseWriter)
    (r : Request) (db : DB) (now : Time) (getFault deleteFault : Option String) : Served :=
  match r.Cookie "session_token" with
  | .error err =>
    if err = ErrNoCookie then
      ⟨http.Error w "Unauthorized: No session token" StatusUnauthorized, db, []⟩
    else
      ⟨http.Error w "Error reading cookie" StatusBadRequest, db, []⟩
  | .ok cookie =>
    match ValidateSession db cookie.Value now getFault deleteFault with
    | ⟨.error err, db'⟩ =>
      ⟨http.Error w ("Unauthorized: " ++ err.Error) StatusUnauthorized, db', []⟩
    | ⟨.ok session, db'⟩ =>
      let ctx := r.context.WithValue "username" session.Username
      let r' := r.WithContext ctx
      let out := next w r' db'
      ⟨out.1, out.2, [r']⟩

/-! ## Example requests -/

/-- A stand-in for the JSON functions: a login body is `username:password`. -/
def sampleJSON : JSONCodec :=
  { DecodeLoginRequest := fun body =>
      match body.toList.span (fun c => !(c == ':')) with
      | (u, _ :: p) => .ok ⟨String.mk u, String.mk p⟩
      | (_, []) => .error (.New "unexpected end of JSON input")
    EncodeAuthResponse := fun resp => resp.Username ++ " " ++ resp.Token ++ "\n" }

/-- A stand-in for the `email` test: the value contains `@`. -/
def sampleValidator : Validator := { isEmail := fun v => v.toList.contains '@' }

/-- A cookie as a browser sends it: a name and a value. -/
def requestCookie (name value : String) : Cookie :=
  { Name := name, Value := value, Path := "", Expires := none, MaxAge := 0,
    HttpOnly := false, SameSite := .unset }

/-- A request with the given cookies and body and nothing else. -/
def requestWith (cookies : List Cookie) (body : String) : Request :=
  { cookies := cookies, body := body, context := [], authorization := none }

/-- A handler that writes the `username` of the request context. -/
def echoUsername : HandlerFunc := fun w r db =>
  (w.Write ((r.context.Value "username").getD "?"), db)

/-! ## Basic authentication (`extractBasicAuth`, `encoding/base64`) -/

/-- A Go string seen as its bytes. -/
abbrev Bytes := List (Fin 256)

/-- The byte with value `n mod 256`. -/
def byteOf (n : Nat) : Fin 256 := ⟨n % 256, Nat.mod_lt n (by decide)⟩

/-- The bytes of a text. -/
def bytesOf (s : String) : Bytes := s.toList.map fun c => byteOf c.toNat

/-- The standard base64 alphabet: the character for a 6-bit value. -/
def base64Char (v : Nat) : Fin 256 :=
  if v < 26 then byteOf (65 + v)
  else if v < 52 then byteOf (97 + (v - 26))
  else if v < 62 then byteOf (48 + (v - 52))
  else if v = 62 then byteOf 43
  else byteOf 47

/-- The decode map of the standard alphabet: the 6-bit value of a character,
if it is in the alphabet. -/
def base64Value (c : Fin 256) : Option Nat :=
  if 65 ≤ c.val ∧ c.val ≤ 90 then some (c.val - 65)
  else if 97 ≤ c.val ∧ c.val ≤ 122 then some (c.val - 97 + 26)
  else if 48 ≤ c.val ∧ c.val ≤ 57 then some (c.val - 48 + 52)
  else if c.val = 43 then some 62
  else if c.val = 47 then some 63
  else none

/-- The padding character `=`. -/
def padChar : Fin 256 := 61

/-- The function `base64.StdEncoding.EncodeToString`: four characters for every
three bytes, the last group padded with `=`. -/
def EncodeToString : Bytes → Bytes
  | a :: b :: c :: rest =>
    base64Char (a.val / 4) :: base64Char (a.val % 4 * 16 + b.val / 16) ::
      base64Char (b.val % 16 * 4 + c.val / 64) :: base64Char (c.val % 64) ::
      EncodeToString rest
  | [a, b] =>
    [base64Char (a.val / 4), base64Char (a.val % 4 * 16 + b.val / 16),
      base64Char (b.val % 16 * 4), padChar]
  | [a] => [base64Char (a.val / 4), base64Char (a.val % 4 * 16), padChar, padChar]
  | [] => []

/-- Decoding of the input once line breaks are dropped: groups of four
characters; only the last group may end in one or two `=`; unused low bits of
a padded group are not checked. -/
def decodeQuanta : Bytes → Option Bytes
  | [] => some []
  | c1 :: c2 :: c3 :: c4 :: rest =>
    match base64Value c1, base64Value c2 with
    | some v1, some v2 =>
      match base64Value c3, base64Value c4 with
      | some v3, some v4 =>
        (decodeQuanta rest).map fun out =>
          byteOf (v1 * 4 + v2 / 16) :: byteOf (v2 % 16 * 16 + v3 / 4) ::
            byteOf (v3 % 4 * 64 + v4) :: out
      | some v3, none =>
        if c4 = padChar ∧ rest = [] then
          some [byteOf (v1 * 4 + v2 / 16), byteOf (v2 % 16 * 16 + v3 / 4)]
        else none
      | none, _ =>
        if c3 = padChar ∧ c4 = padChar ∧ rest = [] then some [byteOf (v1 * 4 + v2 / 16)]
        else none
    | _, _ => none
  | _ => none

/-- The function `base64.StdEncoding.DecodeString`: carriage returns and line
feeds are ignored; `none` is a decoding error. -/
def DecodeString (s : Bytes) : Option Bytes :=
  decodeQuanta (s.filter fun c => !(c == 10 || c == 13))

/-- The function `strings.HasPrefix` on bytes. -/
def hasPrefixBytes (s pre : Bytes) : Bool := pre.isPrefixOf s

/-- The call `strings.SplitN(s, ":", 2)`: the text before and after the first
colon, or the text alone if it has no colon. -/
def splitColon (s : Bytes) : List Bytes :=
  match s.span fun c => !(c == 58) with
  | (a, _ :: b) => [a, b]
  | (a, []) => [a]

/-- The bytes of `"Basic "`. -/
def basicScheme : Bytes := [66, 97, 115, 105, 99, 32]

/-- The function `extractBasicAuth`, on the `Authorization` header of the
request (`r.Header.Get` gives the empty string when the header is absent). -/
def extractBasicAuth (r : Request) : Bytes × Bytes × Bool :=
  let auth := r.authorization.getD []
  if auth = [] then ([], [], false)
  else if !hasPrefixBytes auth basicScheme then ([], [], false)
  else
    let encoded := auth.drop basicScheme.length
    match DecodeString encoded with
    | none => ([], [], false)
    | some decoded =>
      match splitColon decoded with
      | [username, password] => (username, password, true)
      | _ => ([], [], false)

/-- A request whose only content is the given `Authorization` header. -/
def requestWithAuthorization (auth : Bytes) : Request :=
  { cookies := [], body := "", context := [], authorization := some auth }

/-! ## The expiry sweeper (`periodicSessionCleanup`, `main.go`) -/

/-- A `time.Ticker`, given by its period. -/
structure Ticker where
  d : Duration
  deriving DecidableEq, Repr

/-- The function `time.NewTicker`. -/
def time.NewTicker (d : Duration) : Ticker := ⟨d⟩

/-- The instant at which a ticker created at `created` sends its `n`-th tick
(`n = 1, 2, ...`): `n` periods after its creation. -/
def Ticker.tickInstant (t : Ticker) (created : Time) (n : Nat) : Time :=
  created + n * t.d

/-- What one `select` of the cleanup loop receives: the `n`-th tick of the
ticker from `ticker.C`, or the closing of the `stop` channel.  A tick carries
what the cleanup it triggers meets: `delay` is the number of nanoseconds
between the instant of the tick and the reading of `time.Now()` in
`CleanExpiredSessions`, and `fault` the driver behaviour of that call.  The
clock `time.Now()` reads is taken to advance with the ticker's (it is not set
back while the routine runs), so the delay is not negative. -/
inductive CleanupEvent where
  | tick (n : Nat) (delay : Nat) (fault : Option String)
  | stop
  deriving DecidableEq, Repr

/-- The error of an outcome, `none` for `nil`. -/
def Outcome.err {α : Type} (out : Outcome α) : Option GoError :=
  match out.result with
  | .error e => some e
  | .ok _ => none

/-- A run of the cleanup routine: the database it left, the calls to
`CleanExpiredSessions` it made (clock reading and returned error, in order),
the lines it logged, and whether it has returned. -/
structure CleanupRun where
  db : DB
  cleanups : List (Time × Option GoError)
  logs : List String
  returned : Bool
  deriving DecidableEq, Repr

/-- The line logged for the error of a cleanup, if any. -/
def cleanupErrorLog : Option GoError → List String
  | some e => ["Error cleaning up expired sessions: " ++ e.Error]
  | none => []

/-- The `for { select { ... } }` loop of `periodicSessionCleanup` on the events
its `select` receives, in order, for the ticker created at `created`.  When
the events run out the routine is blocked in `select` and has not returned. -/
def cleanupLoop (ticker : Ticker) (created : Time) (db : DB) :
    List CleanupEvent → CleanupRun
  | [] => ⟨db, [], [], false⟩
  | .stop :: _ => ⟨db, [], ["Stopping session cleanup routine"], true⟩
  | .tick n delay fault :: rest =>
    let now := ticker.tickInstant created n + delay
    let out := CleanExpiredSessions db now fault
    let run := cleanupLoop ticker created out.db rest
    ⟨run.db, (now, out.err) :: run.cleanups,
      "Cleaning up expired sessions..." :: cleanupErrorLog out.err ++ run.logs,
      run.returned⟩

/-- The routine `periodicSessionCleanup`, started at the instant `created`: it
creates the ticker, runs one cleanup at once (which reads the clock `delay0`
nanoseconds later and meets the driver behaviour `fault0`), then enters the
loop. -/
def periodicSessionCleanup (db : DB) (created : Time) (delay0 : Nat)
    (fault0 : Option String) (events : List CleanupEvent) : CleanupRun :=
  let ticker := time.NewTicker (1 * Hour)
  let out := CleanExpiredSessions db (created + delay0) fault0
  let run := cleanupLoop ticker created out.db events
  ⟨run.db, (created + delay0, out.err) :: run.cleanups,
    cleanupErrorLog out.err ++ run.logs, run.returned⟩

/-- The schedule in the words of the specification: the cleanups due after
the one at start, one for every tick received before the stop channel is
closed, the `n`-th tick falling `n` hours after the start.  Each entry is the
clock reading of the cleanup and the driver behaviour it meets. -/
def scheduledAfterStart (created : Time) : List CleanupEvent → List (Time × Option String)
  | [] => []
  | .stop :: _ => []
  | .tick n delay fault :: rest =>
    (created + n * (3600 * Second) + delay, fault) :: scheduledAfterStart created rest

/-- The method `CleanExpiredSessions` called once for every entry, in order,
whatever the calls before returned: the database left, and the clock reading
and error of every call. -/
def cleanInTurn (db : DB) : List (Time × Option String) → DB × List (Time × Option GoError)
  | [] => (db, [])
  | (now, fault) :: rest =>
    let out := CleanExpiredSessions db now fault
    let r := cleanInTurn out.db rest
    (r.1, (now, out.err) :: r.2)

/-- Whether a session outlives the given cleanups: no cleanup that returned
without error read the clock after the expiry of the session. -/
def survivesCleanups (cleanups : List (Time × Option GoError)) (s : Session) : Bool :=
  cleanups.all fun c => c.2.isSome || !decide (s.ExpiresAt < c.1)

/-! ## Public profile (`UserService.GetUserPublicProfile`) -/

/-- The struct `models.UserPublic`. -/
structure UserPublic where
  Username : String
  Name : String
  Surname : String
  deriving DecidableEq, Repr

/-- The method `UserService.GetUserPublicProfile`. -/
def GetUserPublicProfile (db : DB) (username : String) (fault : Option String) :
    Except GoError UserPublic :=
  match GetUserByUsername db username fault with
  | .error err => .error err
  | .ok user => .ok { Username := user.Username, Name := user.Name, Surname := user.Surname }

/-- What a user record shows in public: username, name and surname. -/
def User.publicPart (u : User) : String × String × String := (u.Username, u.Name, u.Surname)

/-- The record of `bob` in another deployment: same username, name and
surname, everything else different. -/
def bobElsewhere : User :=
  { ID := 77, Username := "bob", Password := "#other", Email := "b@elsewhere.org",
    Name := "Bob", Surname := "B", Birthdate := 9, PhoneNumber := "555", CreatedAt := 8,
    UpdatedAt := 7 }

/-- A database whose only user is `bobElsewhere`. -/
def otherDB : DB := { users := [bobElsewhere], sessions := [], sessionSeq := 0 }

/-! ## Registration (`UserService.SignIn`, `UserRepository`) -/

/-- The zero `time.Time`: January 1 of year 1, 00:00:00 UTC. -/
def Time.zero : Time := -62135596800 * Second

/-- The function of `golang.org/x/crypto/bcrypt` that `HashPassword` calls. -/
structure Bcrypt where
  GenerateFromPassword : String → Nat → Except GoError String

/-- The function `models.HashPassword`: bcrypt with cost 14. -/
def HashPassword (bcrypt : Bcrypt) (password : String) : Except GoError String :=
  bcrypt.GenerateFromPassword password 14

/-- The method `UserRepository.UserExists`:
`SELECT EXISTS(SELECT 1 FROM users WHERE username = $1)`. -/
def UserExists (db : DB) (username : String) (fault : Option String) :
    Except GoError Bool :=
  match fault with
  | some m => .error (.driver m)
  | none => .ok (db.users.any fun u => u.Username == username)

/-- The method `UserRepository.EmailExists`:
`SELECT EXISTS(SELECT 1 FROM users WHERE email = $1)`. -/
def EmailExists (db : DB) (email : String) (fault : Option String) : Except GoError Bool :=
  match fault with
  | some m => .error (.driver m)
  | none => .ok (db.users.any fun u => u.Email == email)

/-- The error PostgreSQL raises when a constraint of `users` is violated. -/
def usersViolation (constraint : String) : GoError :=
  .driver ("pq: duplicate key value violates unique constraint \"" ++ constraint ++ "\"")

/-- The method `UserRepository.CreateUser`: `INSERT INTO users (...) RETURNING
id` under the constraints declared in `UserRepository.Init`.  `newID` is the
value the `SERIAL` column draws, `now1` and `now2` the two readings of
`time.Now()` written to `created_at` and `updated_at`.  The result is the id
stored into `user.ID`. -/
def CreateUser (db : DB) (user : User) (newID : Int) (now1 now2 : Time)
    (fault : Option String) : Outcome Int :=
  match fault with
  | some m => ⟨.error (.driver m), db⟩
  | none =>
    if db.users.any (fun u => u.ID == newID) then
      ⟨.error (usersViolation "users_pkey"), db⟩
    else if db.users.any (fun u => u.Username == user.Username) then
      ⟨.error (usersViolation "users_username_key"), db⟩
    else if db.users.any (fun u => u.Email == user.Email) then
      ⟨.error (usersViolation "users_email_key"), db⟩
    else
      ⟨.ok newID,
       { db with users := db.users ++
          [{ user with ID := newID, CreatedAt := now1, UpdatedAt := now2 }] }⟩

/-- The method `UserService.SignIn` (its two `fmt.Println` calls and its nil
checks left out).  `userFault` and `emailFault` belong to the two existence
queries, `now1` and `now2` are the readings of `time.Now()` for the `User`
value, and the remaining arguments are those of `CreateUser`. -/
def SignIn (bcrypt : Bcrypt) (db : DB) (req : SignInRequest)
    (userFault emailFault : Option String) (now1 now2 : Time) (newID : Int)
    (createNow1 createNow2 : Time) (createFault : Option String) : Outcome AuthResponse :=
  match UserExists db req.Username userFault with
  | .error err => ⟨.error err, db⟩
  | .ok true => ⟨.error (.New "username already exists"), db⟩
  | .ok false =>
    match EmailExists db req.Email emailFault with
    | .error err => ⟨.error err, db⟩
    | .ok true => ⟨.error (.New "email already exists"), db⟩
    | .ok false =>
      match HashPassword bcrypt req.Password with
      | .error err => ⟨.error err, db⟩
      | .ok hashedPassword =>
        let user : User :=
          { ID := 0, Username := req.Username, Password := hashedPassword,
            Email := req.Email, Name := "", Surname := "", Birthdate := Time.zero,
            PhoneNumber := "", CreatedAt := now1, UpdatedAt := now2 }
        match CreateUser db user newID createNow1 createNow2 createFault with
        | ⟨.error err, db'⟩ => ⟨.error err, db'⟩
        | ⟨.ok _, db'⟩ =>
          ⟨.ok { Username := user.Username, Message := "User created successfully",
                 Token := "", ExpiresAt := "" }, db'⟩

/-- The constant `http.StatusCreated`. -/
def StatusCreated : Nat := 201
/-- The constant `http.StatusConflict`. -/
def StatusConflict : Nat := 409

/-- The handler `UserHandler.SignIn`.  `decode` is
`json.NewDecoder(r.Body).Decode(&req)` and `encode` the output of
`json.NewEncoder(w).Encode(response)`; the arguments after `db` are those of
the service call. -/
def UserHandler.SignIn (decode : String → Except GoError SignInRequest)
    (encode : AuthResponse → String) (validate : Validator) (bcrypt : Bcrypt)
    (w : ResponseWriter) (r : Request) (db : DB) (userFault emailFault : Option String)
    (now1 now2 : Time) (newID : Int) (createNow1 createNow2 : Time)
    (createFault : Option String) : ResponseWriter × DB :=
  match decode r.body with
  | .error _ => (http.Error w "Invalid request body" StatusBadRequest, db)
  | .ok req =>
    match Validate validate req.fields with
    | some err => (http.Error w err.Error StatusBadRequest, db)
    | none =>
      match SocialNetwork.SignIn bcrypt db req userFault emailFault now1 now2 newID
        createNow1 createNow2 createFault with
      | ⟨.error err, db'⟩ =>
        if strings.Contains err.Error "already exists" then
          (http.Error w err.Error StatusConflict, db')
        else
          (http.Error w ("Error creating user: " ++ err.Error) StatusInternalServerError,
            db')
      | ⟨.ok response, db'⟩ =>
        let w1 := w.HeaderSet "Content-Type" "application/json"
        ((w1.WriteHeader StatusCreated).Write (encode response), db')

/-- A stand-in for bcrypt matching `sampleLibrary`: the hash of `p` is
`"#" ++ p`. -/
def sampleBcrypt : Bcrypt := { GenerateFromPassword := fun p _ => .ok ("#" ++ p) }

/-- A stand-in for the JSON decoding of a sign-in body: `username,email,password`. -/
def sampleDecodeSignIn (body : String) : Except GoError SignInRequest :=
  match body.toList.span (fun c => !(c == ',')) with
  | (u, _ :: rest) =>
    match rest.span (fun c => !(c == ',')) with
    | (e, _ :: p) => .ok ⟨String.mk u, String.mk e, String.mk p⟩
    | (_, []) => .error (.New "unexpected end of JSON input")
  | (_, []) => .error (.New "unexpected end of JSON input")

/-! ## `time.Parse` and `time.Date`

The layout language of Go's `time` package for layouts made of numeric date
and clock elements and literal characters.  Elements outside this fragment
(two-digit year `06`, day of year `002`, textual months and weekdays, `PM`,
time zones, fractional seconds, `_` padding and spaces) are recognised by
`layoutChunks` and marked `unsupported`; `time.Parse` then fails with
`unsupportedLayout`, which none of the layouts used below meets. -/

/-- The numeric layout elements, with the reference text of each. -/
inductive Std where
  /-- The element `2006`. -/
  | stdLongYear
  /-- The element `01`. -/
  | stdZeroMonth
  /-- The element `1`. -/
  | stdNumMonth
  /-- The element `2`. -/
  | stdDay
  /-- The element `02`. -/
  | stdZeroDay
  /-- The element `15`. -/
  | stdHour
  /-- The element `3`. -/
  | stdHour12
  /-- The element `03`. -/
  | stdZeroHour12
  /-- The element `4`. -/
  | stdMinute
  /-- The element `04`. -/
  | stdZeroMinute
  /-- The element `5`. -/
  | stdSecond
  /-- The element `05`. -/
  | stdZeroSecond
  deriving DecidableEq, Repr

/-- One piece of a layout: a literal character, a numeric element, or an
element outside the fragment. -/
inductive Chunk where
  | lit (c : Char)
  | std (s : Std)
  | unsupported
  deriving DecidableEq, Repr

/-- The pieces of a layout, as repeated calls of `nextStdChunk` find them. -/
def layoutChunks : List Char → List Chunk
  | [] => []
  | '0' :: '1' :: rest => .std .stdZeroMonth :: layoutChunks rest
  | '0' :: '2' :: rest => .std .stdZeroDay :: layoutChunks rest
  | '0' :: '3' :: rest => .std .stdZeroHour12 :: layoutChunks rest
  | '0' :: '4' :: rest => .std .stdZeroMinute :: layoutChunks rest
  | '0' :: '5' :: rest => .std .stdZeroSecond :: layoutChunks rest
  | '0' :: '6' :: rest => .unsupported :: layoutChunks rest
  | '0' :: '0' :: '2' :: rest => .unsupported :: layoutChunks rest
  | '1' :: '5' :: rest => .std .stdHour :: layoutChunks rest
  | '1' :: rest => .std .stdNumMonth :: layoutChunks rest
  | '2' :: '0' :: '0' :: '6' :: rest => .std .stdLongYear :: layoutChunks rest
  | '2' :: rest => .std .stdDay :: layoutChunks rest
  | '3' :: rest => .std .stdHour12 :: layoutChunks rest
  | '4' :: rest => .std .stdMinute :: layoutChunks rest
  | '5' :: rest => .std .stdSecond :: layoutChunks rest
  | '-' :: '0' :: '7' :: rest => .unsupported :: layoutChunks rest
  | c :: rest =>
    if c ∈ ['J', 'M', '_', 'P', 'p', 'Z', '.', ',', ' '] then
      .unsupported :: layoutChunks rest
    else .lit c :: layoutChunks rest

/-- The function `isDigit`. -/
def isDigit (c : Char) : Bool := decide ('0' ≤ c ∧ c ≤ '9')

/-- The value of a decimal digit. -/
def digitValue (c : Char) : Nat := c.toNat - 48

/-- The function `getnum`: one or two leading digits, exactly two if
`fixed`. -/
def getnum (s : List Char) (fixed : Bool) : Option (Nat × List Char) :=
  match s with
  | [] => none
  | [c0] => if isDigit c0 && !fixed then some (digitValue c0, []) else none
  | c0 :: c1 :: rest =>
    if !isDigit c0 then none
    else if isDigit c1 then some (digitValue c0 * 10 + digitValue c1, rest)
    else if fixed then none
    else some (digitValue c0, c1 :: rest)

/-- The decimal number written by a list of digits. -/
def digitsValue (ds : List Char) : Nat := ds.foldl (fun n c => n * 10 + digitValue c) 0

/-- The fields a parse collects, with the defaults of `time.Parse`. -/
structure ParseFields where
  year : Int
  month : Int
  day : Int
  hour : Int
  min : Int
  sec : Int
  nsec : Int
  deriving DecidableEq, Repr

/-- The initial fields: month and day not yet seen. -/
def ParseFields.init : ParseFields := ⟨0, -1, -1, 0, 0, 0, 0⟩

/-- The function `isLeap`. -/
def isLeap (year : Int) : Bool :=
  year % 4 == 0 && (year % 100 != 0 || year % 400 == 0)

/-- The function `daysIn`: the number of days of a month (1 to 12) of a year. -/
def daysIn (month : Int) (year : Int) : Int :=
  if month == 2 then (if isLeap year then 29 else 28)
  else if month == 4 || month == 6 || month == 9 || month == 11 then 30
  else 31

/-- The number of days from January 1, 1970 to the given civil date. -/
def daysFromCivil (year month day : Int) : Int :=
  let y := if month ≤ 2 then year - 1 else year
  let era := y / 400
  let yoe := y - era * 400
  let mp := if month > 2 then month - 3 else month + 9
  let doy := (153 * mp + 2) / 5 + day - 1
  let doe := yoe * 365 + yoe / 4 - yoe / 100 + doy
  era * 146097 + doe - 719468

/-- The function `time.Date` in UTC, for fields within their ranges. -/
def time.Date (year month day hour min sec nsec : Int) : Time :=
  ((daysFromCivil year month day * 86400 + hour * 3600 + min * 60 + sec) * 1000000000
    + nsec)

/-- The error of a failed parse (a `*time.ParseError`; its text is not
modelled). -/
def parseError : GoError := .New "parsing time: cannot parse"

/-- The result for a layout outside the modelled fragment. -/
def unsupportedLayout : GoError := .New "layout element outside the model"

/-- A fractional second in the value after the seconds, which `time.Parse`
accepts although the layout has none: a period or comma and digits, of which
nine count. -/
def parseFraction (value : List Char) : Int × List Char :=
  match value with
  | sep :: d :: rest =>
    if (sep == '.' || sep == ',') && isDigit d then
      let digits := ((d :: rest).takeWhile isDigit).take 9
      ((digitsValue digits * 10 ^ (9 - digits.length) : Nat), (d :: rest).dropWhile isDigit)
    else (0, value)
  | _ => (0, value)

/-- One numeric element read from the value: the fields and the rest of the
value, or `none` for a malformed or out-of-range number. -/
def parseStd (s : Std) (f : ParseFields) (value : List Char) :
    Option (ParseFields × List Char) :=
  match s with
  | .stdLongYear =>
    match value with
    | c0 :: c1 :: c2 :: c3 :: rest =>
      if isDigit c0 && isDigit c1 && isDigit c2 && isDigit c3 then
        some ({ f with year := digitsValue [c0, c1, c2, c3] }, rest)
      else none
    | _ => none
  | .stdZeroMonth | .stdNumMonth =>
    match getnum value (s == .stdZeroMonth) with
    | none => none
    | some (n, rest) => if n = 0 ∨ 12 < n then none else some ({ f with month := n }, rest)
  | .stdDay | .stdZeroDay =>
    match getnum value (s == .stdZeroDay) with
    | none => none
    | some (n, rest) => some ({ f with day := n }, rest)
  | .stdHour =>
    match getnum value false with
    | none => none
    | some (n, rest) => if 24 ≤ n then none else some ({ f with hour := n }, rest)
  | .stdHour12 | .stdZeroHour12 =>
    match getnum value (s == .stdZeroHour12) with
    | none => none
    | some (n, rest) => if 12 < n then none else some ({ f with hour := n }, rest)
  | .stdMinute | .stdZeroMinute =>
    match getnum value (s == .stdZeroMinute) with
    | none => none
    | some (n, rest) => if 60 ≤ n then none else some ({ f with min := n }, rest)
  | .stdSecond | .stdZeroSecond =>
    match getnum value (s == .stdZeroSecond) with
    | none => none
    | some (n, rest) =>
      if 60 ≤ n then none
      else some ({ f with sec := n, nsec := (parseFraction rest).1 }, (parseFraction rest).2)

/-- The end of `time.Parse`: defaults for an unseen month and day, the check
of the day against the month, and `time.Date` in UTC. -/
def finishParse (f : ParseFields) : Except GoError Time :=
  let month := if f.month < 0 then 1 else f.month
  let day := if f.day < 0 then 1 else f.day
  if day < 1 ∨ day > daysIn month f.year then .error parseError
  else .ok (time.Date f.year month day f.hour f.min f.sec f.nsec)

/-- The loop of `time.Parse` over the pieces of the layout. -/
def parseChunks : List Chunk → ParseFields → List Char → Except GoError Time
  | [], f, value => if value = [] then finishParse f else .error parseError
  | .unsupported :: _, _, _ => .error unsupportedLayout
  | .lit c :: chunks, f, value =>
    match value with
    | v :: rest => if v = c then parseChunks chunks f rest else .error parseError
    | [] => .error parseError
  | .std s :: chunks, f, value =>
    match parseStd s f value with
    | none => .error parseError
    | some (f', rest) => parseChunks chunks f' rest

/-- The function `time.Parse(layout, value)`. -/
def time.Parse (layout value : String) : Except GoError Time :=
  parseChunks (layoutChunks layout.toList) ParseFields.init value.toList

/-! ## Profile update (`UserService.UpdateUserProfileBySession`) -/

/-- The struct `models.UpdateUserRequest`. -/
structure UpdateUserRequest where
  Name : String
  Surname : String
  Email : String
  Birthdate : String
  PhoneNumber : String
  deriving DecidableEq, Repr

/-- The method `UserRepository.UpdateUser`: `UPDATE users SET ... WHERE
username = $7`, with `now` the reading of `time.Now()` for `updated_at`; the
`UNIQUE` constraint on `email` refuses an email another row holds. -/
def UpdateUser (db : DB) (user : User) (now : Time) (fault : Option String) :
    Outcome Unit :=
  match fault with
  | some m => ⟨.error (.driver m), db⟩
  | none =>
    if db.users.any (fun u => u.Email == user.Email && !(u.Username == user.Username)) then
      ⟨.error (usersViolation "users_email_key"), db⟩
    else
      ⟨.ok (),
       { db with users := db.users.map fun u =>
          if u.Username == user.Username then
            { u with Name := user.Name, Surname := user.Surname, Email := user.Email,
                     Birthdate := user.Birthdate, PhoneNumber := user.PhoneNumber,
                     UpdatedAt := now }
          else u }⟩

/-- The email step of `UpdateUserProfileBySession`. -/
def updateEmail (db : DB) (user : User) (req : UpdateUserRequest)
    (emailFault : Option String) : Except GoError User :=
  if req.Email != "" && req.Email != user.Email then
    match EmailExists db req.Email emailFault with
    | .error err => .error err
    | .ok true => .error (.New "email already used by another account")
    | .ok false => .ok { user with Email := req.Email }
  else .ok user

/-- The birthdate step of `UpdateUserProfileBySession`, with the layout
literal of the source. -/
def updateBirthdate (user : User) (req : UpdateUserRequest) : Except GoError User :=
  if req.Birthdate != "" then
    match time.Parse "2025-03-01" req.Birthdate with
    | .error _ => .error (.New "invalid birthdate format")
    | .ok birthdate => .ok { user with Birthdate := birthdate }
  else .ok user

/-- The method `UserService.UpdateUserProfileBySession`.  `lookupFault`
belongs to the user query, `emailFault` to `EmailExists`, `now` and
`updateFault` to `UpdateUser`. -/
def UpdateUserProfileBySession (db : DB) (username : String) (req : UpdateUserRequest)
    (lookupFault emailFault : Option String) (now : Time) (updateFault : Option String) :
    Outcome User :=
  match GetUserByUsername db username lookupFault with
  | .error err => ⟨.error err, db⟩
  | .ok user =>
    let user1 := if req.Name != "" then { user with Name := req.Name } else user
    let user2 := if req.Surname != "" then { user1 with Surname := req.Surname } else user1
    match updateEmail db user2 req emailFault with
    | .error err => ⟨.error err, db⟩
    | .ok user3 =>
      let user4 :=
        if req.PhoneNumber != "" then { user3 with PhoneNumber := req.PhoneNumber } else user3
      match updateBirthdate user4 req with
      | .error err => ⟨.error err, db⟩
      | .ok user5 =>
        match UpdateUser db user5 now updateFault with
        | ⟨.error err, db'⟩ => ⟨.error err, db'⟩
        | ⟨.ok _, db'⟩ => ⟨.ok user5, db'⟩

/-! ## Lemmas on the tables -/

theorem find_token_of_mem (l : List Session) (s : Session) (hmem : s ∈ l)
    (huniq : (l.map (fun x => x.SessionToken)).Nodup) :
    l.find? (fun x => x.SessionToken == s.SessionToken) = some s := by
  induction l with
  | nil => simp at hmem
  | cons a l ih =>
    rw [List.map_cons, List.nodup_cons] at huniq
    rcases List.mem_cons.mp hmem with h | h
    · subst h
      simp [List.find?_cons]
    · have hne : a.SessionToken ≠ s.SessionToken := by
        intro heq
        exact huniq.1 (heq ▸ List.mem_map_of_mem (fun x => x.SessionToken) h)
      simp [List.find?_cons, hne, ih h huniq.2]

theorem find_token_none_iff (l : List Session) (token : String) :
    l.find? (fun x => x.SessionToken == token) = none ↔
      ∀ s ∈ l, s.SessionToken ≠ token := by
  simp [List.find?_eq_none]

theorem GetSessionByToken_of_mem (db : DB) (s : Session) (hmem : s ∈ db.sessions)
    (huniq : UniqueTokens db) :
    GetSessionByToken db s.SessionToken none = .ok s := by
  simp [GetSessionByToken, find_token_of_mem db.sessions s hmem huniq]

theorem GetSessionByToken_absent (db : DB) (token : String)
    (habs : ∀ s ∈ db.sessions, s.SessionToken ≠ token) :
    GetSessionByToken db token none = .error .ErrNoRows := by
  simp [GetSessionByToken, (find_token_none_iff db.sessions token).mpr habs]

theorem GetSessionByToken_fault (db : DB) (token m : String) :
    GetSessionByToken db token (some m) = .error (.driver m) := rfl

theorem ValidateSession_of_get (db : DB) (token : String) (now : Time)
    (getFault deleteFault : Option String) (s : Session)
    (hget : GetSessionByToken db token getFault = .ok s) :
    ValidateSession db token now getFault deleteFault =
      if s.ExpiresAt < now then
        ⟨.error (.New "session expired"), (DeleteSession db token deleteFault).db⟩
      else ⟨.ok s, db⟩ := by
  simp [ValidateSession, hget, Time.After]

theorem ValidateSession_of_get_error (db : DB) (token : String) (now : Time)
    (getFault deleteFault : Option String) (e : GoError)
    (hget : GetSessionByToken db token getFault = .error e) :
    ValidateSession db token now getFault deleteFault = ⟨.error e, db⟩ := by
  simp [ValidateSession, hget]

theorem GetSessionByToken_error_ne_New (db : DB) (token : String) (fault : Option String)
    (text : String) : GetSessionByToken db token fault ≠ .error (.New text) := by
  unfold GetSessionByToken
  cases fault with
  | some m => simp
  | none =>
    cases db.sessions.find? (fun s => s.SessionToken == token) with
    | none => simp
    | some s => simp

theorem find_token_filter (l : List Session) (keep : Session → Bool) (t : String)
    (hkeep : ∀ s ∈ l, s.SessionToken = t → keep s = true) :
    (l.filter keep).find? (fun x => x.SessionToken == t)
      = l.find? (fun x => x.SessionToken == t) := by
  induction l with
  | nil => rfl
  | cons a l ih =>
    have ih' := ih (fun s hs => hkeep s (List.mem_cons_of_mem a hs))
    by_cases hk : keep a = true
    · simp [List.filter_cons, hk, List.find?_cons, ih']
    · have hne : a.SessionToken ≠ t := fun h => hk (hkeep a (List.mem_cons_self a l) h)
      simp [List.filter_cons, hk, List.find?_cons, ih', hne]

theorem DeleteSession_db (db : DB) (token : String) :
    (DeleteSession db token none).db =
      { db with sessions := db.sessions.filter (fun s => !(s.SessionToken == token)) } := rfl

theorem DeleteSession_fault_db (db : DB) (token m : String) :
    (DeleteSession db token (some m)).db = db := rfl

theorem DeleteSession_removes (db : DB) (token : String) :
    ∀ s ∈ (DeleteSession db token none).db.sessions, s.SessionToken ≠ token := by
  intro s hs
  simp [DeleteSession_db, List.mem_filter] at hs
  exact hs.2

theorem DeleteSession_keeps (db : DB) (token : String) (s : Session)
    (hne : s.SessionToken ≠ token) :
    s ∈ (DeleteSession db token none).db.sessions ↔ s ∈ db.sessions := by
  simp [DeleteSession_db, List.mem_filter, hne]

theorem DeleteSession_get_other (db : DB) (token t : String) (fault : Option String)
    (hne : t ≠ token) :
    GetSessionByToken (DeleteSession db token none).db t fault
      = GetSessionByToken db t fault := by
  cases fault with
  | some m => rfl
  | none =>
    have h := find_token_filter db.sessions (fun s => !(s.SessionToken == token)) t
      (by intro s _ hs; simp [hs, hne])
    simp only [GetSessionByToken, DeleteSession_db, h]

theorem encodeHex_length (bs : List (Fin 256)) : (encodeHex bs).length = 2 * bs.length := by
  induction bs with
  | nil => rfl
  | cons b bs ih =>
    have h : encodeHex (b :: bs)
        = hexDigit (b.val / 16) :: hexDigit (b.val % 16) :: encodeHex bs := by
      simp [encodeHex, List.flatMap_cons]
    rw [h, List.length_cons, List.length_cons, ih, List.length_cons]
    omega

theorem UUID.slice_length (u : UUID) (i n : Nat) : (u.slice i n).length = n := by
  simp [UUID.slice]

theorem UUID.String_length (u : UUID) : u.String.length = 36 := by
  simp [UUID.String, String.length, encodeHex_length, UUID.slice_length]

theorem UUID.String_ne_empty (u : UUID) : u.String ≠ "" := by
  intro h
  have hlen := UUID.String_length u
  rw [h] at hlen
  simp at hlen

theorem CreateSession_ok_iff (db : DB) (userID : Int) (username : String)
    (duration : Duration) (uuid : UUID) (now1 now2 : Time) (fault : Option String)
    (s : Session) :
    (CreateSession db userID username duration uuid now1 now2 fault).result = .ok s ↔
      fault = none ∧ (∀ x ∈ db.sessions, x.SessionToken ≠ uuid.String) ∧
      (∃ u ∈ db.users, u.ID = userID) ∧
      s = newSession db userID username duration uuid now1 now2 := by
  unfold CreateSession insertSession newSession
  cases fault with
  | some m => simp
  | none =>
    by_cases hdup : db.sessions.any (fun x => x.SessionToken == uuid.String) = true
    · simp only [hdup, if_true]
      simp only [List.any_eq_true, beq_iff_eq] at hdup
      obtain ⟨x, hx, hxt⟩ := hdup
      constructor
      · intro h; simp at h
      · rintro ⟨_, habs, _⟩; exact absurd hxt (habs x hx)
    · simp only [hdup]
      have habs : ∀ x ∈ db.sessions, x.SessionToken ≠ uuid.String := by
        intro x hx hxt
        exact hdup (List.any_eq_true.mpr ⟨x, hx, by simp [hxt]⟩)
      by_cases hfk : db.users.any (fun u => u.ID == userID) = true
      · have hex : ∃ u ∈ db.users, u.ID = userID := by
          simpa [List.any_eq_true] using hfk
        simp only [hfk, Time.Add]
        constructor
        · intro h
          simp only [Bool.not_true, Bool.false_eq_true, if_false, Except.ok.injEq] at h
          exact ⟨trivial, habs, hex, h.symm⟩
        · rintro ⟨_, _, _, rfl⟩
          simp
      · simp only [hfk]
        constructor
        · intro h; simp at h
        · rintro ⟨_, _, ⟨u, hu, hid⟩, _⟩
          exact absurd (List.any_eq_true.mpr ⟨u, hu, by simp [hid]⟩) hfk

theorem CreateSession_ok_db (db : DB) (userID : Int) (username : String)
    (duration : Duration) (uuid : UUID) (now1 now2 : Time) (fault : Option String)
    (s : Session)
    (h : (CreateSession db userID username duration uuid now1 now2 fault).result = .ok s) :
    (CreateSession db userID username duration uuid now1 now2 fault).db =
      { db with sessions := db.sessions ++ [s], sessionSeq := db.sessionSeq + 1 } := by
  obtain ⟨hf, habs, ⟨u, hu, hid⟩, hs⟩ :=
    (CreateSession_ok_iff db userID username duration uuid now1 now2 fault s).mp h
  subst hf hs
  have hdup : db.sessions.any (fun x => x.SessionToken == uuid.String) = false := by
    rw [List.any_eq_false]
    intro x hx
    simpa using habs x hx
  have hfk : db.users.any (fun u => u.ID == userID) = true :=
    List.any_eq_true.mpr ⟨u, hu, by simp [hid]⟩
  simp [CreateSession, insertSession, newSession, hdup, hfk, Time.Add]

theorem CreateSession_error_db (db : DB) (userID : Int) (username : String)
    (duration : Duration) (uuid : UUID) (now1 now2 : Time) (fault : Option String)
    (e : GoError)
    (h : (CreateSession db userID username duration uuid now1 now2 fault).result
      = .error e) :
    (CreateSession db userID username duration uuid now1 now2 fault).db = db := by
  revert h
  unfold CreateSession insertSession
  cases fault with
  | some m => simp
  | none =>
    by_cases hdup : db.sessions.any (fun x => x.SessionToken == uuid.String) = true
    · simp [hdup]
    · by_cases hfk : db.users.any (fun u => u.ID == userID) = true
      · simp [hdup, hfk]
      · simp [hdup, hfk]

theorem find_token_append_fresh (l : List Session) (s : Session)
    (habs : ∀ x ∈ l, x.SessionToken ≠ s.SessionToken) :
    (l ++ [s]).find? (fun x => x.SessionToken == s.SessionToken) = some s := by
  rw [List.find?_append, (find_token_none_iff l s.SessionToken).mpr habs]
  simp [List.find?_cons]

theorem CreateSession_then_get (db : DB) (userID : Int) (username : String)
    (duration : Duration) (uuid : UUID) (now1 now2 : Time) (fault : Option String)
    (s : Session)
    (h : (CreateSession db userID username duration uuid now1 now2 fault).result = .ok s) :
    GetSessionByToken (CreateSession db userID username duration uuid now1 now2 fault).db
      s.SessionToken none = .ok s := by
  rw [CreateSession_ok_db db userID username duration uuid now1 now2 fault s h]
  obtain ⟨_, habs, _, hs⟩ :=
    (CreateSession_ok_iff db userID username duration uuid now1 now2 fault s).mp h
  have htok : s.SessionToken = uuid.String := by rw [hs]; rfl
  have := find_token_append_fresh db.sessions s (by rw [htok]; exact habs)
  simp [GetSessionByToken, this]

theorem GetUserByUsername_ok (db : DB) (username : String) (fault : Option String)
    (user : User) (h : GetUserByUsername db username fault = .ok user) :
    fault = none ∧ user ∈ db.users ∧ user.Username = username := by
  unfold GetUserByUsername at h
  cases fault with
  | some m => simp at h
  | none =>
    cases hfind : db.users.find? (fun u => u.Username == username) with
    | none => simp [hfind] at h
    | some u =>
      simp only [hfind, Except.ok.injEq] at h
      subst h
      exact ⟨rfl, List.mem_of_find?_eq_some hfind, by simpa using List.find?_some hfind⟩

theorem GetUserByUsername_absent (db : DB) (username : String)
    (habs : ∀ u ∈ db.users, u.Username ≠ username) :
    GetUserByUsername db username none = .error (.New "user not found") := by
  have hfind : db.users.find? (fun u => u.Username == username) = none := by
    simp only [List.find?_eq_none, beq_iff_eq]
    exact habs
  simp [GetUserByUsername, hfind]

theorem LoginWithSession_of_create_ok (lib : Library) (db : DB) (req : LoginRequest)
    (lookupFault : Option String) (uuid : UUID) (now1 now2 : Time)
    (createFault : Option String) (user : User) (s : Session)
    (huser : GetUserByUsername db req.Username lookupFault = .ok user)
    (hpw : lib.CheckPasswordHash req.Password user.Password = true)
    (hcreate : (CreateSession db user.ID user.Username (24 * Hour) uuid now1 now2
      createFault).result = .ok s) :
    LoginWithSession lib db req lookupFault uuid now1 now2 createFault =
      ⟨.ok { Username := user.Username, Message := "Login successful",
             Token := s.SessionToken, ExpiresAt := lib.FormatRFC3339 s.ExpiresAt },
       (CreateSession db user.ID user.Username (24 * Hour) uuid now1 now2 createFault).db⟩ := by
  unfold LoginWithSession
  simp only [huser, hpw]
  cases hcs : CreateSession db user.ID user.Username (24 * Hour) uuid now1 now2
    createFault with
  | mk r db' =>
    rw [hcs] at hcreate
    simp only at hcreate
    subst hcreate
    simp

theorem LoginWithSession_of_create_error (lib : Library) (db : DB) (req : LoginRequest)
    (lookupFault : Option String) (uuid : UUID) (now1 now2 : Time)
    (createFault : Option String) (user : User) (e : GoError)
    (huser : GetUserByUsername db req.Username lookupFault = .ok user)
    (hpw : lib.CheckPasswordHash req.Password user.Password = true)
    (hcreate : (CreateSession db user.ID user.Username (24 * Hour) uuid now1 now2
      createFault).result = .error e) :
    LoginWithSession lib db req lookupFault uuid now1 now2 createFault =
      ⟨.error e,
       (CreateSession db user.ID user.Username (24 * Hour) uuid now1 now2 createFault).db⟩ := by
  unfold LoginWithSession
  simp only [huser, hpw]
  cases hcs : CreateSession db user.ID user.Username (24 * Hour) uuid now1 now2
    createFault with
  | mk r db' =>
    rw [hcs] at hcreate
    simp only at hcreate
    subst hcreate
    simp

theorem LoginWithSession_wrong_password (lib : Library) (db : DB) (req : LoginRequest)
    (lookupFault : Option String) (uuid : UUID) (now1 now2 : Time)
    (createFault : Option String) (user : User)
    (huser : GetUserByUsername db req.Username lookupFault = .ok user)
    (hpw : lib.CheckPasswordHash req.Password user.Password = false) :
    LoginWithSession lib db req lookupFault uuid now1 now2 createFault =
      ⟨.error (.New "invalid credentials"), db⟩ := by
  simp [LoginWithSession, huser, hpw]

theorem LoginWithSession_lookup_error (lib : Library) (db : DB) (req : LoginRequest)
    (lookupFault : Option String) (uuid : UUID) (now1 now2 : Time)
    (createFault : Option String) (e : GoError)
    (huser : GetUserByUsername db req.Username lookupFault = .error e) :
    LoginWithSession lib db req lookupFault uuid now1 now2 createFault = ⟨.error e, db⟩ := by
  simp [LoginWithSession, huser]

theorem unique_token_eq (db : DB) (huniq : UniqueTokens db) (x y : Session)
    (hx : x ∈ db.sessions) (hy : y ∈ db.sessions)
    (htok : x.SessionToken = y.SessionToken) : x = y := by
  have hx' := find_token_of_mem db.sessions x hx huniq
  have hy' := find_token_of_mem db.sessions y hy huniq
  rw [htok, hy'] at hx'
  exact (Option.some.inj hx').symm

theorem UniqueTokens_filter (db : DB) (keep : Session → Bool) (huniq : UniqueTokens db) :
    UniqueTokens { db with sessions := db.sessions.filter keep } :=
  List.Nodup.sublist (List.Sublist.map _ (List.filter_sublist db.sessions)) huniq

theorem DeleteAllUserSessions_db (db : DB) (username : String) :
    (DeleteAllUserSessions db username none).db =
      { db with sessions := db.sessions.filter (fun s => !(s.Username == username)) } := rfl

theorem CleanExpiredSessions_db (db : DB) (now : Time) :
    (CleanExpiredSessions db now none).db =
      { db with sessions := db.sessions.filter (fun s => !decide (s.ExpiresAt < now)) } := rfl

theorem Hour_pos : (0 : Duration) < Hour := by decide

theorem ValidateSession_absent (db : DB) (token : String) (now : Time)
    (getFault deleteFault : Option String)
    (habs : ∀ s ∈ db.sessions, s.SessionToken ≠ token) :
    ∃ e, ValidateSession db token now getFault deleteFault = ⟨.error e, db⟩ ∧
      e ≠ .New "session expired" ∧ (getFault = none → e = .ErrNoRows) := by
  cases getFault with
  | some m =>
    exact ⟨.driver m, ValidateSession_of_get_error db token now (some m) deleteFault _ rfl,
      by simp, by simp⟩
  | none =>
    exact ⟨.ErrNoRows, ValidateSession_of_get_error db token now none deleteFault _
      (GetSessionByToken_absent db token habs), by simp, fun _ => rfl⟩

theorem ValidateSession_absent_noRows (db : DB) (token : String) (now : Time)
    (deleteFault : Option String) (habs : ∀ s ∈ db.sessions, s.SessionToken ≠ token) :
    (ValidateSession db token now none deleteFault).result = .error .ErrNoRows := by
  obtain ⟨e, he, _, h0⟩ := ValidateSession_absent db token now none deleteFault habs
  rw [he, h0 rfl]

theorem ValidateSession_absent_not_ok (db : DB) (token : String) (now : Time)
    (getFault deleteFault : Option String)
    (habs : ∀ s ∈ db.sessions, s.SessionToken ≠ token) (s : Session) :
    (ValidateSession db token now getFault deleteFault).result ≠ .ok s := by
  obtain ⟨e, he, _, _⟩ := ValidateSession_absent db token now getFault deleteFault habs
  rw [he]
  simp

theorem ValidateSession_absent_not_expired (db : DB) (token : String) (now : Time)
    (getFault deleteFault : Option String)
    (habs : ∀ s ∈ db.sessions, s.SessionToken ≠ token) :
    (ValidateSession db token now getFault deleteFault).result
      ≠ .error (.New "session expired") := by
  obtain ⟨e, he, hne, _⟩ := ValidateSession_absent db token now getFault deleteFault habs
  rw [he]
  simpa using hne

/-! ## Validation and expiry -/

/-- C1, the claim as written fails: with `bobSession` stored (it expires at
instant 100) and the clock reading exactly 100, `ValidateSession` returns the
session and not the session-expired error, although 100 is not strictly before
the expiry instant. -/
theorem ValidateSession_at_expiry_instant_accepts :
    bobSession ∈ sampleDB.sessions ∧ UniqueTokens sampleDB ∧
    bobSession.ExpiresAt = 100 ∧ ¬ ((100 : Time) < bobSession.ExpiresAt) ∧
    (ValidateSession sampleDB bobSession.SessionToken 100 none none).result
      = .ok bobSession ∧
    (ValidateSession sampleDB bobSession.SessionToken 100 none none).result
      ≠ .error (.New "session expired") := by
  refine ⟨by decide, by decide, rfl, by decide, rfl, ?_⟩
  intro h
  exact absurd h (by simp [ValidateSession, GetSessionByToken, sampleDB, bobSession, Time.After])

/-- C1, amended: for a stored session `s` of a store with pairwise distinct
tokens, a lookup that reaches the table and any clock reading `now`,
`ValidateSession s.SessionToken` returns `s` if and only if `now` is not after
`s.ExpiresAt` (`now ≤ s.ExpiresAt`), and fails with the session-expired error
if and only if `s.ExpiresAt < now`; at `now = s.ExpiresAt` it returns `s`. -/
theorem ValidateSession_ok_iff_not_after (db : DB) (s : Session) (now : Time)
    (deleteFault : Option String) (hmem : s ∈ db.sessions) (huniq : UniqueTokens db) :
    ((ValidateSession db s.SessionToken now none deleteFault).result = .ok s
        ↔ now ≤ s.ExpiresAt) ∧
    ((ValidateSession db s.SessionToken now none deleteFault).result
        = .error (.New "session expired") ↔ s.ExpiresAt < now) ∧
    (now = s.ExpiresAt →
      (ValidateSession db s.SessionToken now none deleteFault).result = .ok s) := by
  have hget := GetSessionByToken_of_mem db s hmem huniq
  rw [ValidateSession_of_get db s.SessionToken now none deleteFault s hget]
  refine ⟨?_, ?_, ?_⟩
  · by_cases h : s.ExpiresAt < now
    · simp [h]
    · simp [h]; exact Int.not_lt.mp h
  · by_cases h : s.ExpiresAt < now
    · simp [h]
    · simp [h]
  · intro h
    simp [h]

/-- Witness of `ValidateSession_ok_iff_not_after` on `sampleDB` at the expiry
instant of `bobSession`. -/
theorem ValidateSession_ok_iff_not_after_witness :
    bobSession ∈ sampleDB.sessions ∧ UniqueTokens sampleDB ∧
    (((ValidateSession sampleDB bobSession.SessionToken 100 none none).result
        = .ok bobSession ↔ (100 : Time) ≤ bobSession.ExpiresAt) ∧
     ((ValidateSession sampleDB bobSession.SessionToken 100 none none).result
        = .error (.New "session expired") ↔ bobSession.ExpiresAt < (100 : Time)) ∧
     ((100 : Time) = bobSession.ExpiresAt →
      (ValidateSession sampleDB bobSession.SessionToken 100 none none).result
        = .ok bobSession)) :=
  ⟨by decide, by decide,
    ValidateSession_ok_iff_not_after sampleDB bobSession 100 none (by decide) (by decide)⟩

/-- C2, the claim as written fails: `bobSession` has expired at instant 101 and
the `DeleteSession` call issued by `ValidateSession` is refused by the driver;
`ValidateSession` still fails with the session-expired error, yet the session
is still stored and `GetSessionByToken` still returns it. -/
theorem ValidateSession_expired_delete_refused :
    (ValidateSession sampleDB "t-bob" 101 none (some "connection refused")).result
      = .error (.New "session expired") ∧
    bobSession.SessionToken = "t-bob" ∧
    bobSession ∈
      (ValidateSession sampleDB "t-bob" 101 none (some "connection refused")).db.sessions ∧
    GetSessionByToken
      (ValidateSession sampleDB "t-bob" 101 none (some "connection refused")).db
      "t-bob" none = .ok bobSession :=
  ⟨rfl, rfl, by decide, rfl⟩

/-- C2, amended: whenever `ValidateSession token` fails with the
session-expired error and the `DeleteSession` call it issues is not refused by
the store, the store afterwards holds no session with that token (a following
`GetSessionByToken token` fails, with `sql.ErrNoRows` when it reaches the
table), every session with a different token is stored exactly when it was
stored before and is looked up as before, and the `users` table is unchanged. -/
theorem ValidateSession_expired_deletes (db : DB) (token : String) (now : Time)
    (getFault : Option String)
    (hexp : (ValidateSession db token now getFault none).result
      = .error (.New "session expired")) :
    (∀ s ∈ (ValidateSession db token now getFault none).db.sessions,
      s.SessionToken ≠ token) ∧
    (∀ fault s,
      GetSessionByToken (ValidateSession db token now getFault none).db token fault
        ≠ .ok s) ∧
    GetSessionByToken (ValidateSession db token now getFault none).db token none
      = .error .ErrNoRows ∧
    (∀ s : Session, s.SessionToken ≠ token →
      (s ∈ (ValidateSession db token now getFault none).db.sessions ↔ s ∈ db.sessions)) ∧
    (∀ t fault, t ≠ token →
      GetSessionByToken (ValidateSession db token now getFault none).db t fault
        = GetSessionByToken db t fault) ∧
    (ValidateSession db token now getFault none).db.users = db.users := by
  cases hget : GetSessionByToken db token getFault with
  | error e =>
    rw [ValidateSession_of_get_error db token now getFault none e hget] at hexp
    simp only [Except.error.injEq] at hexp
    exact absurd (hexp ▸ hget) (GetSessionByToken_error_ne_New db token getFault _)
  | ok s0 =>
    rw [ValidateSession_of_get db token now getFault none s0 hget] at hexp ⊢
    by_cases hlt : s0.ExpiresAt < now
    · simp only [hlt, if_true]
      have habs := DeleteSession_removes db token
      refine ⟨habs, ?_, GetSessionByToken_absent _ token habs,
        fun s hne => DeleteSession_keeps db token s hne,
        fun t fault hne => DeleteSession_get_other db token t fault hne, rfl⟩
      intro fault s
      cases fault with
      | some m => simp [GetSessionByToken_fault]
      | none => simp [GetSessionByToken_absent _ token habs]
    · simp [hlt] at hexp

/-- Witness of `ValidateSession_expired_deletes`: `bobSession` validated at
instant 101 on `sampleDB`. -/
theorem ValidateSession_expired_deletes_witness :
    (ValidateSession sampleDB "t-bob" 101 none none).result
      = .error (.New "session expired") ∧
    GetSessionByToken (ValidateSession sampleDB "t-bob" 101 none none).db "t-bob" none
      = .error .ErrNoRows :=
  ⟨rfl, (ValidateSession_expired_deletes sampleDB "t-bob" 101 none rfl).2.2.1⟩

/-- C3: for a token that no stored session carries, `ValidateSession` fails
with `sql.ErrNoRows` when the lookup reaches the table; that error is not the
session-expired error; and whatever the driver does, it returns no session,
does not fail with the session-expired error and leaves the store unchanged. -/
theorem ValidateSession_unknown_token (db : DB) (token : String) (now : Time)
    (getFault deleteFault : Option String)
    (habs : ∀ s ∈ db.sessions, s.SessionToken ≠ token) :
    (ValidateSession db token now none deleteFault).result = .error .ErrNoRows ∧
    GoError.ErrNoRows ≠ .New "session expired" ∧
    (∀ s, (ValidateSession db token now getFault deleteFault).result ≠ .ok s) ∧
    (ValidateSession db token now getFault deleteFault).result
      ≠ .error (.New "session expired") ∧
    (ValidateSession db token now getFault deleteFault).db = db := by
  obtain ⟨e, he, _, _⟩ := ValidateSession_absent db token now getFault deleteFault habs
  refine ⟨ValidateSession_absent_noRows db token now deleteFault habs, by simp, ?_, ?_, ?_⟩
  · exact ValidateSession_absent_not_ok db token now getFault deleteFault habs
  · exact ValidateSession_absent_not_expired db token now getFault deleteFault habs
  · rw [he]

/-- Witness of `ValidateSession_unknown_token`: a token that was never issued,
on `sampleDB`. -/
theorem ValidateSession_unknown_token_witness :
    (∀ s ∈ sampleDB.sessions, s.SessionToken ≠ "never-issued") ∧
    (ValidateSession sampleDB "never-issued" 10 none none).result = .error .ErrNoRows ∧
    (ValidateSession sampleDB "never-issued" 10 none none).db = sampleDB :=
  ⟨by decide,
    (ValidateSession_unknown_token sampleDB "never-issued" 10 none none (by decide)).1,
    (ValidateSession_unknown_token sampleDB "never-issued" 10 none none (by decide)).2.2.2.2⟩

/-! ## Login -/

/-- C4: when the user lookup of `LoginWithSession` returns `user` and the login
succeeds with response `resp`, then `ValidateSession resp.Token`, run on the
store the login left at any instant not after the expiry of the new session
(login clock reading plus 24 hours), returns a session whose `Username` is the
login username and whose `UserID` is `user.ID`; the store is left as it was. -/
theorem LoginWithSession_then_ValidateSession (lib : Library) (db : DB)
    (req : LoginRequest) (lookupFault : Option String) (uuid : UUID) (now1 now2 : Time)
    (createFault : Option String) (user : User) (resp : AuthResponse) (now : Time)
    (deleteFault : Option String)
    (huser : GetUserByUsername db req.Username lookupFault = .ok user)
    (hlogin : (LoginWithSession lib db req lookupFault uuid now1 now2 createFault).result
      = .ok resp)
    (hnow : now ≤ Time.Add now1 (24 * Hour)) :
    lib.CheckPasswordHash req.Password user.Password = true ∧
    ∃ session : Session,
      ValidateSession (LoginWithSession lib db req lookupFault uuid now1 now2 createFault).db
          resp.Token now none deleteFault
        = ⟨.ok session,
           (LoginWithSession lib db req lookupFault uuid now1 now2 createFault).db⟩ ∧
      session.Username = req.Username ∧ session.UserID = user.ID ∧
      session.SessionToken = resp.Token ∧ resp.Username = req.Username := by
  have hname := (GetUserByUsername_ok db req.Username lookupFault user huser).2.2
  cases hpw : lib.CheckPasswordHash req.Password user.Password with
  | false =>
    rw [LoginWithSession_wrong_password lib db req lookupFault uuid now1 now2 createFault
      user huser hpw] at hlogin
    simp at hlogin
  | true =>
    refine ⟨rfl, ?_⟩
    cases hcs : (CreateSession db user.ID user.Username (24 * Hour) uuid now1 now2
      createFault).result with
    | error e =>
      rw [LoginWithSession_of_create_error lib db req lookupFault uuid now1 now2
        createFault user e huser hpw hcs] at hlogin
      simp at hlogin
    | ok s =>
      rw [LoginWithSession_of_create_ok lib db req lookupFault uuid now1 now2
        createFault user s huser hpw hcs] at hlogin ⊢
      simp only [Except.ok.injEq] at hlogin
      subst hlogin
      have hget := CreateSession_then_get db user.ID user.Username (24 * Hour) uuid now1
        now2 createFault s hcs
      obtain ⟨_, _, _, hs⟩ := (CreateSession_ok_iff db user.ID user.Username (24 * Hour)
        uuid now1 now2 createFault s).mp hcs
      have hexp : ¬ s.ExpiresAt < now := by
        rw [hs]
        simp only [newSession]
        exact Int.not_lt.mpr hnow
      refine ⟨s, ?_, ?_, ?_, rfl, hname⟩
      · rw [ValidateSession_of_get _ s.SessionToken now none deleteFault s hget]
        simp [hexp]
      · rw [hs]; exact hname
      · rw [hs]; rfl

/-- Witness of `LoginWithSession_then_ValidateSession`: `bob` logs in at
instant 1000 on `emptyDB` and validates one hour later. -/
theorem LoginWithSession_then_ValidateSession_witness :
    GetUserByUsername emptyDB "bob" none = .ok bob ∧
    (LoginWithSession sampleLibrary emptyDB ⟨"bob", "secret"⟩ none zeroUUID 1000 1001
      none).result
      = .ok ⟨"bob", "Login successful", zeroUUID.String, "86400000001000"⟩ ∧
    (1000 + Hour : Time) ≤ Time.Add 1000 (24 * Hour) ∧
    ∃ session : Session,
      ValidateSession
          (LoginWithSession sampleLibrary emptyDB ⟨"bob", "secret"⟩ none zeroUUID 1000 1001
            none).db
          zeroUUID.String (1000 + Hour) none none
        = ⟨.ok session,
           (LoginWithSession sampleLibrary emptyDB ⟨"bob", "secret"⟩ none zeroUUID 1000 1001
            none).db⟩ ∧
      session.Username = "bob" ∧ session.UserID = bob.ID ∧
      session.SessionToken = zeroUUID.String ∧ "bob" = "bob" :=
  ⟨rfl, rfl, by decide,
    (LoginWithSession_then_ValidateSession sampleLibrary emptyDB ⟨"bob", "secret"⟩ none
      zeroUUID 1000 1001 none bob
      ⟨"bob", "Login successful", zeroUUID.String, "86400000001000"⟩ (1000 + Hour) none
      rfl rfl (by decide)).2⟩

/-- C5: `LoginWithSession` follows the login state machine.  When the user
query reaches the table and no user has the requested name, it fails with
`user not found`; when the lookup returns a user whose stored hash the
password does not match, it fails with `invalid credentials`, a different
error; in both cases the database is left exactly as it was (no session is
created).  When the password matches and `CreateSession` fails with `e` (in
particular when the driver refuses the insert), the login fails with `e`. -/
theorem LoginWithSession_state_machine (lib : Library) (db : DB) (req : LoginRequest)
    (lookupFault : Option String) (uuid : UUID) (now1 now2 : Time)
    (createFault : Option String) :
    ((∀ u ∈ db.users, u.Username ≠ req.Username) →
      LoginWithSession lib db req none uuid now1 now2 createFault
        = ⟨.error (.New "user not found"), db⟩) ∧
    (∀ user, GetUserByUsername db req.Username lookupFault = .ok user →
      lib.CheckPasswordHash req.Password user.Password = false →
      LoginWithSession lib db req lookupFault uuid now1 now2 createFault
        = ⟨.error (.New "invalid credentials"), db⟩) ∧
    GoError.New "user not found" ≠ GoError.New "invalid credentials" ∧
    (∀ user e, GetUserByUsername db req.Username lookupFault = .ok user →
      lib.CheckPasswordHash req.Password user.Password = true →
      (CreateSession db user.ID user.Username (24 * Hour) uuid now1 now2 createFault).result
        = .error e →
      LoginWithSession lib db req lookupFault uuid now1 now2 createFault
        = ⟨.error e, db⟩) ∧
    (∀ user m, GetUserByUsername db req.Username lookupFault = .ok user →
      lib.CheckPasswordHash req.Password user.Password = true →
      LoginWithSession lib db req lookupFault uuid now1 now2 (some m)
        = ⟨.error (.driver m), db⟩) := by
  refine ⟨?_, ?_, by decide, ?_, ?_⟩
  · intro habs
    exact LoginWithSession_lookup_error lib db req none uuid now1 now2 createFault _
      (GetUserByUsername_absent db req.Username habs)
  · intro user huser hpw
    exact LoginWithSession_wrong_password lib db req lookupFault uuid now1 now2
      createFault user huser hpw
  · intro user e huser hpw hcreate
    rw [LoginWithSession_of_create_error lib db req lookupFault uuid now1 now2 createFault
      user e huser hpw hcreate,
      CreateSession_error_db db user.ID user.Username (24 * Hour) uuid now1 now2
        createFault e hcreate]
  · intro user m huser hpw
    have hcreate : (CreateSession db user.ID user.Username (24 * Hour) uuid now1 now2
        (some m)).result = .error (.driver m) := rfl
    rw [LoginWithSession_of_create_error lib db req lookupFault uuid now1 now2 (some m)
      user _ huser hpw hcreate,
      CreateSession_error_db db user.ID user.Username (24 * Hour) uuid now1 now2
        (some m) _ hcreate]

/-- Witness of `LoginWithSession_state_machine` on `sampleDB`: an unknown
name, a wrong password for `bob`, and a refused insert for `bob`. -/
theorem LoginWithSession_state_machine_witness :
    (∀ u ∈ sampleDB.users, u.Username ≠ "mallory") ∧
    LoginWithSession sampleLibrary sampleDB ⟨"mallory", "x"⟩ none zeroUUID 5 6 none
      = ⟨.error (.New "user not found"), sampleDB⟩ ∧
    GetUserByUsername sampleDB "bob" none = .ok bob ∧
    sampleLibrary.CheckPasswordHash "wrong" bob.Password = false ∧
    LoginWithSession sampleLibrary sampleDB ⟨"bob", "wrong"⟩ none zeroUUID 5 6 none
      = ⟨.error (.New "invalid credentials"), sampleDB⟩ ∧
    sampleLibrary.CheckPasswordHash "secret" bob.Password = true ∧
    LoginWithSession sampleLibrary sampleDB ⟨"bob", "secret"⟩ none zeroUUID 5 6
      (some "connection refused")
      = ⟨.error (.driver "connection refused"), sampleDB⟩ :=
  ⟨by decide,
    (LoginWithSession_state_machine sampleLibrary sampleDB ⟨"mallory", "x"⟩ none zeroUUID
      5 6 none).1 (by decide),
    rfl, by decide,
    (LoginWithSession_state_machine sampleLibrary sampleDB ⟨"bob", "wrong"⟩ none zeroUUID
      5 6 none).2.1 bob rfl (by decide),
    by decide,
    (LoginWithSession_state_machine sampleLibrary sampleDB ⟨"bob", "secret"⟩ none zeroUUID
      5 6 none).2.2.2.2 bob "connection refused" rfl (by decide)⟩

/-! ## Session creation -/

theorem timestampColumn_spec (t : Time) :
    timestampColumn t % 1000 = 0 ∧ t - 500 < timestampColumn t ∧
    timestampColumn t ≤ t + 500 ∧ (timestampColumn t = t ↔ t % 1000 = 0) := by
  have h : ∀ x : Int, (x + 500) / 1000 * 1000 % 1000 = 0 ∧
      x - 500 < (x + 500) / 1000 * 1000 ∧ (x + 500) / 1000 * 1000 ≤ x + 500 ∧
      ((x + 500) / 1000 * 1000 = x ↔ x % 1000 = 0) := by
    intro x
    omega
  exact h t

theorem CreateSessionStored_exact (db : DB) (userID : Int) (username : String)
    (duration : Duration) (uuid : UUID) (now1 now2 : Time) (fault : Option String) :
    CreateSessionStored (fun t => t) db userID username duration uuid now1 now2 fault
      = CreateSession db userID username duration uuid now1 now2 fault := rfl

theorem CreateSessionStored_result (column : Time → Time) (db : DB) (userID : Int)
    (username : String) (duration : Duration) (uuid : UUID) (now1 now2 : Time)
    (fault : Option String) :
    (CreateSessionStored column db userID username duration uuid now1 now2 fault).result
      = (CreateSession db userID username duration uuid now1 now2 fault).result := by
  unfold CreateSessionStored CreateSession insertSession Session.stored
  cases fault with
  | some m => rfl
  | none =>
    by_cases hdup : db.sessions.any (fun x => x.SessionToken == uuid.String) = true
    · simp [hdup]
    · by_cases hfk : db.users.any (fun u => u.ID == userID) = true
      · simp [hdup, hfk]
      · simp [hdup, hfk]

theorem CreateSessionStored_ok_db (column : Time → Time) (db : DB) (userID : Int)
    (username : String) (duration : Duration) (uuid : UUID) (now1 now2 : Time)
    (fault : Option String) (s : Session)
    (h : (CreateSessionStored column db userID username duration uuid now1 now2
      fault).result = .ok s) :
    (CreateSessionStored column db userID username duration uuid now1 now2 fault).db =
      { db with sessions := db.sessions ++ [s.stored column],
                sessionSeq := db.sessionSeq + 1 } := by
  rw [CreateSessionStored_result] at h
  obtain ⟨hf, habs, ⟨u, hu, hid⟩, hs⟩ :=
    (CreateSession_ok_iff db userID username duration uuid now1 now2 fault s).mp h
  subst hf hs
  have hdup : db.sessions.any (fun x => x.SessionToken == uuid.String) = false := by
    rw [List.any_eq_false]
    intro x hx
    simpa using habs x hx
  have hfk : db.users.any (fun u => u.ID == userID) = true :=
    List.any_eq_true.mpr ⟨u, hu, by simp [hid]⟩
  simp [CreateSessionStored, insertSession, newSession, Session.stored, hdup, hfk, Time.Add]

theorem CreateSessionStored_then_get (column : Time → Time) (db : DB) (userID : Int)
    (username : String) (duration : Duration) (uuid : UUID) (now1 now2 : Time)
    (fault : Option String) (s : Session)
    (h : (CreateSessionStored column db userID username duration uuid now1 now2
      fault).result = .ok s) :
    GetSessionByToken
      (CreateSessionStored column db userID username duration uuid now1 now2 fault).db
      s.SessionToken none = .ok (s.stored column) := by
  rw [CreateSessionStored_ok_db column db userID username duration uuid now1 now2 fault s h]
  rw [CreateSessionStored_result] at h
  obtain ⟨_, habs, _, hs⟩ :=
    (CreateSession_ok_iff db userID username duration uuid now1 now2 fault s).mp h
  have htok : s.SessionToken = uuid.String := by rw [hs]; rfl
  have := find_token_append_fresh db.sessions (s.stored column)
    (by show ∀ x ∈ db.sessions, x.SessionToken ≠ s.SessionToken; rw [htok]; exact habs)
  have hst : (s.stored column).SessionToken = s.SessionToken := rfl
  rw [hst] at this
  simp [GetSessionByToken, this]

/-- C9, the claim as written fails on the table the repository creates, whose
`expires_at` column is a `TIMESTAMP`: a session for `carol` created on
`sampleDB` with a duration of 24 hours at the clock reading
1700000000.123456789 s is returned with `ExpiresAt` 1700086400.123456789 s,
and the `GetSessionByToken` that follows returns the record with `ExpiresAt`
1700086400.123457 s, which is not the same instant. -/
theorem CreateSession_expiry_not_read_back :
    (CreateSessionStored timestampColumn sampleDB 2 "carol" (24 * Hour) zeroUUID
      1700000000123456789 1700000000123460000 none).result
      = .ok ⟨"4", 2, "carol", zeroUUID.String, 1700086400123456789, 1700000000123460000⟩ ∧
    GetSessionByToken
      (CreateSessionStored timestampColumn sampleDB 2 "carol" (24 * Hour) zeroUUID
        1700000000123456789 1700000000123460000 none).db zeroUUID.String none
      = .ok ⟨"4", 2, "carol", zeroUUID.String, 1700086400123457000, 1700000000123460000⟩ ∧
    (1700086400123457000 : Time) ≠ 1700086400123456789 := by
  refine ⟨by rfl, by rfl, by decide⟩

/-- C9, amended: for every `userID`, `username` and `duration` (of any sign),
a successful `CreateSession` returns a record with that `userID` and
`username`, a non-empty token (36 characters) and `ExpiresAt = now1 + duration`,
where `now1` is its first clock reading; a following `GetSessionByToken` of
that token returns the record with the same id, token, username and user id,
whose `ExpiresAt` and `CreatedAt` are what the `TIMESTAMP` columns keep of the
returned ones.  It is the returned record itself exactly when the columns keep
both instants unchanged.  A `TIMESTAMP` column keeps the nearest whole
microsecond: a value within half a microsecond of the instant written, equal
to it exactly when that is a whole number of microseconds.
`GetSessionByToken` reads no clock, so this holds whether or not the session
has expired. -/
theorem CreateSession_then_GetSessionByToken (column : Time → Time) (db : DB)
    (userID : Int) (username : String) (duration : Duration) (uuid : UUID)
    (now1 now2 : Time) (fault : Option String) (s : Session)
    (hcreate : (CreateSessionStored column db userID username duration uuid now1 now2
      fault).result = .ok s) :
    s.UserID = userID ∧ s.Username = username ∧ s.SessionToken ≠ "" ∧
    s.SessionToken.length = 36 ∧ s.ExpiresAt = now1 + duration ∧
    GetSessionByToken
      (CreateSessionStored column db userID username duration uuid now1 now2 fault).db
      s.SessionToken none
      = .ok { ID := s.ID, UserID := userID, Username := username,
              SessionToken := s.SessionToken, ExpiresAt := column (now1 + duration),
              CreatedAt := column now2 } ∧
    (GetSessionByToken
      (CreateSessionStored column db userID username duration uuid now1 now2 fault).db
      s.SessionToken none = .ok s
      ↔ column (now1 + duration) = now1 + duration ∧ column now2 = now2) ∧
    (∀ t : Time, timestampColumn t % 1000 = 0 ∧ t - 500 < timestampColumn t ∧
      timestampColumn t ≤ t + 500 ∧ (timestampColumn t = t ↔ t % 1000 = 0)) := by
  have hget := CreateSessionStored_then_get column db userID username duration uuid now1
    now2 fault s hcreate
  have hcreate0 := hcreate
  rw [CreateSessionStored_result] at hcreate0
  obtain ⟨_, _, _, hs⟩ :=
    (CreateSession_ok_iff db userID username duration uuid now1 now2 fault s).mp hcreate0
  refine ⟨?_, ?_, ?_, ?_, ?_, ?_, ?_, timestampColumn_spec⟩
  · rw [hs]; rfl
  · rw [hs]; rfl
  · rw [hs]; exact UUID.String_ne_empty uuid
  · rw [hs]; exact UUID.String_length uuid
  · rw [hs]; rfl
  · rw [hget, hs]; rfl
  · rw [hget, hs]
    simp only [Session.stored, newSession, Except.ok.injEq, Session.mk.injEq, true_and]

/-- Witness of `CreateSession_then_GetSessionByToken`: a session for `carol`
whose duration is minus one hour, created on `sampleDB` with `TIMESTAMP`
columns at the clock reading 7000.000000123 s.  The session is expired from
the start and is read back all the same, with `ExpiresAt` 3400 s. -/
theorem CreateSession_then_GetSessionByToken_witness :
    (CreateSessionStored timestampColumn sampleDB 2 "carol" (-Hour) zeroUUID 7000000000123
      7000000000456 none).result
      = .ok ⟨"4", 2, "carol", zeroUUID.String, 7000000000123 - Hour, 7000000000456⟩ ∧
    GetSessionByToken
      (CreateSessionStored timestampColumn sampleDB 2 "carol" (-Hour) zeroUUID 7000000000123
        7000000000456 none).db zeroUUID.String none
      = .ok ⟨"4", 2, "carol", zeroUUID.String, timestampColumn (7000000000123 + -Hour),
          timestampColumn 7000000000456⟩ ∧
    timestampColumn (7000000000123 + -Hour) = 3400000000000 :=
  ⟨rfl,
    (CreateSession_then_GetSessionByToken timestampColumn sampleDB 2 "carol" (-Hour)
      zeroUUID 7000000000123 7000000000456 none
      ⟨"4", 2, "carol", zeroUUID.String, 7000000000123 - Hour, 7000000000456⟩
      (by rfl)).2.2.2.2.2.1,
    by decide⟩

/-- C10: a session created by a successful `CreateSession` with a negative
duration fails `ValidateSession` with the session-expired error at every clock
reading `now` not earlier than the reading `now1` from which its expiry was
computed; with a clock that does not run backwards between the two readings
of `CreateSession`, that covers every `now` not earlier than `CreatedAt`. -/
theorem CreateSession_negative_duration_expired (db : DB) (userID : Int)
    (username : String) (duration : Duration) (uuid : UUID) (now1 now2 : Time)
    (fault : Option String) (s : Session) (now : Time) (deleteFault : Option String)
    (hcreate : (CreateSession db userID username duration uuid now1 now2 fault).result
      = .ok s)
    (hneg : duration < 0) :
    (now1 ≤ now →
      (ValidateSession (CreateSession db userID username duration uuid now1 now2 fault).db
        s.SessionToken now none deleteFault).result = .error (.New "session expired")) ∧
    (now1 ≤ now2 → s.CreatedAt ≤ now →
      (ValidateSession (CreateSession db userID username duration uuid now1 now2 fault).db
        s.SessionToken now none deleteFault).result = .error (.New "session expired")) := by
  have hget := CreateSession_then_get db userID username duration uuid now1 now2 fault s
    hcreate
  obtain ⟨_, _, _, hs⟩ :=
    (CreateSession_ok_iff db userID username duration uuid now1 now2 fault s).mp hcreate
  have hexp : s.ExpiresAt = now1 + duration := by rw [hs]; rfl
  have hcr : s.CreatedAt = now2 := by rw [hs]; rfl
  have key : now1 ≤ now →
      (ValidateSession (CreateSession db userID username duration uuid now1 now2 fault).db
        s.SessionToken now none deleteFault).result = .error (.New "session expired") := by
    intro hle
    have hlt : s.ExpiresAt < now := by
      rw [hexp]
      have h1 : now1 + duration < now1 := by
        have := Int.add_lt_add_left hneg now1
        simpa using this
      exact Int.lt_of_lt_of_le h1 hle
    rw [ValidateSession_of_get _ s.SessionToken now none deleteFault s hget]
    simp [hlt]
  refine ⟨key, ?_⟩
  intro h12 hc
  rw [hcr] at hc
  exact key (Int.le_trans h12 hc)

/-- Witness of `CreateSession_negative_duration_expired`: `userID = 1`,
`username = "bob"`, a duration of minus one second, validated at the instant of
creation. -/
theorem CreateSession_negative_duration_expired_witness :
    (CreateSession emptyDB 1 "bob" (-Second) zeroUUID 5000 5000 none).result
      = .ok ⟨"1", 1, "bob", zeroUUID.String, 5000 - Second, 5000⟩ ∧
    (-Second : Duration) < 0 ∧
    (ValidateSession (CreateSession emptyDB 1 "bob" (-Second) zeroUUID 5000 5000 none).db
      zeroUUID.String 5000 none none).result = .error (.New "session expired") :=
  ⟨rfl, by decide,
    (CreateSession_negative_duration_expired emptyDB 1 "bob" (-Second) zeroUUID 5000 5000
      none ⟨"1", 1, "bob", zeroUUID.String, 5000 - Second, 5000⟩ 5000 none (by rfl)
      (by decide)).1 (by decide)⟩

/-! ## Deletion -/

/-- C6: `Logout` is idempotent.  For every store and token, when the store
does not refuse the statement, `Logout token` returns no error, a second
`Logout token` returns no error as well and leaves the store as the first call
left it, and after each of the two calls `ValidateSession token` returns no
session (it fails with `sql.ErrNoRows` when its lookup reaches the table). -/
theorem Logout_idempotent (db : DB) (token : String) (now : Time)
    (getFault deleteFault : Option String) :
    (Logout db token none).result = .ok () ∧
    (Logout (Logout db token none).db token none).result = .ok () ∧
    (Logout (Logout db token none).db token none).db = (Logout db token none).db ∧
    (∀ s, (ValidateSession (Logout db token none).db token now getFault
      deleteFault).result ≠ .ok s) ∧
    (∀ s, (ValidateSession (Logout (Logout db token none).db token none).db token now
      getFault deleteFault).result ≠ .ok s) ∧
    (ValidateSession (Logout db token none).db token now none deleteFault).result
      = .error .ErrNoRows ∧
    (ValidateSession (Logout (Logout db token none).db token none).db token now none
      deleteFault).result = .error .ErrNoRows := by
  have habs : ∀ s ∈ (Logout db token none).db.sessions, s.SessionToken ≠ token :=
    DeleteSession_removes db token
  have hsame : (Logout (Logout db token none).db token none).db = (Logout db token none).db := by
    simp only [Logout, DeleteSession_db, List.filter_filter, Bool.and_self]
  have h1 := ValidateSession_absent_not_ok (Logout db token none).db token now getFault
    deleteFault habs
  have h2 := ValidateSession_absent_noRows (Logout db token none).db token now
    deleteFault habs
  refine ⟨rfl, rfl, hsame, h1, ?_, h2, ?_⟩
  · rw [hsame]; exact h1
  · rw [hsame]; exact h2

/-- C7: when the store holds pairwise distinct tokens and does not refuse the
statement, `DeleteAllUserSessions username` succeeds and removes every session
of `username` and no other: afterwards no stored session has that username,
the token of each removed session fails `ValidateSession` with
`sql.ErrNoRows` (not with the session-expired error), every session of another
username is still stored and `ValidateSession` of its token returns what it
returned before, nothing new is stored and the `users` table is unchanged. -/
theorem DeleteAllUserSessions_frame (db : DB) (username : String) (now : Time)
    (getFault deleteFault : Option String) (huniq : UniqueTokens db) :
    (DeleteAllUserSessions db username none).result = .ok () ∧
    (∀ s ∈ (DeleteAllUserSessions db username none).db.sessions,
      s.Username ≠ username) ∧
    (∀ s ∈ db.sessions, s.Username = username →
      (ValidateSession (DeleteAllUserSessions db username none).db s.SessionToken now none
        deleteFault).result = .error .ErrNoRows ∧
      (ValidateSession (DeleteAllUserSessions db username none).db s.SessionToken now
        getFault deleteFault).result ≠ .error (.New "session expired")) ∧
    (∀ s ∈ db.sessions, s.Username ≠ username →
      s ∈ (DeleteAllUserSessions db username none).db.sessions ∧
      (ValidateSession (DeleteAllUserSessions db username none).db s.SessionToken now
        getFault deleteFault).result
        = (ValidateSession db s.SessionToken now getFault deleteFault).result) ∧
    (∀ s ∈ (DeleteAllUserSessions db username none).db.sessions, s ∈ db.sessions) ∧
    (DeleteAllUserSessions db username none).db.users = db.users := by
  have hmem : ∀ s, s ∈ (DeleteAllUserSessions db username none).db.sessions ↔
      s ∈ db.sessions ∧ s.Username ≠ username := by
    intro s
    simp [DeleteAllUserSessions_db, List.mem_filter]
  have huniq' : UniqueTokens (DeleteAllUserSessions db username none).db :=
    UniqueTokens_filter db _ huniq
  refine ⟨rfl, fun s hs => ((hmem s).mp hs).2, ?_, ?_, fun s hs => ((hmem s).mp hs).1, rfl⟩
  · intro s hs hname
    have habs : ∀ x ∈ (DeleteAllUserSessions db username none).db.sessions,
        x.SessionToken ≠ s.SessionToken := by
      intro x hx htok
      have hxs := unique_token_eq db huniq x s ((hmem x).mp hx).1 hs htok
      exact ((hmem x).mp hx).2 (hxs ▸ hname)
    exact ⟨ValidateSession_absent_noRows _ s.SessionToken now deleteFault habs,
      ValidateSession_absent_not_expired _ s.SessionToken now getFault deleteFault habs⟩
  · intro s hs hname
    have hs' : s ∈ (DeleteAllUserSessions db username none).db.sessions :=
      (hmem s).mpr ⟨hs, hname⟩
    refine ⟨hs', ?_⟩
    cases getFault with
    | some m => rfl
    | none =>
      rw [ValidateSession_of_get db s.SessionToken now none deleteFault s
          (GetSessionByToken_of_mem db s hs huniq),
        ValidateSession_of_get _ s.SessionToken now none deleteFault s
          (GetSessionByToken_of_mem _ s hs' huniq')]
      by_cases hlt : s.ExpiresAt < now
      · simp [hlt]
      · simp [hlt]

/-- Witness of `DeleteAllUserSessions_frame`: the two sessions of `carol` are
removed from `sampleDB`, her first token is no longer found, and the session
of `bob` stays. -/
theorem DeleteAllUserSessions_frame_witness :
    UniqueTokens sampleDB ∧
    (DeleteAllUserSessions sampleDB "carol" none).db.sessions = [bobSession] ∧
    carolSession ∈ sampleDB.sessions ∧ carolSession.Username = "carol" ∧
    (ValidateSession (DeleteAllUserSessions sampleDB "carol" none).db
      carolSession.SessionToken 10 none none).result = .error .ErrNoRows :=
  ⟨by decide, rfl, by decide, rfl,
    ((DeleteAllUserSessions_frame sampleDB "carol" 10 none none (by decide)).2.2.1
      carolSession (by decide) rfl).1⟩

/-- C8: run at clock reading `now` on a store that does not refuse the
statement, `CleanExpiredSessions` succeeds and deletes exactly the sessions
with `ExpiresAt < now`: afterwards every stored session has `now ≤ ExpiresAt`,
a session is stored exactly when it was stored before with `now ≤ ExpiresAt`,
and the `users` table is unchanged.  In particular, after a session `e`
created with a duration of minus one hour and a session `v` created with plus
one hour, a clean-up at a reading between the first creation and the expiry of
`v` makes `GetSessionByToken` fail for `e` and still return `v`. -/
theorem CleanExpiredSessions_exact (db : DB) (now : Time) :
    (CleanExpiredSessions db now none).result = .ok () ∧
    (∀ s ∈ (CleanExpiredSessions db now none).db.sessions, ¬ s.ExpiresAt < now) ∧
    (∀ s, s ∈ (CleanExpiredSessions db now none).db.sessions ↔
      s ∈ db.sessions ∧ now ≤ s.ExpiresAt) ∧
    (CleanExpiredSessions db now none).db.users = db.users ∧
    (∀ (base : DB) (userID : Int) (username : String) (uuid1 uuid2 : UUID)
        (t1 t1' t2 t2' : Time) (e v : Session),
      (CreateSession base userID username (-Hour) uuid1 t1 t1' none).result = .ok e →
      (CreateSession (CreateSession base userID username (-Hour) uuid1 t1 t1' none).db
        userID username Hour uuid2 t2 t2' none).result = .ok v →
      db = (CreateSession (CreateSession base userID username (-Hour) uuid1 t1 t1' none).db
        userID username Hour uuid2 t2 t2' none).db →
      t1 ≤ now → now ≤ t2 + Hour →
      GetSessionByToken (CleanExpiredSessions db now none).db e.SessionToken none
        = .error .ErrNoRows ∧
      GetSessionByToken (CleanExpiredSessions db now none).db v.SessionToken none
        = .ok v) := by
  have hmem : ∀ s, s ∈ (CleanExpiredSessions db now none).db.sessions ↔
      s ∈ db.sessions ∧ now ≤ s.ExpiresAt := by
    intro s
    simp [CleanExpiredSessions_db, List.mem_filter]
  refine ⟨rfl, fun s hs => Int.not_lt.mpr ((hmem s).mp hs).2, hmem, rfl, ?_⟩
  intro base userID username uuid1 uuid2 t1 t1' t2 t2' e v he hv hdb ht1 ht2
  obtain ⟨_, hfresh1, _, hes⟩ :=
    (CreateSession_ok_iff base userID username (-Hour) uuid1 t1 t1' none e).mp he
  obtain ⟨_, hfresh2, _, hvs⟩ :=
    (CreateSession_ok_iff _ userID username Hour uuid2 t2 t2' none v).mp hv
  have hdb1 := CreateSession_ok_db base userID username (-Hour) uuid1 t1 t1' none e he
  have hdb2 := CreateSession_ok_db _ userID username Hour uuid2 t2 t2' none v hv
  have hetok : e.SessionToken = uuid1.String := by rw [hes]; rfl
  have hvtok : v.SessionToken = uuid2.String := by rw [hvs]; rfl
  have heexp : e.ExpiresAt < now := by
    have h1 : e.ExpiresAt = t1 + -Hour := by rw [hes]; rfl
    have h2 : t1 + -Hour < t1 := by
      have := Int.add_lt_add_left (Int.neg_neg_of_pos Hour_pos) t1
      simpa using this
    rw [h1]
    exact Int.lt_of_lt_of_le h2 ht1
  have hvexp : now ≤ v.ExpiresAt := by
    have h1 : v.ExpiresAt = t2 + Hour := by rw [hvs]; rfl
    rw [h1]; exact ht2
  have hsess : db.sessions = (base.sessions ++ [e]) ++ [v] := by
    rw [hdb, hdb2, hdb1]
  have hfresh2' : ∀ x ∈ base.sessions ++ [e], x.SessionToken ≠ v.SessionToken := by
    intro x hx
    rw [hvtok]
    apply hfresh2
    rw [hdb1]
    exact hx
  constructor
  · apply GetSessionByToken_absent
    intro x hx htok
    obtain ⟨hxdb, hxexp⟩ := (hmem x).mp hx
    rw [hsess] at hxdb
    rcases List.mem_append.mp hxdb with hx1 | hx1
    · rcases List.mem_append.mp hx1 with hx2 | hx2
      · exact hfresh1 x hx2 (htok.trans hetok)
      · have hxe : x = e := by simpa using hx2
        rw [hxe] at hxexp
        exact absurd heexp (Int.not_lt.mpr hxexp)
    · have hxv : x = v := by simpa using hx1
      rw [hxv] at htok
      exact hfresh2' e (by simp) htok.symm
  · have hfind : db.sessions.find? (fun x => x.SessionToken == v.SessionToken) = some v := by
      rw [hsess]
      exact find_token_append_fresh _ v hfresh2'
    have hkeep : ∀ s ∈ db.sessions, s.SessionToken = v.SessionToken →
        (fun s : Session => !decide (s.ExpiresAt < now)) s = true := by
      intro s hs htok
      rw [hsess] at hs
      rcases List.mem_append.mp hs with hs1 | hs1
      · exact absurd htok (hfresh2' s hs1)
      · have hsv : s = v := by simpa using hs1
        rw [hsv]
        simpa using hvexp
    have := find_token_filter db.sessions _ v.SessionToken hkeep
    simp only [GetSessionByToken, CleanExpiredSessions_db, this, hfind]

/-- Witness of the create-then-clean scenario of `CleanExpiredSessions_exact`:
on `emptyDB`, a session with duration minus one hour and one with plus one
hour are created for `bob`, and the clean-up runs right after. -/
theorem CleanExpiredSessions_exact_witness :
    GetSessionByToken
      (CleanExpiredSessions
        (CreateSession (CreateSession emptyDB 1 "bob" (-Hour) zeroUUID 10000 10001 none).db
          1 "bob" Hour oneUUID 10002 10003 none).db 10004 none).db
      zeroUUID.String none = .error .ErrNoRows ∧
    GetSessionByToken
      (CleanExpiredSessions
        (CreateSession (CreateSession emptyDB 1 "bob" (-Hour) zeroUUID 10000 10001 none).db
          1 "bob" Hour oneUUID 10002 10003 none).db 10004 none).db
      oneUUID.String none = .ok ⟨"2", 1, "bob", oneUUID.String, 10002 + Hour, 10003⟩ :=
  (CleanExpiredSessions_exact
    (CreateSession (CreateSession emptyDB 1 "bob" (-Hour) zeroUUID 10000 10001 none).db
      1 "bob" Hour oneUUID 10002 10003 none).db 10004).2.2.2.2
    emptyDB 1 "bob" zeroUUID oneUUID 10000 10001 10002 10003
    ⟨"1", 1, "bob", zeroUUID.String, 10000 - Hour, 10001⟩
    ⟨"2", 1, "bob", oneUUID.String, 10002 + Hour, 10003⟩
    (by rfl) (by rfl) rfl (by decide) (by decide)

/-! ## Token uniqueness and the frame of `CreateSession` -/

theorem CreateSession_collision (db : DB) (userID : Int) (username : String)
    (duration : Duration) (uuid : UUID) (now1 now2 : Time) (fault : Option String)
    (hdup : ∃ s ∈ db.sessions, s.SessionToken = uuid.String) :
    ∃ e, CreateSession db userID username duration uuid now1 now2 fault = ⟨.error e, db⟩ := by
  cases hres : (CreateSession db userID username duration uuid now1 now2 fault).result with
  | ok s =>
    obtain ⟨_, hfresh, _, _⟩ :=
      (CreateSession_ok_iff db userID username duration uuid now1 now2 fault s).mp hres
    obtain ⟨x, hx, hxt⟩ := hdup
    exact absurd hxt (hfresh x hx)
  | error e =>
    refine ⟨e, ?_⟩
    have hdb := CreateSession_error_db db userID username duration uuid now1 now2 fault e hres
    cases hcs : CreateSession db userID username duration uuid now1 now2 fault with
    | mk r db' =>
      rw [hcs] at hres hdb
      simp only at hres hdb
      rw [hres, hdb]

theorem UniqueTokens_CreateSession (db : DB) (userID : Int) (username : String)
    (duration : Duration) (uuid : UUID) (now1 now2 : Time) (fault : Option String)
    (huniq : UniqueTokens db) :
    UniqueTokens (CreateSession db userID username duration uuid now1 now2 fault).db := by
  cases hres : (CreateSession db userID username duration uuid now1 now2 fault).result with
  | error e =>
    rw [CreateSession_error_db db userID username duration uuid now1 now2 fault e hres]
    exact huniq
  | ok s =>
    rw [CreateSession_ok_db db userID username duration uuid now1 now2 fault s hres]
    obtain ⟨_, hfresh, _, hs⟩ :=
      (CreateSession_ok_iff db userID username duration uuid now1 now2 fault s).mp hres
    have htok : s.SessionToken = uuid.String := by rw [hs]; rfl
    unfold UniqueTokens at huniq ⊢
    simp only [List.map_append, List.map_cons, List.map_nil]
    refine List.Nodup.append huniq (List.nodup_singleton _) ?_
    intro t ht1 ht2
    rw [List.mem_singleton] at ht2
    obtain ⟨x, hx, hxt⟩ := List.mem_map.mp ht1
    exact hfresh x hx (by rw [hxt, ht2, htok])

theorem UniqueTokens_DeleteSession (db : DB) (token : String) (fault : Option String)
    (huniq : UniqueTokens db) : UniqueTokens (DeleteSession db token fault).db := by
  cases fault with
  | some m => exact huniq
  | none => exact UniqueTokens_filter db _ huniq

theorem UniqueTokens_DeleteAllUserSessions (db : DB) (username : String)
    (fault : Option String) (huniq : UniqueTokens db) :
    UniqueTokens (DeleteAllUserSessions db username fault).db := by
  cases fault with
  | some m => exact huniq
  | none => exact UniqueTokens_filter db _ huniq

theorem UniqueTokens_CleanExpiredSessions (db : DB) (now : Time) (fault : Option String)
    (huniq : UniqueTokens db) : UniqueTokens (CleanExpiredSessions db now fault).db := by
  cases fault with
  | some m => exact huniq
  | none => exact UniqueTokens_filter db _ huniq

theorem UniqueTokens_ValidateSession (db : DB) (token : String) (now : Time)
    (getFault deleteFault : Option String) (huniq : UniqueTokens db) :
    UniqueTokens (ValidateSession db token now getFault deleteFault).db := by
  cases hget : GetSessionByToken db token getFault with
  | error e =>
    rw [ValidateSession_of_get_error db token now getFault deleteFault e hget]
    exact huniq
  | ok s =>
    rw [ValidateSession_of_get db token now getFault deleteFault s hget]
    by_cases hlt : s.ExpiresAt < now
    · simp only [hlt, if_true]
      exact UniqueTokens_DeleteSession db token deleteFault huniq
    · simp only [hlt, if_false]
      exact huniq

theorem UniqueTokens_of_Reachable (db : DB) (h : Reachable db) : UniqueTokens db := by
  induction h with
  | empty users seq => simp [UniqueTokens]
  | createSession userID username duration uuid now1 now2 fault _ ih =>
    exact UniqueTokens_CreateSession _ userID username duration uuid now1 now2 fault ih
  | deleteSession token fault _ ih => exact UniqueTokens_DeleteSession _ token fault ih
  | deleteAllUserSessions username fault _ ih =>
    exact UniqueTokens_DeleteAllUserSessions _ username fault ih
  | cleanExpiredSessions now fault _ ih =>
    exact UniqueTokens_CleanExpiredSessions _ now fault ih
  | validateSession token now getFault deleteFault _ ih =>
    exact UniqueTokens_ValidateSession _ token now getFault deleteFault ih

/-- C11: token uniqueness is an invariant of the session store.  In every store
reachable from a store without sessions by `CreateSession`, `DeleteSession`,
`DeleteAllUserSessions`, `CleanExpiredSessions` and `ValidateSession`, the
tokens of the stored sessions are pairwise distinct, so two stored sessions
with the same token are the same session; and a `CreateSession` whose
generated token is carried by a stored session fails and leaves the store as
it was. -/
theorem Reachable_unique_tokens (db : DB) (hreach : Reachable db) :
    UniqueTokens db ∧
    (∀ s1 ∈ db.sessions, ∀ s2 ∈ db.sessions,
      s1.SessionToken = s2.SessionToken → s1 = s2) ∧
    (∀ (userID : Int) (username : String) (duration : Duration) (uuid : UUID)
        (now1 now2 : Time) (fault : Option String),
      (∃ s ∈ db.sessions, s.SessionToken = uuid.String) →
      ∃ e, CreateSession db userID username duration uuid now1 now2 fault
        = ⟨.error e, db⟩) := by
  have huniq := UniqueTokens_of_Reachable db hreach
  refine ⟨huniq, ?_, ?_⟩
  · intro s1 h1 s2 h2 htok
    exact unique_token_eq db huniq s1 s2 h1 h2 htok
  · intro userID username duration uuid now1 now2 fault hdup
    exact CreateSession_collision db userID username duration uuid now1 now2 fault hdup

/-- Witness of `Reachable_unique_tokens`: the store after one session was
created on `emptyDB`; a second `CreateSession` with the same UUID fails with
the unique-constraint error and stores nothing. -/
theorem Reachable_unique_tokens_witness :
    Reachable (CreateSession emptyDB 1 "bob" Hour zeroUUID 10 11 none).db ∧
    UniqueTokens (CreateSession emptyDB 1 "bob" Hour zeroUUID 10 11 none).db ∧
    CreateSession (CreateSession emptyDB 1 "bob" Hour zeroUUID 10 11 none).db 2 "carol" Hour
      zeroUUID 20 21 none
      = ⟨.error uniqueViolation, (CreateSession emptyDB 1 "bob" Hour zeroUUID 10 11 none).db⟩ :=
  ⟨Reachable.createSession 1 "bob" Hour zeroUUID 10 11 none (Reachable.empty _ _),
    (Reachable_unique_tokens _
      (Reachable.createSession 1 "bob" Hour zeroUUID 10 11 none (Reachable.empty _ _))).1,
    rfl⟩

theorem find_token_append_of_mem (l : List Session) (s x : Session) (hx : x ∈ l) :
    (l ++ [s]).find? (fun y => y.SessionToken == x.SessionToken)
      = l.find? (fun y => y.SessionToken == x.SessionToken) := by
  rw [List.find?_append]
  cases hfind : l.find? (fun y => y.SessionToken == x.SessionToken) with
  | some y => rfl
  | none =>
    exact absurd rfl ((find_token_none_iff l x.SessionToken).mp hfind x hx)

theorem ValidateSession_result_congr (db db' : DB) (token : String) (now : Time)
    (getFault deleteFault : Option String)
    (hget : GetSessionByToken db' token getFault = GetSessionByToken db token getFault) :
    (ValidateSession db' token now getFault deleteFault).result
      = (ValidateSession db token now getFault deleteFault).result := by
  unfold ValidateSession
  rw [hget]
  cases GetSessionByToken db token getFault with
  | error e => rfl
  | ok s =>
    by_cases h : Time.After now s.ExpiresAt = true
    · simp [h]
    · simp [h]

/-- C12: a successful `CreateSession` does not affect the sessions already
stored.  Every session stored before is still stored, the stored sessions are
the old ones followed by the new one, `ValidateSession` of the token of an old
session returns exactly what it returned before (for every clock reading and
driver behaviour), and the user of the new session has one session more than
before: nothing limits how many sessions a user holds, and an old session that
was valid stays valid next to the new one. -/
theorem CreateSession_frame (db : DB) (userID : Int) (username : String)
    (duration : Duration) (uuid : UUID) (now1 now2 : Time) (fault : Option String)
    (s : Session)
    (hcreate : (CreateSession db userID username duration uuid now1 now2 fault).result
      = .ok s) :
    (CreateSession db userID username duration uuid now1 now2 fault).db.sessions
      = db.sessions ++ [s] ∧
    (∀ x ∈ db.sessions,
      x ∈ (CreateSession db userID username duration uuid now1 now2 fault).db.sessions ∧
      ∀ (now : Time) (getFault deleteFault : Option String),
        (ValidateSession (CreateSession db userID username duration uuid now1 now2 fault).db
          x.SessionToken now getFault deleteFault).result
          = (ValidateSession db x.SessionToken now getFault deleteFault).result) ∧
    ((CreateSession db userID username duration uuid now1 now2
        fault).db.sessions.filter (fun x => x.Username == username)).length
      = (db.sessions.filter (fun x => x.Username == username)).length + 1 ∧
    (∀ (now : Time) (deleteFault : Option String), now ≤ now1 + duration →
      (ValidateSession (CreateSession db userID username duration uuid now1 now2 fault).db
        s.SessionToken now none deleteFault).result = .ok s) ∧
    (CreateSession db userID username duration uuid now1 now2 fault).db.users = db.users := by
  have hdb := CreateSession_ok_db db userID username duration uuid now1 now2 fault s hcreate
  have hget := CreateSession_then_get db userID username duration uuid now1 now2 fault s
    hcreate
  obtain ⟨_, _, _, hs⟩ :=
    (CreateSession_ok_iff db userID username duration uuid now1 now2 fault s).mp hcreate
  have hname : s.Username = username := by rw [hs]; rfl
  have hexp : s.ExpiresAt = now1 + duration := by rw [hs]; rfl
  refine ⟨by rw [hdb], ?_, ?_, ?_, by rw [hdb]⟩
  · intro x hx
    refine ⟨by rw [hdb]; simp [hx], ?_⟩
    intro now getFault deleteFault
    apply ValidateSession_result_congr
    cases getFault with
    | some m => rfl
    | none =>
      simp only [GetSessionByToken, hdb, find_token_append_of_mem db.sessions s x hx]
  · rw [hdb]
    simp [List.filter_append, List.filter_cons, hname]
  · intro now deleteFault hnow
    rw [ValidateSession_of_get _ s.SessionToken now none deleteFault s hget]
    have hnot : ¬ s.ExpiresAt < now := by rw [hexp]; exact Int.not_lt.mpr hnow
    simp [hnot]

/-- Witness of `CreateSession_frame`: `carol` gets a third session on
`sampleDB`; her first session validates as before. -/
theorem CreateSession_frame_witness :
    (CreateSession sampleDB 2 "carol" Hour zeroUUID 100 101 none).result
      = .ok ⟨"4", 2, "carol", zeroUUID.String, 100 + Hour, 101⟩ ∧
    (CreateSession sampleDB 2 "carol" Hour zeroUUID 100 101 none).db.sessions
      = sampleDB.sessions ++ [⟨"4", 2, "carol", zeroUUID.String, 100 + Hour, 101⟩] ∧
    ((CreateSession sampleDB 2 "carol" Hour zeroUUID 100 101
        none).db.sessions.filter (fun x => x.Username == "carol")).length
      = (sampleDB.sessions.filter (fun x => x.Username == "carol")).length + 1 :=
  ⟨rfl,
    (CreateSession_frame sampleDB 2 "carol" Hour zeroUUID 100 101 none
      ⟨"4", 2, "carol", zeroUUID.String, 100 + Hour, 101⟩ (by rfl)).1,
    (CreateSession_frame sampleDB 2 "carol" Hour zeroUUID 100 101 none
      ⟨"4", 2, "carol", zeroUUID.String, 100 + Hour, 101⟩ (by rfl)).2.2.1⟩

/-! ## The HTTP layer -/

theorem Request.Cookie_error (r : Request) (name : String) (e : GoError)
    (h : r.Cookie name = .error e) : e = ErrNoCookie := by
  unfold Request.Cookie at h
  cases hfind : r.cookies.find? (fun c => c.Name == name) with
  | some c => simp [hfind] at h
  | none =>
    simp only [hfind, Except.error.injEq] at h
    exact h.symm

theorem http.Error_status (w : ResponseWriter) (msg : String) (code : Nat)
    (hfresh : w.status = none) : (http.Error w msg code).status = some code := by
  simp [http.Error, ResponseWriter.HeaderSet, ResponseWriter.WriteHeader,
    ResponseWriter.Write, hfresh]

theorem http.Error_body (w : ResponseWriter) (msg : String) (code : Nat) :
    (http.Error w msg code).body = w.body ++ (msg ++ "\n") := by
  cases hs : w.status with
  | none =>
    simp [http.Error, ResponseWriter.HeaderSet, ResponseWriter.WriteHeader,
      ResponseWriter.Write, hs]
  | some c =>
    simp [http.Error, ResponseWriter.HeaderSet, ResponseWriter.WriteHeader,
      ResponseWriter.Write, hs]

theorem http.Error_cookies (w : ResponseWriter) (msg : String) (code : Nat) :
    (http.Error w msg code).cookies = w.cookies := by
  cases hs : w.status with
  | none =>
    simp [http.Error, ResponseWriter.HeaderSet, ResponseWriter.WriteHeader,
      ResponseWriter.Write, hs]
  | some c =>
    simp [http.Error, ResponseWriter.HeaderSet, ResponseWriter.WriteHeader,
      ResponseWriter.Write, hs]

theorem strings.Contains_append (a m b : String) :
    strings.Contains (a ++ (m ++ b)) m = true := by
  simp only [strings.Contains, decide_eq_true_eq, String.toList, String.data_append]
  exact ⟨a.data, b.data, by simp⟩

theorem ValidateSession_ok_db (db : DB) (token : String) (now : Time)
    (getFault deleteFault : Option String) (s : Session)
    (h : (ValidateSession db token now getFault deleteFault).result = .ok s) :
    (ValidateSession db token now getFault deleteFault).db = db := by
  cases hget : GetSessionByToken db token getFault with
  | error e => rw [ValidateSession_of_get_error db token now getFault deleteFault e hget]
  | ok s0 =>
    rw [ValidateSession_of_get db token now getFault deleteFault s0 hget] at h ⊢
    by_cases hlt : s0.ExpiresAt < now
    · simp [hlt] at h
    · simp [hlt]

theorem SessionAuthMiddleware_no_cookie (next : HandlerFunc) (w : ResponseWriter)
    (r : Request) (db : DB) (now : Time) (getFault deleteFault : Option String)
    (e : GoError) (hcookie : r.Cookie "session_token" = .error e) :
    UserHandler.SessionAuthMiddleware next w r db now getFault deleteFault
      = ⟨http.Error w "Unauthorized: No session token" StatusUnauthorized, db, []⟩ := by
  have he := Request.Cookie_error r "session_token" e hcookie
  subst he
  simp [UserHandler.SessionAuthMiddleware, hcookie]

theorem SessionAuthMiddleware_rejected (next : HandlerFunc) (w : ResponseWriter)
    (r : Request) (db : DB) (now : Time) (getFault deleteFault : Option String)
    (cookie : Cookie) (e : GoError) (hcookie : r.Cookie "session_token" = .ok cookie)
    (hval : (ValidateSession db cookie.Value now getFault deleteFault).result = .error e) :
    UserHandler.SessionAuthMiddleware next w r db now getFault deleteFault
      = ⟨http.Error w ("Unauthorized: " ++ e.Error) StatusUnauthorized,
         (ValidateSession db cookie.Value now getFault deleteFault).db, []⟩ := by
  cases hv : ValidateSession db cookie.Value now getFault deleteFault with
  | mk res db' =>
    rw [hv] at hval
    simp only at hval
    subst hval
    simp [UserHandler.SessionAuthMiddleware, hcookie, hv]

theorem SessionAuthMiddleware_accepted (next : HandlerFunc) (w : ResponseWriter)
    (r : Request) (db : DB) (now : Time) (getFault deleteFault : Option String)
    (cookie : Cookie) (s : Session) (hcookie : r.Cookie "session_token" = .ok cookie)
    (hval : (ValidateSession db cookie.Value now getFault deleteFault).result = .ok s) :
    UserHandler.SessionAuthMiddleware next w r db now getFault deleteFault
      = ⟨(next w (r.WithContext (r.context.WithValue "username" s.Username)) db).1,
         (next w (r.WithContext (r.context.WithValue "username" s.Username)) db).2,
         [r.WithContext (r.context.WithValue "username" s.Username)]⟩ := by
  have hdb := ValidateSession_ok_db db cookie.Value now getFault deleteFault s hval
  cases hv : ValidateSession db cookie.Value now getFault deleteFault with
  | mk res db' =>
    rw [hv] at hval hdb
    simp only at hval hdb
    subst hval hdb
    simp [UserHandler.SessionAuthMiddleware, hcookie, hv]

/-- C13: `SessionAuthMiddleware(next)`, serving into a writer nothing was
written to, runs `next` if and only if the request carries a `session_token`
cookie whose value `ValidateSession` accepts.  In that case `next` runs exactly
once, on the same writer and store, with a request whose context value
`username` is the `Username` of the validated session.  When the cookie is
missing, or `ValidateSession` fails for its value (unknown token, expired
session or any other error), the status is 401 and `next` does not run. -/
theorem SessionAuthMiddleware_gate (next : HandlerFunc) (w : ResponseWriter) (r : Request)
    (db : DB) (now : Time) (getFault deleteFault : Option String)
    (hfresh : w.status = none) :
    ((UserHandler.SessionAuthMiddleware next w r db now getFault deleteFault).calls ≠ [] ↔
      ∃ cookie session, r.Cookie "session_token" = .ok cookie ∧
        (ValidateSession db cookie.Value now getFault deleteFault).result = .ok session) ∧
    (∀ cookie session, r.Cookie "session_token" = .ok cookie →
      (ValidateSession db cookie.Value now getFault deleteFault).result = .ok session →
      (UserHandler.SessionAuthMiddleware next w r db now getFault deleteFault).calls
        = [r.WithContext (r.context.WithValue "username" session.Username)] ∧
      (r.WithContext (r.context.WithValue "username" session.Username)).context.Value
        "username" = some session.Username ∧
      ((UserHandler.SessionAuthMiddleware next w r db now getFault deleteFault).w,
       (UserHandler.SessionAuthMiddleware next w r db now getFault deleteFault).db)
        = next w (r.WithContext (r.context.WithValue "username" session.Username)) db) ∧
    (∀ e, r.Cookie "session_token" = .error e →
      (UserHandler.SessionAuthMiddleware next w r db now getFault deleteFault).calls = [] ∧
      (UserHandler.SessionAuthMiddleware next w r db now getFault deleteFault).w.status
        = some StatusUnauthorized ∧
      (UserHandler.SessionAuthMiddleware next w r db now getFault deleteFault).db = db) ∧
    (∀ cookie e, r.Cookie "session_token" = .ok cookie →
      (ValidateSession db cookie.Value now getFault deleteFault).result = .error e →
      (UserHandler.SessionAuthMiddleware next w r db now getFault deleteFault).calls = [] ∧
      (UserHandler.SessionAuthMiddleware next w r db now getFault deleteFault).w.status
        = some StatusUnauthorized) := by
  have hacc : ∀ cookie session, r.Cookie "session_token" = .ok cookie →
      (ValidateSession db cookie.Value now getFault deleteFault).result = .ok session →
      (UserHandler.SessionAuthMiddleware next w r db now getFault deleteFault).calls
        = [r.WithContext (r.context.WithValue "username" session.Username)] := by
    intro cookie session hc hv
    rw [SessionAuthMiddleware_accepted next w r db now getFault deleteFault cookie session
      hc hv]
  have hrej : ∀ cookie e, r.Cookie "session_token" = .ok cookie →
      (ValidateSession db cookie.Value now getFault deleteFault).result = .error e →
      (UserHandler.SessionAuthMiddleware next w r db now getFault deleteFault).calls = [] ∧
      (UserHandler.SessionAuthMiddleware next w r db now getFault deleteFault).w.status
        = some StatusUnauthorized := by
    intro cookie e hc hv
    rw [SessionAuthMiddleware_rejected next w r db now getFault deleteFault cookie e hc hv]
    exact ⟨rfl, http.Error_status w _ _ hfresh⟩
  have hmiss : ∀ e, r.Cookie "session_token" = .error e →
      (UserHandler.SessionAuthMiddleware next w r db now getFault deleteFault).calls = [] ∧
      (UserHandler.SessionAuthMiddleware next w r db now getFault deleteFault).w.status
        = some StatusUnauthorized ∧
      (UserHandler.SessionAuthMiddleware next w r db now getFault deleteFault).db = db := by
    intro e hc
    rw [SessionAuthMiddleware_no_cookie next w r db now getFault deleteFault e hc]
    exact ⟨rfl, http.Error_status w _ _ hfresh, rfl⟩
  refine ⟨?_, ?_, hmiss, hrej⟩
  · constructor
    · intro hcalls
      cases hc : r.Cookie "session_token" with
      | error e => exact absurd (hmiss e hc).1 hcalls
      | ok cookie =>
        cases hv : (ValidateSession db cookie.Value now getFault deleteFault).result with
        | error e => exact absurd (hrej cookie e hc hv).1 hcalls
        | ok session => exact ⟨cookie, session, rfl, hv⟩
    · rintro ⟨cookie, session, hc, hv⟩
      rw [hacc cookie session hc hv]
      simp
  · intro cookie session hc hv
    refine ⟨hacc cookie session hc hv, ?_, ?_⟩
    · simp [Request.WithContext, Context.WithValue, Context.Value]
    · rw [SessionAuthMiddleware_accepted next w r db now getFault deleteFault cookie
        session hc hv]

/-- Witness of `SessionAuthMiddleware_gate`: a request with the token of
`bobSession`, served at instant 100 on `sampleDB`, reaches the wrapped handler
once with `username = "bob"`. -/
theorem SessionAuthMiddleware_gate_witness :
    ResponseWriter.fresh.status = none ∧
    (requestWith [requestCookie "session_token" "t-bob"] "").Cookie "session_token"
      = .ok (requestCookie "session_token" "t-bob") ∧
    (ValidateSession sampleDB "t-bob" 100 none none).result = .ok bobSession ∧
    (UserHandler.SessionAuthMiddleware echoUsername .fresh
      (requestWith [requestCookie "session_token" "t-bob"] "") sampleDB 100 none none).calls
      = [(requestWith [requestCookie "session_token" "t-bob"] "").WithContext
          ((requestWith [requestCookie "session_token" "t-bob"] "").context.WithValue
            "username" bobSession.Username)] :=
  ⟨rfl, rfl, rfl,
    ((SessionAuthMiddleware_gate echoUsername .fresh
      (requestWith [requestCookie "session_token" "t-bob"] "") sampleDB 100 none none
      rfl).2.1 (requestCookie "session_token" "t-bob") bobSession rfl (by rfl)).1⟩

theorem Logout_handler_no_cookie (w : ResponseWriter) (r : Request) (db : DB)
    (fault : Option String) (e : GoError) (hcookie : r.Cookie "session_token" = .error e) :
    UserHandler.Logout w r db fault
      = ((w.WriteHeader StatusOK).Write (encodeMessage "Already logged out"), db) := by
  have he := Request.Cookie_error r "session_token" e hcookie
  subst he
  simp [UserHandler.Logout, hcookie]

theorem Logout_handler_ok (w : ResponseWriter) (r : Request) (db : DB) (cookie : Cookie)
    (hcookie : r.Cookie "session_token" = .ok cookie) :
    UserHandler.Logout w r db none
      = (((http.SetCookie w
            { Name := "session_token", Value := "", MaxAge := -1, HttpOnly := true,
              Path := "/", Expires := none, SameSite := .unset }).WriteHeader
            StatusOK).Write (encodeMessage "Logged out successfully"),
         (DeleteSession db cookie.Value none).db) := by
  simp [UserHandler.Logout, hcookie, Logout, DeleteSession]

theorem Logout_handler_fault (w : ResponseWriter) (r : Request) (db : DB) (cookie : Cookie)
    (m : String) (hcookie : r.Cookie "session_token" = .ok cookie) :
    UserHandler.Logout w r db (some m)
      = (http.Error w ("Logout failed: " ++ m) StatusInternalServerError, db) := by
  simp [UserHandler.Logout, hcookie, Logout, DeleteSession, GoError.Error]

/-- C14: the `Logout` handler, serving into a writer nothing was written to.
Without a `session_token` cookie it responds 200, leaves the store unchanged
and sets no cookie.  With the cookie and a store that does not refuse the
statement it responds 200 whether or not a session with that token is stored,
the store afterwards is the one `DeleteSession` of the cookie value leaves (no
session with that token, every other session kept), and exactly one cookie is
set: `session_token` with empty value and `MaxAge = -1`. -/
theorem Logout_handler (w : ResponseWriter) (r : Request) (db : DB)
    (hfresh : w.status = none) :
    (∀ e fault, r.Cookie "session_token" = .error e →
      (UserHandler.Logout w r db fault).1.status = some StatusOK ∧
      (UserHandler.Logout w r db fault).2 = db ∧
      (UserHandler.Logout w r db fault).1.cookies = w.cookies) ∧
    (∀ cookie, r.Cookie "session_token" = .ok cookie →
      (UserHandler.Logout w r db none).1.status = some StatusOK ∧
      (UserHandler.Logout w r db none).2 = (DeleteSession db cookie.Value none).db ∧
      (∀ s ∈ (UserHandler.Logout w r db none).2.sessions, s.SessionToken ≠ cookie.Value) ∧
      (∀ s : Session, s.SessionToken ≠ cookie.Value →
        (s ∈ (UserHandler.Logout w r db none).2.sessions ↔ s ∈ db.sessions)) ∧
      (UserHandler.Logout w r db none).1.cookies = w.cookies ++
        [{ Name := "session_token", Value := "", MaxAge := -1, HttpOnly := true,
           Path := "/", Expires := none, SameSite := .unset }]) := by
  constructor
  · intro e fault hc
    rw [Logout_handler_no_cookie w r db fault e hc]
    simp [ResponseWriter.WriteHeader, ResponseWriter.Write, hfresh]
  · intro cookie hc
    rw [Logout_handler_ok w r db cookie hc]
    refine ⟨?_, rfl, DeleteSession_removes db cookie.Value,
      fun s hne => DeleteSession_keeps db cookie.Value s hne, ?_⟩
    · simp [ResponseWriter.WriteHeader, ResponseWriter.Write, http.SetCookie, hfresh]
    · simp [ResponseWriter.WriteHeader, ResponseWriter.Write, http.SetCookie, hfresh]

/-- Witness of `Logout_handler`: a request without cookies, and a request with
the token of `bobSession`, on `sampleDB`. -/
theorem Logout_handler_witness :
    ResponseWriter.fresh.status = none ∧
    (requestWith [] "").Cookie "session_token" = .error ErrNoCookie ∧
    (UserHandler.Logout .fresh (requestWith [] "") sampleDB none).2 = sampleDB ∧
    (requestWith [requestCookie "session_token" "t-bob"] "").Cookie "session_token"
      = .ok (requestCookie "session_token" "t-bob") ∧
    (UserHandler.Logout .fresh (requestWith [requestCookie "session_token" "t-bob"] "")
      sampleDB none).1.status = some StatusOK :=
  ⟨rfl, rfl,
    ((Logout_handler .fresh (requestWith [] "") sampleDB rfl).1 ErrNoCookie none rfl).2.1,
    rfl,
    ((Logout_handler .fresh (requestWith [requestCookie "session_token" "t-bob"] "")
      sampleDB rfl).2 (requestCookie "session_token" "t-bob") rfl).1⟩

theorem LoginWithSession_handler_error (json : JSONCodec) (validate : Validator)
    (lib : Library) (w : ResponseWriter) (r : Request) (db : DB)
    (lookupFault : Option String) (uuid : UUID) (now1 now2 : Time)
    (createFault : Option String) (handlerNow : Time) (req : LoginRequest) (e : GoError)
    (hdecode : json.DecodeLoginRequest r.body = .ok req)
    (hvalid : Validate validate req.fields = none)
    (hlogin : (SocialNetwork.LoginWithSession lib db req lookupFault uuid now1 now2
      createFault).result = .error e) :
    (UserHandler.LoginWithSession json validate lib w r db lookupFault uuid now1 now2
      createFault handlerNow).1 =
      if strings.Contains e.Error "invalid credentials" then
        http.Error w "Invalid username or password" StatusUnauthorized
      else if strings.Contains e.Error "not found" then
        http.Error w "User not found" StatusNotFound
      else http.Error w ("Login failed: " ++ e.Error) StatusInternalServerError := by
  cases hls : SocialNetwork.LoginWithSession lib db req lookupFault uuid now1 now2
    createFault with
  | mk res db' =>
    rw [hls] at hlogin
    simp only at hlogin
    subst hlogin
    simp only [UserHandler.LoginWithSession, hdecode, hvalid, hls]
    by_cases h1 : strings.Contains e.Error "invalid credentials" = true
    · simp [h1]
    · by_cases h2 : strings.Contains e.Error "not found" = true
      · simp [h1, h2]
      · simp [h1, h2]

theorem LoginWithSession_handler_ok (json : JSONCodec) (validate : Validator)
    (lib : Library) (w : ResponseWriter) (r : Request) (db : DB)
    (lookupFault : Option String) (uuid : UUID) (now1 now2 : Time)
    (createFault : Option String) (handlerNow : Time) (req : LoginRequest)
    (resp : AuthResponse)
    (hdecode : json.DecodeLoginRequest r.body = .ok req)
    (hvalid : Validate validate req.fields = none)
    (hlogin : (SocialNetwork.LoginWithSession lib db req lookupFault uuid now1 now2
      createFault).result = .ok resp) :
    (UserHandler.LoginWithSession json validate lib w r db lookupFault uuid now1 now2
      createFault handlerNow).1 =
      ((http.SetCookie w
          { Name := "session_token", Value := resp.Token,
            Expires := some (Time.Add handlerNow (24 * Hour)), HttpOnly := true,
            Path := "/", SameSite := .SameSiteStrictMode, MaxAge := 0 }).HeaderSet
          "Content-Type" "application/json").Write (json.EncodeAuthResponse resp) := by
  cases hls : SocialNetwork.LoginWithSession lib db req lookupFault uuid now1 now2
    createFault with
  | mk res db' =>
    rw [hls] at hlogin
    simp only at hlogin
    subst hlogin
    simp only [UserHandler.LoginWithSession, hdecode, hvalid, hls]

/-- C15, the claim as written fails: the driver refuses the statement with
`connection refused`.  The `Logout` and `LoginWithSession` handlers answer 500
with a body that contains that text, and the session middleware answers 401,
which is not a 5xx status, again with that text in the body. -/
theorem store_failure_text_in_response :
    (UserHandler.Logout .fresh (requestWith [requestCookie "session_token" "t-bob"] "")
      sampleDB (some "connection refused")).1
      = ⟨some 500, [("X-Content-Type-Options", "nosniff"),
          ("Content-Type", "text/plain; charset=utf-8")], [],
          "Logout failed: connection refused\n"⟩ ∧
    strings.Contains "Logout failed: connection refused\n" "connection refused" = true ∧
    (UserHandler.LoginWithSession sampleJSON sampleValidator sampleLibrary .fresh
      (requestWith [] "bob:secret") sampleDB (some "connection refused") zeroUUID 10 11 none
      12).1
      = ⟨some 500, [("X-Content-Type-Options", "nosniff"),
          ("Content-Type", "text/plain; charset=utf-8")], [],
          "Login failed: connection refused\n"⟩ ∧
    strings.Contains "Login failed: connection refused\n" "connection refused" = true ∧
    (UserHandler.SessionAuthMiddleware echoUsername .fresh
      (requestWith [requestCookie "session_token" "t-bob"] "") sampleDB 100
      (some "connection refused") none).w
      = ⟨some 401, [("X-Content-Type-Options", "nosniff"),
          ("Content-Type", "text/plain; charset=utf-8")], [],
          "Unauthorized: connection refused\n"⟩ ∧
    strings.Contains "Unauthorized: connection refused\n" "connection refused" = true ∧
    ¬ (500 ≤ 401) := by
  refine ⟨by rfl, by decide, by rfl, by decide, by rfl, by decide, by decide⟩

theorem ValidateSession_result_deleteFault (db : DB) (token : String) (now : Time)
    (getFault deleteFault : Option String) :
    (ValidateSession db token now getFault deleteFault).result
      = (ValidateSession db token now getFault none).result := by
  cases hget : GetSessionByToken db token getFault with
  | error e =>
    rw [ValidateSession_of_get_error db token now getFault deleteFault e hget,
      ValidateSession_of_get_error db token now getFault none e hget]
  | ok s =>
    rw [ValidateSession_of_get db token now getFault deleteFault s hget,
      ValidateSession_of_get db token now getFault none s hget]
    by_cases hlt : s.ExpiresAt < now
    · simp [hlt]
    · simp [hlt]

theorem SessionAuthMiddleware_deleteFault (next : HandlerFunc) (w : ResponseWriter)
    (r : Request) (db : DB) (now : Time) (getFault deleteFault : Option String) :
    (UserHandler.SessionAuthMiddleware next w r db now getFault deleteFault).w
      = (UserHandler.SessionAuthMiddleware next w r db now getFault none).w ∧
    (UserHandler.SessionAuthMiddleware next w r db now getFault deleteFault).calls
      = (UserHandler.SessionAuthMiddleware next w r db now getFault none).calls := by
  cases hc : r.Cookie "session_token" with
  | error e =>
    rw [SessionAuthMiddleware_no_cookie next w r db now getFault deleteFault e hc,
      SessionAuthMiddleware_no_cookie next w r db now getFault none e hc]
    exact ⟨rfl, rfl⟩
  | ok cookie =>
    have hres := ValidateSession_result_deleteFault db cookie.Value now getFault deleteFault
    cases hv : (ValidateSession db cookie.Value now getFault deleteFault).result with
    | error e =>
      rw [SessionAuthMiddleware_rejected next w r db now getFault deleteFault cookie e hc hv,
        SessionAuthMiddleware_rejected next w r db now getFault none cookie e hc
          (hres ▸ hv)]
      exact ⟨rfl, rfl⟩
    | ok s =>
      rw [SessionAuthMiddleware_accepted next w r db now getFault deleteFault cookie s hc hv,
        SessionAuthMiddleware_accepted next w r db now getFault none cookie s hc
          (hres ▸ hv)]
      exact ⟨rfl, rfl⟩

theorem SessionAuthMiddleware_expired_delete_refused (next : HandlerFunc)
    (w : ResponseWriter) (r : Request) (db : DB) (now : Time) (m : String)
    (cookie : Cookie) (s : Session) (hcookie : r.Cookie "session_token" = .ok cookie)
    (hget : GetSessionByToken db cookie.Value none = .ok s) (hexp : s.ExpiresAt < now) :
    UserHandler.SessionAuthMiddleware next w r db now none (some m)
      = ⟨http.Error w "Unauthorized: session expired" StatusUnauthorized, db, []⟩ := by
  have hval : ValidateSession db cookie.Value now none (some m)
      = ⟨.error (.New "session expired"), db⟩ := by
    rw [ValidateSession_of_get db cookie.Value now none (some m) s hget]
    simp [hexp, DeleteSession]
  rw [SessionAuthMiddleware_rejected next w r db now none (some m) cookie
    (.New "session expired") hcookie (by rw [hval]), hval]
  rfl

/-- C15, amended: a store failure with text `m` is reported to the client with
that text, except a failure of the lazy delete of an expired session, which is
not reported at all.

Login: if the login service call fails with the store error `m`, the
`LoginWithSession` handler answers 401 `Invalid username or password` when `m`
contains `invalid credentials`, otherwise 404 `User not found` when `m`
contains `not found`, and otherwise 500 with body `Login failed: m`.
Logout: if the `Logout` statement is refused with `m`, the `Logout` handler
answers 500 with body `Logout failed: m` and the store is unchanged.
Validation, lookup: if the lookup of `ValidateSession` is refused with `m`, the
session middleware answers 401 with body `Unauthorized: m` and does not run the
wrapped handler.
Validation, lazy delete: whatever the driver does to the `DeleteSession` call
of `ValidateSession`, the middleware writes the response and makes the calls
of the wrapped handler it would with a driver that does not fail; for an
expired session whose delete is refused with `m` that is 401 with body
`Unauthorized: session expired`, the wrapped handler is not run and the
session stays in the store. -/
theorem store_failure_response (json : JSONCodec) (validate : Validator) (lib : Library)
    (next : HandlerFunc) (w : ResponseWriter) (r : Request) (db : DB) (m : String)
    (hfresh : w.status = none) :
    (∀ (req : LoginRequest) (lookupFault createFault : Option String) (uuid : UUID)
        (now1 now2 handlerNow : Time),
      json.DecodeLoginRequest r.body = .ok req →
      Validate validate req.fields = none →
      (SocialNetwork.LoginWithSession lib db req lookupFault uuid now1 now2
        createFault).result = .error (.driver m) →
      (UserHandler.LoginWithSession json validate lib w r db lookupFault uuid now1 now2
        createFault handlerNow).1 =
        (if strings.Contains m "invalid credentials" then
          http.Error w "Invalid username or password" StatusUnauthorized
        else if strings.Contains m "not found" then
          http.Error w "User not found" StatusNotFound
        else http.Error w ("Login failed: " ++ m) StatusInternalServerError) ∧
      (strings.Contains m "invalid credentials" = false →
        strings.Contains m "not found" = false →
        (UserHandler.LoginWithSession json validate lib w r db lookupFault uuid now1 now2
          createFault handlerNow).1.status = some StatusInternalServerError ∧
        (UserHandler.LoginWithSession json validate lib w r db lookupFault uuid now1 now2
          createFault handlerNow).1.body = w.body ++ ("Login failed: " ++ (m ++ "\n")) ∧
        strings.Contains ("Login failed: " ++ (m ++ "\n")) m = true)) ∧
    (∀ cookie, r.Cookie "session_token" = .ok cookie →
      (UserHandler.Logout w r db (some m)).1.status = some StatusInternalServerError ∧
      (UserHandler.Logout w r db (some m)).1.body
        = w.body ++ ("Logout failed: " ++ (m ++ "\n")) ∧
      strings.Contains ("Logout failed: " ++ (m ++ "\n")) m = true ∧
      (UserHandler.Logout w r db (some m)).2 = db) ∧
    (∀ cookie (now : Time) (deleteFault : Option String),
      r.Cookie "session_token" = .ok cookie →
      (UserHandler.SessionAuthMiddleware next w r db now (some m) deleteFault).w.status
        = some StatusUnauthorized ∧
      (UserHandler.SessionAuthMiddleware next w r db now (some m) deleteFault).w.body
        = w.body ++ ("Unauthorized: " ++ (m ++ "\n")) ∧
      strings.Contains ("Unauthorized: " ++ (m ++ "\n")) m = true ∧
      (UserHandler.SessionAuthMiddleware next w r db now (some m) deleteFault).calls = []) ∧
    (∀ (now : Time) (getFault : Option String),
      (UserHandler.SessionAuthMiddleware next w r db now getFault (some m)).w
        = (UserHandler.SessionAuthMiddleware next w r db now getFault none).w ∧
      (UserHandler.SessionAuthMiddleware next w r db now getFault (some m)).calls
        = (UserHandler.SessionAuthMiddleware next w r db now getFault none).calls) ∧
    (∀ cookie (now : Time) (s : Session),
      r.Cookie "session_token" = .ok cookie →
      GetSessionByToken db cookie.Value none = .ok s →
      s.ExpiresAt < now →
      (UserHandler.SessionAuthMiddleware next w r db now none (some m)).w.status
        = some StatusUnauthorized ∧
      (UserHandler.SessionAuthMiddleware next w r db now none (some m)).w.body
        = w.body ++ "Unauthorized: session expired\n" ∧
      (UserHandler.SessionAuthMiddleware next w r db now none (some m)).calls = [] ∧
      (UserHandler.SessionAuthMiddleware next w r db now none (some m)).db = db) := by
  refine ⟨?_, ?_, ?_, ?_, ?_⟩
  · intro req lookupFault createFault uuid now1 now2 handlerNow hdecode hvalid hlogin
    rw [LoginWithSession_handler_error json validate lib w r db lookupFault uuid now1 now2
      createFault handlerNow req _ hdecode hvalid hlogin]
    refine ⟨rfl, ?_⟩
    intro h1 h2
    simp only [GoError.Error, h1, h2, Bool.false_eq_true, if_false]
    exact ⟨http.Error_status w _ _ hfresh,
      by rw [http.Error_body, String.append_assoc],
      strings.Contains_append _ m _⟩
  · intro cookie hc
    rw [Logout_handler_fault w r db cookie m hc]
    exact ⟨http.Error_status w _ _ hfresh,
      by rw [http.Error_body, String.append_assoc],
      strings.Contains_append _ m _, rfl⟩
  · intro cookie now deleteFault hc
    have hval : (ValidateSession db cookie.Value now (some m) deleteFault).result
        = .error (.driver m) := rfl
    rw [SessionAuthMiddleware_rejected next w r db now (some m) deleteFault cookie _ hc hval]
    exact ⟨http.Error_status w _ _ hfresh,
      by simp only [GoError.Error]; rw [http.Error_body, String.append_assoc],
      strings.Contains_append _ m _, rfl⟩
  · intro now getFault
    exact SessionAuthMiddleware_deleteFault next w r db now getFault (some m)
  · intro cookie now s hc hget hexp
    rw [SessionAuthMiddleware_expired_delete_refused next w r db now m cookie s hc hget hexp]
    exact ⟨http.Error_status w _ _ hfresh, by rw [http.Error_body]; rfl, rfl, rfl⟩

/-- Witness of `store_failure_response` on `sampleDB`: the `Logout` handler
with the token of `bobSession` and a refused statement answers 500, and the
session middleware serving that token at instant 101, after the expiry of
`bobSession` at 100, with a refused lazy delete answers 401 without the text of
the store error and leaves the session in the store. -/
theorem store_failure_response_witness :
    ResponseWriter.fresh.status = none ∧
    (requestWith [requestCookie "session_token" "t-bob"] "").Cookie "session_token"
      = .ok (requestCookie "session_token" "t-bob") ∧
    (UserHandler.Logout .fresh (requestWith [requestCookie "session_token" "t-bob"] "")
      sampleDB (some "connection refused")).1.status = some StatusInternalServerError ∧
    GetSessionByToken sampleDB "t-bob" none = .ok bobSession ∧
    bobSession.ExpiresAt < 101 ∧
    (UserHandler.SessionAuthMiddleware echoUsername .fresh
      (requestWith [requestCookie "session_token" "t-bob"] "") sampleDB 101 none
      (some "connection refused")).w.body = "Unauthorized: session expired\n" ∧
    (UserHandler.SessionAuthMiddleware echoUsername .fresh
      (requestWith [requestCookie "session_token" "t-bob"] "") sampleDB 101 none
      (some "connection refused")).db = sampleDB :=
  ⟨rfl, rfl,
    ((store_failure_response sampleJSON sampleValidator sampleLibrary echoUsername .fresh
      (requestWith [requestCookie "session_token" "t-bob"] "") sampleDB
      "connection refused" rfl).2.1 (requestCookie "session_token" "t-bob") rfl).1,
    rfl, by decide,
    ((store_failure_response sampleJSON sampleValidator sampleLibrary echoUsername .fresh
      (requestWith [requestCookie "session_token" "t-bob"] "") sampleDB
      "connection refused" rfl).2.2.2.2 (requestCookie "session_token" "t-bob") 101
      bobSession rfl rfl (by decide)).2.1,
    ((store_failure_response sampleJSON sampleValidator sampleLibrary echoUsername .fresh
      (requestWith [requestCookie "session_token" "t-bob"] "") sampleDB
      "connection refused" rfl).2.2.2.2 (requestCookie "session_token" "t-bob") 101
      bobSession rfl rfl (by decide)).2.2.2⟩

/-- C16: a successful `LoginWithSession` for the looked-up `user` appends one
session to the store, whose `ExpiresAt` is the clock reading of the login plus
24 hours (86400 seconds); the returned `AuthResponse` has that session's token
as `Token`, the `Format(time.RFC3339)` rendering of that session's `ExpiresAt`
as `ExpiresAt`, and the stored user's username as `Username`.  The handler sends
that response as its body and the token as the `session_token` cookie. -/
theorem LoginWithSession_response (lib : Library) (db : DB) (req : LoginRequest)
    (lookupFault : Option String) (uuid : UUID) (now1 now2 : Time)
    (createFault : Option String) (user : User) (resp : AuthResponse)
    (huser : GetUserByUsername db req.Username lookupFault = .ok user)
    (hlogin : (LoginWithSession lib db req lookupFault uuid now1 now2 createFault).result
      = .ok resp) :
    (∃ s : Session,
      (LoginWithSession lib db req lookupFault uuid now1 now2 createFault).db.sessions
        = db.sessions ++ [s] ∧
      s.ExpiresAt = Time.Add now1 (24 * Hour) ∧ s.UserID = user.ID ∧
      s.Username = user.Username ∧
      resp.Token = s.SessionToken ∧ resp.ExpiresAt = lib.FormatRFC3339 s.ExpiresAt) ∧
    (24 * Hour : Duration) = 86400 * Second ∧
    resp.Username = user.Username ∧ user ∈ db.users ∧
    (∀ (json : JSONCodec) (validate : Validator) (w : ResponseWriter) (r : Request)
        (handlerNow : Time),
      w.status = none → json.DecodeLoginRequest r.body = .ok req →
      Validate validate req.fields = none →
      (UserHandler.LoginWithSession json validate lib w r db lookupFault uuid now1 now2
        createFault handlerNow).1.body = w.body ++ json.EncodeAuthResponse resp ∧
      (UserHandler.LoginWithSession json validate lib w r db lookupFault uuid now1 now2
        createFault handlerNow).1.cookies = w.cookies ++
          [{ Name := "session_token", Value := resp.Token,
             Expires := some (Time.Add handlerNow (24 * Hour)), HttpOnly := true,
             Path := "/", SameSite := .SameSiteStrictMode, MaxAge := 0 }]) := by
  have hmem := (GetUserByUsername_ok db req.Username lookupFault user huser).2.1
  cases hpw : lib.CheckPasswordHash req.Password user.Password with
  | false =>
    rw [LoginWithSession_wrong_password lib db req lookupFault uuid now1 now2 createFault
      user huser hpw] at hlogin
    simp at hlogin
  | true =>
    cases hcs : (CreateSession db user.ID user.Username (24 * Hour) uuid now1 now2
      createFault).result with
    | error e =>
      rw [LoginWithSession_of_create_error lib db req lookupFault uuid now1 now2
        createFault user e huser hpw hcs] at hlogin
      simp at hlogin
    | ok s =>
      have hfull := LoginWithSession_of_create_ok lib db req lookupFault uuid now1 now2
        createFault user s huser hpw hcs
      have hlogin' := hlogin
      rw [hfull] at hlogin
      simp only [Except.ok.injEq] at hlogin
      obtain ⟨_, _, _, hs⟩ := (CreateSession_ok_iff db user.ID user.Username (24 * Hour)
        uuid now1 now2 createFault s).mp hcs
      refine ⟨⟨s, ?_, ?_, ?_, ?_, ?_, ?_⟩, by decide, ?_, hmem, ?_⟩
      · rw [hfull, CreateSession_ok_db db user.ID user.Username (24 * Hour) uuid now1 now2
          createFault s hcs]
      · rw [hs]; rfl
      · rw [hs]; rfl
      · rw [hs]; rfl
      · rw [← hlogin]
      · rw [← hlogin]
      · rw [← hlogin]
      · intro json validate w r handlerNow hfresh hdecode hvalid
        rw [LoginWithSession_handler_ok json validate lib w r db lookupFault uuid now1 now2
          createFault handlerNow req resp hdecode hvalid hlogin']
        simp [ResponseWriter.WriteHeader, ResponseWriter.Write, ResponseWriter.HeaderSet,
          http.SetCookie, hfresh]

/-- Witness of `LoginWithSession_response`: `bob` logs in at instant 1000 on
`emptyDB`. -/
theorem LoginWithSession_response_witness :
    GetUserByUsername emptyDB "bob" none = .ok bob ∧
    (LoginWithSession sampleLibrary emptyDB ⟨"bob", "secret"⟩ none zeroUUID 1000 1001
      none).result
      = .ok ⟨"bob", "Login successful", zeroUUID.String, "86400000001000"⟩ ∧
    (24 * Hour : Duration) = 86400 * Second ∧ "bob" = bob.Username :=
  ⟨rfl, rfl,
    (LoginWithSession_response sampleLibrary emptyDB ⟨"bob", "secret"⟩ none zeroUUID 1000
      1001 none bob ⟨"bob", "Login successful", zeroUUID.String, "86400000001000"⟩ rfl
      (by rfl)).2.1,
    (LoginWithSession_response sampleLibrary emptyDB ⟨"bob", "secret"⟩ none zeroUUID 1000
      1001 none bob ⟨"bob", "Login successful", zeroUUID.String, "86400000001000"⟩ rfl
      (by rfl)).2.2.1⟩

/-! ## Request validation -/

theorem Validate_eq_none_iff (validate : Validator) (fields : List Field) :
    Validate validate fields = none ↔
      ∀ f ∈ fields, ∀ t ∈ f.tags, t.holds validate f.value = true := by
  have hstruct : validateStruct validate fields = [] ↔
      ∀ f ∈ fields, ∀ t ∈ f.tags, t.holds validate f.value = true := by
    simp [validateStruct, Field.failure, List.filterMap_eq_nil_iff, List.find?_eq_none]
  rw [← hstruct]
  unfold Validate
  cases validateStruct validate fields with
  | nil => simp
  | cons e es => simp

theorem String.ne_empty_of_length_pos (v : String) (h : 1 ≤ v.length) : v ≠ "" := by
  intro he
  rw [he] at h
  simp at h

/-- C18: `Validate` applied to a `SignInRequest` returns no error if and only
if the username has between 3 and 50 characters, the email is non-empty and
passes the validator's `email` test, and the password has between 6 and 100
characters.  Hence every 2-character username and every 4-character password
is rejected, and, the `email` test accepting only values that contain `@`,
so is the email `not-an-email`. -/
theorem Validate_SignInRequest (validate : Validator) (req : SignInRequest)
    (hat : ∀ v, validate.isEmail v = true → '@' ∈ v.toList) :
    (Validate validate req.fields = none ↔
      (3 ≤ req.Username.length ∧ req.Username.length ≤ 50) ∧
      (req.Email ≠ "" ∧ validate.isEmail req.Email = true) ∧
      (6 ≤ req.Password.length ∧ req.Password.length ≤ 100)) ∧
    (req.Username.length = 2 → Validate validate req.fields ≠ none) ∧
    (req.Email = "not-an-email" → Validate validate req.fields ≠ none) ∧
    (req.Password.length = 4 → Validate validate req.fields ≠ none) := by
  have hiff : Validate validate req.fields = none ↔
      (3 ≤ req.Username.length ∧ req.Username.length ≤ 50) ∧
      (req.Email ≠ "" ∧ validate.isEmail req.Email = true) ∧
      (6 ≤ req.Password.length ∧ req.Password.length ≤ 100) := by
    rw [Validate_eq_none_iff]
    simp only [SignInRequest.fields, List.mem_cons, List.mem_singleton, List.not_mem_nil,
      or_false, forall_eq_or_imp, forall_eq, Tag.holds, Bool.not_eq_true', beq_eq_false_iff_ne,
      decide_eq_true_eq, ne_eq]
    constructor
    · rintro ⟨⟨_, h1, h2⟩, ⟨h3, h4⟩, _, h5, h6⟩
      exact ⟨⟨h1, h2⟩, ⟨h3, h4⟩, h5, h6⟩
    · rintro ⟨⟨h1, h2⟩, ⟨h3, h4⟩, h5, h6⟩
      exact ⟨⟨String.ne_empty_of_length_pos _ (by omega), h1, h2⟩, ⟨h3, h4⟩,
        String.ne_empty_of_length_pos _ (by omega), h5, h6⟩
  refine ⟨hiff, ?_, ?_, ?_⟩
  · intro h2 hnone
    have := (hiff.mp hnone).1.1
    omega
  · intro hmail hnone
    have hacc := (hiff.mp hnone).2.1.2
    rw [hmail] at hacc
    exact absurd (hat _ hacc) (by decide)
  · intro h4 hnone
    have := (hiff.mp hnone).2.2.1
    omega

/-- Witness of `Validate_SignInRequest`: the valid request of the unit test
passes, with an `email` test that looks for `@`. -/
theorem Validate_SignInRequest_witness :
    (∀ v, sampleValidator.isEmail v = true → '@' ∈ v.toList) ∧
    Validate sampleValidator
      (SignInRequest.fields ⟨"testuser", "test@example.com", "password123"⟩) = none ∧
    Validate sampleValidator
      (SignInRequest.fields ⟨"te", "test@example.com", "password123"⟩)
      = some (.New "username must be min 3 characters long") :=
  ⟨fun v h => by simpa [sampleValidator] using h,
    ((Validate_SignInRequest sampleValidator ⟨"testuser", "test@example.com", "password123"⟩
      (fun v h => by simpa [sampleValidator] using h)).1).mpr (by decide),
    by rfl⟩

/-! ## Basic authentication -/

theorem base64Value_base64Char (v : Nat) (h : v < 64) :
    base64Value (base64Char v) = some v := by
  have key : ∀ n : Fin 64, base64Value (base64Char n.val) = some n.val := by decide
  exact key ⟨v, h⟩

theorem base64Char_not_newline (v : Nat) (h : v < 64) :
    (!(base64Char v == 10 || base64Char v == 13)) = true := by
  have key : ∀ n : Fin 64,
      (!(base64Char n.val == 10 || base64Char n.val == 13)) = true := by decide
  exact key ⟨v, h⟩

theorem base64Char_ne_padChar (v : Nat) (h : v < 64) : base64Char v ≠ padChar := by
  have key : ∀ n : Fin 64, base64Char n.val ≠ padChar := by decide
  exact key ⟨v, h⟩

theorem byteOf_eq (n : Nat) (x : Fin 256) (h : n = x.val) : byteOf n = x := by
  apply Fin.ext
  simp only [byteOf, h]
  exact Nat.mod_eq_of_lt x.isLt

theorem EncodeToString_no_newline (bs : Bytes) :
    ∀ c ∈ EncodeToString bs, (!(c == 10 || c == 13)) = true := by
  induction bs using EncodeToString.induct with
  | case1 a b c rest ih =>
    have ha := a.isLt
    have hb := b.isLt
    have hc := c.isLt
    intro x hx
    simp only [EncodeToString, List.mem_cons] at hx
    rcases hx with rfl | rfl | rfl | rfl | hx
    · exact base64Char_not_newline _ (by omega)
    · exact base64Char_not_newline _ (by omega)
    · exact base64Char_not_newline _ (by omega)
    · exact base64Char_not_newline _ (by omega)
    · exact ih x hx
  | case2 a b =>
    have ha := a.isLt
    have hb := b.isLt
    intro x hx
    simp only [EncodeToString, List.mem_cons, List.mem_singleton, List.not_mem_nil,
      or_false] at hx
    rcases hx with rfl | rfl | rfl | rfl
    · exact base64Char_not_newline _ (by omega)
    · exact base64Char_not_newline _ (by omega)
    · exact base64Char_not_newline _ (by omega)
    · decide
  | case3 a =>
    have ha := a.isLt
    intro x hx
    simp only [EncodeToString, List.mem_cons, List.mem_singleton, List.not_mem_nil,
      or_false] at hx
    rcases hx with rfl | rfl | rfl | rfl
    · exact base64Char_not_newline _ (by omega)
    · exact base64Char_not_newline _ (by omega)
    · decide
    · decide
  | case4 =>
    intro x hx
    simp [EncodeToString] at hx

theorem decodeQuanta_EncodeToString (bs : Bytes) :
    decodeQuanta (EncodeToString bs) = some bs := by
  induction bs using EncodeToString.induct with
  | case1 a b c rest ih =>
    have ha := a.isLt
    have hb := b.isLt
    have hc := c.isLt
    simp only [EncodeToString, decodeQuanta,
      base64Value_base64Char (a.val / 4) (by omega),
      base64Value_base64Char (a.val % 4 * 16 + b.val / 16) (by omega),
      base64Value_base64Char (b.val % 16 * 4 + c.val / 64) (by omega),
      base64Value_base64Char (c.val % 64) (by omega), ih, Option.map_some']
    rw [byteOf_eq _ a (by omega), byteOf_eq _ b (by omega), byteOf_eq _ c (by omega)]
  | case2 a b =>
    have ha := a.isLt
    have hb := b.isLt
    have hpad : base64Value padChar = none := by decide
    simp only [EncodeToString, decodeQuanta,
      base64Value_base64Char (a.val / 4) (by omega),
      base64Value_base64Char (a.val % 4 * 16 + b.val / 16) (by omega),
      base64Value_base64Char (b.val % 16 * 4) (by omega), hpad, and_self, if_true]
    rw [byteOf_eq _ a (by omega), byteOf_eq _ b (by omega)]
  | case3 a =>
    have ha := a.isLt
    have hpad : base64Value padChar = none := by decide
    simp only [EncodeToString, decodeQuanta,
      base64Value_base64Char (a.val / 4) (by omega),
      base64Value_base64Char (a.val % 4 * 16) (by omega), hpad, and_self, if_true]
    rw [byteOf_eq _ a (by omega)]
  | case4 => simp [EncodeToString, decodeQuanta]

theorem DecodeString_EncodeToString (bs : Bytes) :
    DecodeString (EncodeToString bs) = some bs := by
  unfold DecodeString
  rw [List.filter_eq_self.mpr (EncodeToString_no_newline bs)]
  exact decodeQuanta_EncodeToString bs

theorem takeWhile_not_colon (u rest : Bytes) (hcolon : (58 : Fin 256) ∉ u) :
    (u ++ 58 :: rest).takeWhile (fun c => !(c == 58)) = u ∧
    (u ++ 58 :: rest).dropWhile (fun c => !(c == 58)) = 58 :: rest := by
  induction u with
  | nil => simp [List.takeWhile_cons, List.dropWhile_cons]
  | cons x xs ih =>
    have hx : x ≠ 58 := fun he => hcolon (by simp [he])
    have hxs : (58 : Fin 256) ∉ xs := fun hm => hcolon (by simp [hm])
    obtain ⟨h1, h2⟩ := ih hxs
    constructor
    · simp only [List.cons_append, List.takeWhile_cons]
      simp [hx, h1]
    · simp only [List.cons_append, List.dropWhile_cons]
      simp [hx, h2]

theorem takeWhile_no_colon (u : Bytes) (hcolon : (58 : Fin 256) ∉ u) :
    u.takeWhile (fun c => !(c == 58)) = u ∧ u.dropWhile (fun c => !(c == 58)) = [] := by
  induction u with
  | nil => simp
  | cons x xs ih =>
    have hx : x ≠ 58 := fun he => hcolon (by simp [he])
    have hxs : (58 : Fin 256) ∉ xs := fun hm => hcolon (by simp [hm])
    obtain ⟨h1, h2⟩ := ih hxs
    constructor
    · simp only [List.takeWhile_cons]
      simp [hx, h1]
    · simp only [List.dropWhile_cons]
      simp [hx, h2]

theorem splitColon_of_colon (username password : Bytes)
    (hcolon : (58 : Fin 256) ∉ username) :
    splitColon (username ++ 58 :: password) = [username, password] := by
  obtain ⟨h1, h2⟩ := takeWhile_not_colon username password hcolon
  simp only [splitColon, List.span_eq_take_drop, h1, h2]

theorem splitColon_no_colon (s : Bytes) (hcolon : (58 : Fin 256) ∉ s) :
    splitColon s = [s] := by
  obtain ⟨h1, h2⟩ := takeWhile_no_colon s hcolon
  simp only [splitColon, List.span_eq_take_drop, h1, h2]

/-- C19: `extractBasicAuth` decodes what Basic authentication encodes.  For
every username without a colon and every password, a request whose
`Authorization` header is `"Basic "` followed by the standard base64 encoding
of `username:password` yields `(username, password, true)`.  A request without
the header, with a header that does not start with `"Basic "`, whose remainder
does not decode, or whose decoded text has no colon yields `("", "", false)`. -/
theorem extractBasicAuth_roundtrip (username password : Bytes)
    (hcolon : (58 : Fin 256) ∉ username) :
    (∀ r : Request,
      r.authorization
        = some (basicScheme ++ EncodeToString (username ++ 58 :: password)) →
      extractBasicAuth r = (username, password, true)) ∧
    (∀ r : Request, r.authorization = none → extractBasicAuth r = ([], [], false)) ∧
    (∀ (r : Request) (auth : Bytes), r.authorization = some auth →
      hasPrefixBytes auth basicScheme = false → extractBasicAuth r = ([], [], false)) ∧
    (∀ (r : Request) (auth : Bytes), r.authorization = some auth →
      DecodeString (auth.drop 6) = none → extractBasicAuth r = ([], [], false)) ∧
    (∀ (r : Request) (auth decoded : Bytes), r.authorization = some auth →
      DecodeString (auth.drop 6) = some decoded → (58 : Fin 256) ∉ decoded →
      extractBasicAuth r = ([], [], false)) := by
  refine ⟨?_, ?_, ?_, ?_, ?_⟩
  · intro r hr
    have hpre : hasPrefixBytes
        (basicScheme ++ EncodeToString (username ++ 58 :: password)) basicScheme = true := by
      simp [hasPrefixBytes, List.isPrefixOf_iff_prefix]
    have hne : basicScheme ++ EncodeToString (username ++ 58 :: password) ≠ [] := by
      simp [basicScheme]
    have hdrop : (basicScheme ++ EncodeToString (username ++ 58 :: password)).drop
        basicScheme.length = EncodeToString (username ++ 58 :: password) := by
      simp
    simp only [extractBasicAuth, hr, Option.getD_some, hne, if_false, hpre, Bool.not_true,
      Bool.false_eq_true, hdrop, DecodeString_EncodeToString,
      splitColon_of_colon username password hcolon]
  · intro r hr
    simp [extractBasicAuth, hr]
  · intro r auth hr hpre
    by_cases hne : auth = []
    · simp [extractBasicAuth, hr, hne]
    · simp [extractBasicAuth, hr, hne, hpre]
  · intro r auth hr hdec
    have hlen : basicScheme.length = 6 := rfl
    by_cases hne : auth = []
    · simp [extractBasicAuth, hr, hne]
    · by_cases hpre : hasPrefixBytes auth basicScheme = true
      · simp [extractBasicAuth, hr, hne, hpre, hlen, hdec]
      · simp [extractBasicAuth, hr, hne, hpre]
  · intro r auth decoded hr hdec hno
    have hlen : basicScheme.length = 6 := rfl
    by_cases hne : auth = []
    · simp [extractBasicAuth, hr, hne]
    · by_cases hpre : hasPrefixBytes auth basicScheme = true
      · simp [extractBasicAuth, hr, hne, hpre, hlen, hdec, splitColon_no_colon decoded hno]
      · simp [extractBasicAuth, hr, hne, hpre]

/-- Witness of `extractBasicAuth_roundtrip`: the credentials `bob` and
`se:cret`, whose header is `Basic Ym9iOnNlOmNyZXQ=`. -/
theorem extractBasicAuth_roundtrip_witness :
    (58 : Fin 256) ∉ bytesOf "bob" ∧
    basicScheme ++ EncodeToString (bytesOf "bob" ++ 58 :: bytesOf "se:cret")
      = bytesOf "Basic Ym9iOnNlOmNyZXQ=" ∧
    extractBasicAuth (requestWithAuthorization (bytesOf "Basic Ym9iOnNlOmNyZXQ="))
      = (bytesOf "bob", bytesOf "se:cret", true) :=
  ⟨by decide, by decide,
    (extractBasicAuth_roundtrip (bytesOf "bob") (bytesOf "se:cret") (by decide)).1
      (requestWithAuthorization (bytesOf "Basic Ym9iOnNlOmNyZXQ=")) (by decide)⟩

/-! ## The expiry sweeper -/

theorem DB.eq_of_fields (a b : DB) (husers : a.users = b.users)
    (hsessions : a.sessions = b.sessions) (hseq : a.sessionSeq = b.sessionSeq) : a = b := by
  cases a; cases b; simp_all

theorem survivesCleanups_cons (c : Time × Option GoError)
    (cleanups : List (Time × Option GoError)) (s : Session) :
    survivesCleanups (c :: cleanups) s
      = ((c.2.isSome || !decide (s.ExpiresAt < c.1)) && survivesCleanups cleanups s) := by
  simp [survivesCleanups]

theorem filter_survivesCleanups_nil (sessions : List Session) :
    sessions.filter (survivesCleanups []) = sessions := by
  apply List.filter_eq_self.mpr
  intro s _
  rfl

theorem CleanExpiredSessions_frame (db : DB) (now : Time) (fault : Option String) :
    (CleanExpiredSessions db now fault).db.users = db.users ∧
    (CleanExpiredSessions db now fault).db.sessionSeq = db.sessionSeq := by
  cases fault <;> exact ⟨rfl, rfl⟩

theorem CleanExpiredSessions_survivors (db : DB) (now : Time) (fault : Option String) :
    (CleanExpiredSessions db now fault).db.sessions
      = db.sessions.filter
          (fun s => (CleanExpiredSessions db now fault).err.isSome
            || !decide (s.ExpiresAt < now)) := by
  cases fault with
  | some m => simp [CleanExpiredSessions, Outcome.err]
  | none => simp [CleanExpiredSessions, Outcome.err]

theorem cleanupLoop_frame (ticker : Ticker) (created : Time) (db : DB)
    (events : List CleanupEvent) :
    (cleanupLoop ticker created db events).db.users = db.users ∧
    (cleanupLoop ticker created db events).db.sessionSeq = db.sessionSeq := by
  induction events generalizing db with
  | nil => exact ⟨rfl, rfl⟩
  | cons e rest ih =>
    cases e with
    | stop => exact ⟨rfl, rfl⟩
    | tick n delay fault =>
      simp only [cleanupLoop]
      rw [(ih _).1, (ih _).2]
      exact CleanExpiredSessions_frame db _ fault

theorem cleanupLoop_sessions (ticker : Ticker) (created : Time) (db : DB)
    (events : List CleanupEvent) :
    (cleanupLoop ticker created db events).db.sessions
      = db.sessions.filter
          (survivesCleanups (cleanupLoop ticker created db events).cleanups) := by
  induction events generalizing db with
  | nil => simp only [cleanupLoop]; rw [filter_survivesCleanups_nil]
  | cons e rest ih =>
    cases e with
    | stop => simp only [cleanupLoop]; rw [filter_survivesCleanups_nil]
    | tick n delay fault =>
      simp only [cleanupLoop]
      rw [ih, CleanExpiredSessions_survivors, List.filter_filter]
      apply List.filter_congr
      intro s _
      rw [survivesCleanups_cons, Bool.and_comm]

theorem periodicSessionCleanup_db (db : DB) (created : Time) (delay0 : Nat)
    (fault0 : Option String) (events : List CleanupEvent) :
    (periodicSessionCleanup db created delay0 fault0 events).db
      = { db with
          sessions := db.sessions.filter
            (survivesCleanups
              (periodicSessionCleanup db created delay0 fault0 events).cleanups) } := by
  apply DB.eq_of_fields
  · simp only [periodicSessionCleanup]
    rw [(cleanupLoop_frame _ _ _ _).1]
    exact (CleanExpiredSessions_frame db _ fault0).1
  · simp only [periodicSessionCleanup]
    rw [cleanupLoop_sessions, CleanExpiredSessions_survivors, List.filter_filter]
    apply List.filter_congr
    intro s _
    rw [survivesCleanups_cons, Bool.and_comm]
  · simp only [periodicSessionCleanup]
    rw [(cleanupLoop_frame _ _ _ _).2]
    exact (CleanExpiredSessions_frame db _ fault0).2

theorem cleanupLoop_cleanInTurn (created : Time) (db : DB) (events : List CleanupEvent) :
    ((cleanupLoop (time.NewTicker (1 * Hour)) created db events).db,
      (cleanupLoop (time.NewTicker (1 * Hour)) created db events).cleanups)
      = cleanInTurn db (scheduledAfterStart created events) := by
  induction events generalizing db with
  | nil => rfl
  | cons e rest ih =>
    cases e with
    | stop => rfl
    | tick n delay fault =>
      have hnow : (time.NewTicker (1 * Hour)).tickInstant created n + (delay : Int)
          = created + n * (3600 * Second) + delay := by
        simp [Ticker.tickInstant, time.NewTicker, Hour]
      simp only [cleanupLoop, scheduledAfterStart, cleanInTurn, hnow]
      rw [← ih]

theorem cleanupLoop_returned (ticker : Ticker) (created : Time) (db : DB)
    (events : List CleanupEvent) :
    (cleanupLoop ticker created db events).returned = true ↔ CleanupEvent.stop ∈ events := by
  induction events generalizing db with
  | nil => simp [cleanupLoop]
  | cons e rest ih =>
    cases e with
    | stop => simp [cleanupLoop]
    | tick n delay fault => simp [cleanupLoop, ih]

theorem cleanupLoop_after_stop (ticker : Ticker) (created : Time) (db : DB)
    (pre post : List CleanupEvent) :
    cleanupLoop ticker created db (pre ++ .stop :: post)
      = cleanupLoop ticker created db (pre ++ [.stop]) := by
  induction pre generalizing db with
  | nil => rfl
  | cons e rest ih =>
    cases e with
    | stop => rfl
    | tick n delay fault => simp [cleanupLoop, ih]

theorem survivesCleanups_of_mem (cleanups : List (Time × Option GoError)) (s : Session)
    (t : Time) (hsurv : survivesCleanups cleanups s = true) (hmem : (t, none) ∈ cleanups) :
    t ≤ s.ExpiresAt := by
  simp only [survivesCleanups, List.all_eq_true] at hsurv
  have h := hsurv (t, none) hmem
  simp only [Option.isSome_none, Bool.false_or, Bool.not_eq_true', decide_eq_false_iff_not]
    at h
  exact Int.not_lt.mp h

theorem periodicSessionCleanup_swept (db : DB) (created : Time) (delay0 : Nat)
    (fault0 : Option String) (events : List CleanupEvent) (t : Time)
    (hmem : (t, none) ∈ (periodicSessionCleanup db created delay0 fault0 events).cleanups)
    (s : Session)
    (hs : s ∈ (periodicSessionCleanup db created delay0 fault0 events).db.sessions) :
    t ≤ s.ExpiresAt := by
  rw [periodicSessionCleanup_db] at hs
  simp only [List.mem_filter] at hs
  exact survivesCleanups_of_mem _ s t hs.2 hmem

/-- C20: `periodicSessionCleanup` calls `CleanExpiredSessions` once at once,
before any event of its `select`, and then once for every tick the `select`
receives before the stop case, in order, the `n`-th tick falling `n` hours
(`n * 3600` seconds) after the start: the database it leaves and the error of
every call are those of `CleanExpiredSessions` called in turn on that
schedule, and with no event at all the database is the one the first call
leaves.  Hence the database it leaves is the initial one without the sessions
that had expired at the clock reading of a call that returned no error, and
after such a call at reading `t` no session with `ExpiresAt < t` is left.  The
error of a cleanup does not end the loop: after a failed cleanup the next tick
still triggers one, which sweeps the store.  The routine has returned exactly
when its `select` has received the closing of the stop channel, and what
arrives after that changes nothing. -/
theorem periodicSessionCleanup_schedule (db : DB) (created : Time) (delay0 : Nat)
    (fault0 : Option String) (events : List CleanupEvent) :
    ((periodicSessionCleanup db created delay0 fault0 events).db,
      (periodicSessionCleanup db created delay0 fault0 events).cleanups)
      = cleanInTurn db ((created + delay0, fault0) :: scheduledAfterStart created events) ∧
    (periodicSessionCleanup db created delay0 fault0 []).db
      = (CleanExpiredSessions db (created + delay0) fault0).db ∧
    (periodicSessionCleanup db created delay0 fault0 []).cleanups
      = [(created + delay0, (CleanExpiredSessions db (created + delay0) fault0).err)] ∧
    (periodicSessionCleanup db created delay0 fault0 events).cleanups.head?
      = some (created + delay0, (CleanExpiredSessions db (created + delay0) fault0).err) ∧
    (periodicSessionCleanup db created delay0 fault0 events).db
      = { db with
          sessions := db.sessions.filter
            (survivesCleanups
              (periodicSessionCleanup db created delay0 fault0 events).cleanups) } ∧
    (∀ t : Time,
      (t, none) ∈ (periodicSessionCleanup db created delay0 fault0 events).cleanups →
      ∀ s ∈ (periodicSessionCleanup db created delay0 fault0 events).db.sessions,
        t ≤ s.ExpiresAt) ∧
    (∀ (m : String) (n1 d1 n2 d2 : Nat) (rest : List CleanupEvent),
      (created + n1 * (3600 * Second) + d1, some (GoError.driver m))
        ∈ (periodicSessionCleanup db created delay0 fault0
            (.tick n1 d1 (some m) :: .tick n2 d2 none :: rest)).cleanups ∧
      (created + n2 * (3600 * Second) + d2, none)
        ∈ (periodicSessionCleanup db created delay0 fault0
            (.tick n1 d1 (some m) :: .tick n2 d2 none :: rest)).cleanups ∧
      ∀ s ∈ (periodicSessionCleanup db created delay0 fault0
            (.tick n1 d1 (some m) :: .tick n2 d2 none :: rest)).db.sessions,
        created + n2 * (3600 * Second) + d2 ≤ s.ExpiresAt) ∧
    ((periodicSessionCleanup db created delay0 fault0 events).returned = true
      ↔ CleanupEvent.stop ∈ events) ∧
    (∀ pre post : List CleanupEvent,
      periodicSessionCleanup db created delay0 fault0 (pre ++ .stop :: post)
        = periodicSessionCleanup db created delay0 fault0 (pre ++ [.stop])) := by
  have hin : ((periodicSessionCleanup db created delay0 fault0 events).db,
      (periodicSessionCleanup db created delay0 fault0 events).cleanups)
      = cleanInTurn db ((created + delay0, fault0) :: scheduledAfterStart created events) := by
    simp only [periodicSessionCleanup, cleanInTurn]
    rw [← cleanupLoop_cleanInTurn]
  have hsecond : ∀ (m : String) (n1 d1 n2 d2 : Nat) (rest : List CleanupEvent),
      (created + n1 * (3600 * Second) + d1, some (GoError.driver m))
        ∈ (periodicSessionCleanup db created delay0 fault0
            (.tick n1 d1 (some m) :: .tick n2 d2 none :: rest)).cleanups ∧
      (created + n2 * (3600 * Second) + d2, none)
        ∈ (periodicSessionCleanup db created delay0 fault0
            (.tick n1 d1 (some m) :: .tick n2 d2 none :: rest)).cleanups := by
    intro m n1 d1 n2 d2 rest
    simp [periodicSessionCleanup, cleanupLoop, CleanExpiredSessions, Outcome.err,
      Ticker.tickInstant, time.NewTicker, Hour]
  refine ⟨hin, rfl, rfl, rfl, periodicSessionCleanup_db db created delay0 fault0 events,
    fun t hmem s hs => periodicSessionCleanup_swept db created delay0 fault0 events t hmem s hs,
    ?_, ?_, ?_⟩
  · intro m n1 d1 n2 d2 rest
    exact ⟨(hsecond m n1 d1 n2 d2 rest).1, (hsecond m n1 d1 n2 d2 rest).2,
      fun s hs => periodicSessionCleanup_swept db created delay0 fault0 _ _
        (hsecond m n1 d1 n2 d2 rest).2 s hs⟩
  · simp [periodicSessionCleanup, cleanupLoop_returned]
  · intro pre post
    simp [periodicSessionCleanup, cleanupLoop_after_stop]

/-- Witness of `periodicSessionCleanup_schedule` on `sampleDB`, whose sessions
expire at 100, 200 and 90, for a routine started at instant 0 whose first
cleanup reads the clock at 95.  With no event the session expiring at 90 is
gone and the other two are kept.  With a first tick whose cleanup the driver
refuses, a second tick, the stop and a third tick, the routine has made three
calls (at 95, after one hour, after two hours and 7 nanoseconds), the second
of which failed, has emptied the table and has returned. -/
theorem periodicSessionCleanup_schedule_witness :
    (periodicSessionCleanup sampleDB 0 95 none []).db.sessions = [bobSession, carolSession] ∧
    periodicSessionCleanup sampleDB 0 95 none
        [.tick 1 0 (some "connection refused"), .tick 2 7 none, .stop, .tick 3 0 none]
      = ⟨{ sampleDB with sessions := [] },
          [(95, none), (3600000000000, some (.driver "connection refused")),
            (7200000000007, none)],
          ["Cleaning up expired sessions...",
            "Error cleaning up expired sessions: connection refused",
            "Cleaning up expired sessions...", "Stopping session cleanup routine"],
          true⟩ ∧
    ((periodicSessionCleanup sampleDB 0 95 none
        [.tick 1 0 (some "connection refused"), .tick 2 7 none, .stop, .tick 3 0 none]).db,
      (periodicSessionCleanup sampleDB 0 95 none
        [.tick 1 0 (some "connection refused"), .tick 2 7 none, .stop, .tick 3 0 none]).cleanups)
      = cleanInTurn sampleDB
          [(95, none), (3600000000000, some "connection refused"), (7200000000007, none)] :=
  ⟨by decide, by decide,
    (periodicSessionCleanup_schedule sampleDB 0 95 none
      [.tick 1 0 (some "connection refused"), .tick 2 7 none, .stop, .tick 3 0 none]).1⟩

/-! ## Sweeper and lazy expiry -/

/-- C22: the sweeper and lazy expiry agree.  For a store with pairwise
distinct tokens, a stored session `s` and a clock reading `now`, with database
calls that reach the tables: `CleanExpiredSessions` at `now` removes `s` if and
only if `ValidateSession` of its token at `now` fails with the session-expired
error; it keeps `s` if and only if `ValidateSession` returns `s`; so the
sweeper never deletes a session that validation at the same reading accepts. -/
theorem CleanExpiredSessions_agrees_with_ValidateSession (db : DB) (s : Session)
    (now : Time) (deleteFault : Option String) (hmem : s ∈ db.sessions)
    (huniq : UniqueTokens db) :
    (s ∉ (CleanExpiredSessions db now none).db.sessions ↔
      (ValidateSession db s.SessionToken now none deleteFault).result
        = .error (.New "session expired")) ∧
    (s ∈ (CleanExpiredSessions db now none).db.sessions ↔
      (ValidateSession db s.SessionToken now none deleteFault).result = .ok s) ∧
    ((ValidateSession db s.SessionToken now none deleteFault).result = .ok s →
      s ∈ (CleanExpiredSessions db now none).db.sessions) := by
  have hget := GetSessionByToken_of_mem db s hmem huniq
  have hkeep : s ∈ (CleanExpiredSessions db now none).db.sessions ↔ ¬ s.ExpiresAt < now := by
    simp [CleanExpiredSessions_db, List.mem_filter, hmem]
  rw [ValidateSession_of_get db s.SessionToken now none deleteFault s hget]
  by_cases hlt : s.ExpiresAt < now
  · have hnot : s ∉ (CleanExpiredSessions db now none).db.sessions :=
      fun h => (hkeep.mp h) hlt
    simp [hlt, hnot]
  · have hin : s ∈ (CleanExpiredSessions db now none).db.sessions := hkeep.mpr hlt
    simp [hlt, hin]

/-- Witness of `CleanExpiredSessions_agrees_with_ValidateSession`: at instant
101 the sweep of `sampleDB` removes `bobSession` (expiry 100), and validating
its token at 101 fails with the session-expired error. -/
theorem CleanExpiredSessions_agrees_with_ValidateSession_witness :
    bobSession ∈ sampleDB.sessions ∧ UniqueTokens sampleDB ∧
    bobSession ∉ (CleanExpiredSessions sampleDB 101 none).db.sessions ∧
    (ValidateSession sampleDB bobSession.SessionToken 101 none none).result
      = .error (.New "session expired") :=
  ⟨by decide, by decide, by decide,
    (CleanExpiredSessions_agrees_with_ValidateSession sampleDB bobSession 101 none
      (by decide) (by decide)).1.mp (by decide)⟩

/-! ## Public profile -/

theorem find_username_congr (l1 l2 : List User) (username : String)
    (hpub : l1.map User.publicPart = l2.map User.publicPart) :
    (l1.find? (fun u => u.Username == username)).map User.publicPart
      = (l2.find? (fun u => u.Username == username)).map User.publicPart := by
  induction l1 generalizing l2 with
  | nil =>
    cases l2 with
    | nil => rfl
    | cons b l2 => simp at hpub
  | cons a l1 ih =>
    cases l2 with
    | nil => simp at hpub
    | cons b l2 =>
      simp only [List.map_cons, List.cons.injEq] at hpub
      obtain ⟨hab, htl⟩ := hpub
      have hname : a.Username = b.Username := congrArg Prod.fst hab
      by_cases hu : a.Username = username
      · have hb : b.Username = username := hname ▸ hu
        simp [List.find?_cons, hu, hb, hab]
      · have hb : ¬ b.Username = username := fun h => hu (hname.trans h)
        simp [List.find?_cons, hu, hb, ih l2 htl]

theorem GetUserPublicProfile_eq (db : DB) (username : String) :
    GetUserPublicProfile db username none =
      match (db.users.find? (fun u => u.Username == username)).map User.publicPart with
      | none => .error (.New "user not found")
      | some p => .ok { Username := p.1, Name := p.2.1, Surname := p.2.2 } := by
  unfold GetUserPublicProfile GetUserByUsername
  cases db.users.find? (fun u => u.Username == username) with
  | none => rfl
  | some u => rfl

/-- C23: `GetUserPublicProfile` discloses only username, name and surname.  If
the lookups of `username` in two databases return records with the same name
and surname, whatever their password hash, email, phone number, birthdate, id
and timestamps, the two results are equal; more generally two databases whose
user records agree, in order, on username, name and surname give the same
result for every username and every driver behaviour.  The result holds
exactly those three fields of the record found. -/
theorem GetUserPublicProfile_noninterference (db1 db2 : DB) (username : String)
    (fault : Option String) :
    (∀ u1 u2 : User, GetUserByUsername db1 username fault = .ok u1 →
      GetUserByUsername db2 username fault = .ok u2 →
      u1.Name = u2.Name → u1.Surname = u2.Surname →
      GetUserPublicProfile db1 username fault = GetUserPublicProfile db2 username fault) ∧
    (db1.users.map User.publicPart = db2.users.map User.publicPart →
      GetUserPublicProfile db1 username fault = GetUserPublicProfile db2 username fault) ∧
    (∀ u : User, GetUserByUsername db1 username fault = .ok u →
      GetUserPublicProfile db1 username fault
        = .ok { Username := u.Username, Name := u.Name, Surname := u.Surname }) := by
  refine ⟨?_, ?_, ?_⟩
  · intro u1 u2 h1 h2 hn hs
    have hu1 := (GetUserByUsername_ok db1 username fault u1 h1).2.2
    have hu2 := (GetUserByUsername_ok db2 username fault u2 h2).2.2
    simp only [GetUserPublicProfile, h1, h2, hn, hs, hu1, hu2]
  · intro hpub
    cases fault with
    | some m => rfl
    | none =>
      rw [GetUserPublicProfile_eq, GetUserPublicProfile_eq,
        find_username_congr db1.users db2.users username hpub]
  · intro u hu
    simp only [GetUserPublicProfile, hu]

/-- Witness of `GetUserPublicProfile_noninterference`: `bob` with another
password hash, email, id, birthdate and timestamps has the same public
profile. -/
theorem GetUserPublicProfile_noninterference_witness :
    GetUserByUsername emptyDB "bob" none = .ok bob ∧
    GetUserByUsername otherDB "bob" none = .ok bobElsewhere ∧
    bob.Name = bobElsewhere.Name ∧ bob.Surname = bobElsewhere.Surname ∧
    bob.Password ≠ bobElsewhere.Password ∧ bob.Email ≠ bobElsewhere.Email ∧
    GetUserPublicProfile emptyDB "bob" none = GetUserPublicProfile otherDB "bob" none ∧
    GetUserPublicProfile emptyDB "bob" none = .ok ⟨"bob", "Bob", "B"⟩ :=
  ⟨rfl, rfl, rfl, rfl, by decide, by decide,
    (GetUserPublicProfile_noninterference emptyDB otherDB "bob" none).1 bob bobElsewhere
      rfl rfl rfl rfl,
    rfl⟩

/-! ## Registration -/

theorem SignIn_username_exists (bcrypt : Bcrypt) (db : DB) (req : SignInRequest)
    (emailFault : Option String) (now1 now2 : Time) (newID : Int)
    (createNow1 createNow2 : Time) (createFault : Option String)
    (hex : ∃ u ∈ db.users, u.Username = req.Username) :
    SignIn bcrypt db req none emailFault now1 now2 newID createNow1 createNow2 createFault
      = ⟨.error (.New "username already exists"), db⟩ := by
  have hany : db.users.any (fun u => u.Username == req.Username) = true := by
    obtain ⟨u, hu, hname⟩ := hex
    exact List.any_eq_true.mpr ⟨u, hu, by simp [hname]⟩
  simp [SignIn, UserExists, hany]

theorem SignIn_email_exists (bcrypt : Bcrypt) (db : DB) (req : SignInRequest)
    (now1 now2 : Time) (newID : Int) (createNow1 createNow2 : Time)
    (createFault : Option String)
    (hfree : ∀ u ∈ db.users, u.Username ≠ req.Username)
    (hex : ∃ u ∈ db.users, u.Email = req.Email) :
    SignIn bcrypt db req none none now1 now2 newID createNow1 createNow2 createFault
      = ⟨.error (.New "email already exists"), db⟩ := by
  have hno : db.users.any (fun u => u.Username == req.Username) = false := by
    rw [List.any_eq_false]
    intro u hu
    simpa using hfree u hu
  have hany : db.users.any (fun u => u.Email == req.Email) = true := by
    obtain ⟨u, hu, hmail⟩ := hex
    exact List.any_eq_true.mpr ⟨u, hu, by simp [hmail]⟩
  simp [SignIn, UserExists, EmailExists, hno, hany]

theorem CreateUser_ok (db : DB) (user : User) (newID : Int) (now1 now2 : Time)
    (fault : Option String) (id : Int)
    (h : (CreateUser db user newID now1 now2 fault).result = .ok id) :
    (CreateUser db user newID now1 now2 fault).db =
      { db with users := db.users ++
          [{ user with ID := newID, CreatedAt := now1, UpdatedAt := now2 }] } := by
  revert h
  unfold CreateUser
  cases fault with
  | some m => simp
  | none =>
    by_cases h1 : db.users.any (fun u => u.ID == newID) = true
    · simp [h1]
    · by_cases h2 : db.users.any (fun u => u.Username == user.Username) = true
      · simp [h1, h2]
      · by_cases h3 : db.users.any (fun u => u.Email == user.Email) = true
        · simp [h1, h2, h3]
        · simp [h1, h2, h3]

theorem SignIn_ok (bcrypt : Bcrypt) (db : DB) (req : SignInRequest)
    (userFault emailFault : Option String) (now1 now2 : Time) (newID : Int)
    (createNow1 createNow2 : Time) (createFault : Option String) (resp : AuthResponse)
    (h : (SignIn bcrypt db req userFault emailFault now1 now2 newID createNow1 createNow2
      createFault).result = .ok resp) :
    ∃ hashed : String, HashPassword bcrypt req.Password = .ok hashed ∧
      (SignIn bcrypt db req userFault emailFault now1 now2 newID createNow1 createNow2
        createFault).db =
        { db with users := db.users ++
            [{ ID := newID, Username := req.Username, Password := hashed,
               Email := req.Email, Name := "", Surname := "", Birthdate := Time.zero,
               PhoneNumber := "", CreatedAt := createNow1, UpdatedAt := createNow2 }] } ∧
      (∀ u ∈ db.users, u.Username ≠ req.Username) ∧
      (∀ u ∈ db.users, u.Email ≠ req.Email) ∧
      resp = { Username := req.Username, Message := "User created successfully",
               Token := "", ExpiresAt := "" } := by
  unfold SignIn at h ⊢
  cases hue : UserExists db req.Username userFault with
  | error e => simp [hue] at h
  | ok b =>
    cases b with
    | true => simp [hue] at h
    | false =>
      cases hee : EmailExists db req.Email emailFault with
      | error e => simp [hue, hee] at h
      | ok b2 =>
        cases b2 with
        | true => simp [hue, hee] at h
        | false =>
          cases hh : HashPassword bcrypt req.Password with
          | error e => simp [hue, hee, hh] at h
          | ok hashed =>
            simp only [hue, hee, hh] at h ⊢
            have hfreeU : ∀ u ∈ db.users, u.Username ≠ req.Username := by
              cases userFault with
              | some m => simp [UserExists] at hue
              | none =>
                simp only [UserExists, Except.ok.injEq, List.any_eq_false, beq_iff_eq] at hue
                exact hue
            have hfreeE : ∀ u ∈ db.users, u.Email ≠ req.Email := by
              cases emailFault with
              | some m => simp [EmailExists] at hee
              | none =>
                simp only [EmailExists, Except.ok.injEq, List.any_eq_false, beq_iff_eq] at hee
                exact hee
            cases hcu : CreateUser db
              { ID := 0, Username := req.Username, Password := hashed, Email := req.Email,
                Name := "", Surname := "", Birthdate := Time.zero, PhoneNumber := "",
                CreatedAt := now1, UpdatedAt := now2 }
              newID createNow1 createNow2 createFault with
            | mk res db' =>
              cases res with
              | error e => simp [hcu] at h
              | ok id =>
                have hdb := CreateUser_ok db _ newID createNow1 createNow2 createFault id
                  (by rw [hcu])
                rw [hcu] at hdb
                simp only [hcu, Except.ok.injEq] at h ⊢
                simp only at hdb
                exact ⟨hashed, rfl, hdb, hfreeU, hfreeE, h.symm⟩

theorem SignIn_handler_conflict (decode : String → Except GoError SignInRequest)
    (encode : AuthResponse → String) (validate : Validator) (bcrypt : Bcrypt)
    (w : ResponseWriter) (r : Request) (db : DB) (userFault emailFault : Option String)
    (now1 now2 : Time) (newID : Int) (createNow1 createNow2 : Time)
    (createFault : Option String) (req : SignInRequest) (e : GoError)
    (hdecode : decode r.body = .ok req) (hvalid : Validate validate req.fields = none)
    (hsign : SignIn bcrypt db req userFault emailFault now1 now2 newID createNow1
      createNow2 createFault = ⟨.error e, db⟩)
    (hcontains : strings.Contains e.Error "already exists" = true) :
    UserHandler.SignIn decode encode validate bcrypt w r db userFault emailFault now1 now2
      newID createNow1 createNow2 createFault = (http.Error w e.Error StatusConflict, db) := by
  simp [UserHandler.SignIn, hdecode, hvalid, hsign, hcontains]

/-- C21: `SignIn` enforces uniqueness on creation.  With existence queries that
reach the table: if a user with the requested username exists it fails with
`username already exists`, also when the email exists as well (the username is
checked first); otherwise, if a user with the requested email exists, it fails
with `email already exists`; in both cases the database is left exactly as it
was, and the handler answers 409 with that text.  When `SignIn` succeeds, no
user had that username or email, exactly one record is appended, and its
`Password` is the value `HashPassword` returned for the requested password:
the plaintext is stored only if the hash function returns its own input. -/
theorem SignIn_uniqueness (bcrypt : Bcrypt) (db : DB) (req : SignInRequest)
    (userFault emailFault : Option String) (now1 now2 : Time) (newID : Int)
    (createNow1 createNow2 : Time) (createFault : Option String) :
    ((∃ u ∈ db.users, u.Username = req.Username) →
      SignIn bcrypt db req none emailFault now1 now2 newID createNow1 createNow2
        createFault = ⟨.error (.New "username already exists"), db⟩) ∧
    ((∀ u ∈ db.users, u.Username ≠ req.Username) →
      (∃ u ∈ db.users, u.Email = req.Email) →
      SignIn bcrypt db req none none now1 now2 newID createNow1 createNow2 createFault
        = ⟨.error (.New "email already exists"), db⟩) ∧
    (∀ resp : AuthResponse,
      (SignIn bcrypt db req userFault emailFault now1 now2 newID createNow1 createNow2
        createFault).result = .ok resp →
      ∃ hashed stored,
        HashPassword bcrypt req.Password = .ok hashed ∧
        (SignIn bcrypt db req userFault emailFault now1 now2 newID createNow1 createNow2
          createFault).db.users = db.users ++ [stored] ∧
        stored.Password = hashed ∧ stored.Username = req.Username ∧
        stored.Email = req.Email ∧
        (hashed ≠ req.Password → stored.Password ≠ req.Password) ∧
        (SignIn bcrypt db req userFault emailFault now1 now2 newID createNow1 createNow2
          createFault).db.sessions = db.sessions ∧
        (∀ u ∈ db.users, u.Username ≠ req.Username ∧ u.Email ≠ req.Email)) ∧
    (∀ (decode : String → Except GoError SignInRequest) (encode : AuthResponse → String)
        (validate : Validator) (w : ResponseWriter) (r : Request) (e : GoError),
      w.status = none → decode r.body = .ok req → Validate validate req.fields = none →
      (e = .New "username already exists" ∨ e = .New "email already exists") →
      SignIn bcrypt db req userFault emailFault now1 now2 newID createNow1 createNow2
        createFault = ⟨.error e, db⟩ →
      (UserHandler.SignIn decode encode validate bcrypt w r db userFault emailFault now1
        now2 newID createNow1 createNow2 createFault).1.status = some StatusConflict ∧
      (UserHandler.SignIn decode encode validate bcrypt w r db userFault emailFault now1
        now2 newID createNow1 createNow2 createFault).1.body = w.body ++ (e.Error ++ "\n") ∧
      (UserHandler.SignIn decode encode validate bcrypt w r db userFault emailFault now1
        now2 newID createNow1 createNow2 createFault).2 = db) := by
  refine ⟨?_, ?_, ?_, ?_⟩
  · exact SignIn_username_exists bcrypt db req emailFault now1 now2 newID createNow1
      createNow2 createFault
  · exact SignIn_email_exists bcrypt db req now1 now2 newID createNow1 createNow2
      createFault
  · intro resp hok
    obtain ⟨hashed, hh, hdb, hfu, hfe, _⟩ := SignIn_ok bcrypt db req userFault emailFault
      now1 now2 newID createNow1 createNow2 createFault resp hok
    refine ⟨hashed, _, hh, by rw [hdb], rfl, rfl, rfl, fun hne => hne, by rw [hdb],
      fun u hu => ⟨hfu u hu, hfe u hu⟩⟩
  · intro decode encode validate w r e hfresh hdecode hvalid he hsign
    have hcontains : strings.Contains e.Error "already exists" = true := by
      rcases he with rfl | rfl
      · decide
      · decide
    rw [SignIn_handler_conflict decode encode validate bcrypt w r db userFault emailFault
      now1 now2 newID createNow1 createNow2 createFault req e hdecode hvalid hsign
      hcontains]
    exact ⟨http.Error_status w _ _ hfresh, http.Error_body w _ _, rfl⟩

/-- Witness of `SignIn_uniqueness` on `sampleDB`: `bob` is taken, the email of
`bob` is taken, and `dave` is created with the hash of his password. -/
theorem SignIn_uniqueness_witness :
    (∃ u ∈ sampleDB.users, u.Username = "bob") ∧
    SignIn sampleBcrypt sampleDB ⟨"bob", "bob@example.com", "secret1"⟩ none none 1 2 3 4 5
      none = ⟨.error (.New "username already exists"), sampleDB⟩ ∧
    (∀ u ∈ sampleDB.users, u.Username ≠ "dave") ∧
    (∃ u ∈ sampleDB.users, u.Email = "bob@example.com") ∧
    SignIn sampleBcrypt sampleDB ⟨"dave", "bob@example.com", "secret1"⟩ none none 1 2 3 4 5
      none = ⟨.error (.New "email already exists"), sampleDB⟩ ∧
    (SignIn sampleBcrypt sampleDB ⟨"dave", "dave@example.com", "secret1"⟩ none none 1 2 3 4
      5 none).result = .ok ⟨"dave", "User created successfully", "", ""⟩ ∧
    (SignIn sampleBcrypt sampleDB ⟨"dave", "dave@example.com", "secret1"⟩ none none 1 2 3 4
      5 none).db.users
      = sampleDB.users ++ [⟨3, "dave", "#secret1", "dave@example.com", "", "", Time.zero,
          "", 4, 5⟩] :=
  ⟨by decide,
    (SignIn_uniqueness sampleBcrypt sampleDB ⟨"bob", "bob@example.com", "secret1"⟩ none
      none 1 2 3 4 5 none).1 (by decide),
    by decide, by decide,
    (SignIn_uniqueness sampleBcrypt sampleDB ⟨"dave", "bob@example.com", "secret1"⟩ none
      none 1 2 3 4 5 none).2.1 (by decide) (by decide),
    rfl, rfl⟩

/-! ## Profile update and the birthdate layout -/

theorem birthdateLayout_chunks :
    layoutChunks "2025-03-01".toList
      = [.std .stdDay, .std .stdZeroDay, .std .stdSecond, .lit '-', .std .stdZeroHour12,
         .lit '-', .std .stdZeroMonth] := by decide

theorem referenceLayout_chunks :
    layoutChunks "2006-01-02".toList
      = [.std .stdLongYear, .lit '-', .std .stdZeroMonth, .lit '-', .std .stdZeroDay] := by
  decide

theorem isDigit_hyphen : isDigit '-' = false := by decide

theorem Parse_birthdateLayout_rejects (y1 y2 y3 y4 : Char) (rest : List Char)
    (h1 : isDigit y1 = true) (h2 : isDigit y2 = true) (h3 : isDigit y3 = true)
    (h4 : isDigit y4 = true) :
    time.Parse "2025-03-01" (String.mk (y1 :: y2 :: y3 :: y4 :: '-' :: rest))
      = .error parseError := by
  unfold time.Parse
  rw [birthdateLayout_chunks]
  cases rest with
  | nil => simp [parseChunks, parseStd, getnum, h1, h2, h3, h4, isDigit_hyphen]
  | cons r rest' => simp [parseChunks, parseStd, getnum, h1, h2, h3, h4, isDigit_hyphen]

theorem updateEmail_empty (db : DB) (req : UpdateUserRequest)
    (emailFault : Option String) (h : req.Email = "") (user : User) :
    updateEmail db user req emailFault = .ok user := by
  simp [updateEmail, h]

theorem updateBirthdate_error (user : User) (req : UpdateUserRequest)
    (hne : req.Birthdate ≠ "")
    (hparse : time.Parse "2025-03-01" req.Birthdate = .error parseError) :
    updateBirthdate user req = .error (.New "invalid birthdate format") := by
  simp [updateBirthdate, hne, hparse]

theorem UpdateUserProfileBySession_birthdate_error (db : DB) (username : String)
    (req : UpdateUserRequest) (lookupFault emailFault : Option String) (now : Time)
    (updateFault : Option String) (user : User)
    (huser : GetUserByUsername db username lookupFault = .ok user)
    (hemail : req.Email = "") (hne : req.Birthdate ≠ "")
    (hparse : time.Parse "2025-03-01" req.Birthdate = .error parseError) :
    UpdateUserProfileBySession db username req lookupFault emailFault now updateFault
      = ⟨.error (.New "invalid birthdate format"), db⟩ := by
  simp only [UpdateUserProfileBySession, huser, updateEmail_empty db req emailFault hemail,
    updateBirthdate_error _ req hne hparse]

/-- C24, the code at the failing input.  Go reads the layout `2025-03-01` of
`UpdateUserProfileBySession` as day, two-digit day, second, `-`, two-digit
12-hour clock hour, `-`, two-digit month, not as year-month-day (that is
`2006-01-02`).  So `time.Parse` with it rejects every value that starts with
four digits and a hyphen, in particular every date written `YYYY-MM-DD`; for
an existing user and a request whose earlier steps pass, such a birthdate
makes the update fail with `invalid birthdate format` and change nothing, as
it does for `bob` and `1995-05-05`.  With the reference layout the same value
parses to May 5, 1995, and the layout of the source accepts `20255-03-01`,
which is no date. -/
theorem UpdateUserProfileBySession_rejects_dates :
    layoutChunks "2025-03-01".toList
      = [.std .stdDay, .std .stdZeroDay, .std .stdSecond, .lit '-', .std .stdZeroHour12,
         .lit '-', .std .stdZeroMonth] ∧
    layoutChunks "2006-01-02".toList
      = [.std .stdLongYear, .lit '-', .std .stdZeroMonth, .lit '-', .std .stdZeroDay] ∧
    (∀ (y1 y2 y3 y4 : Char) (rest : List Char),
      isDigit y1 = true → isDigit y2 = true → isDigit y3 = true → isDigit y4 = true →
      time.Parse "2025-03-01" (String.mk (y1 :: y2 :: y3 :: y4 :: '-' :: rest))
        = .error parseError) ∧
    (∀ (db : DB) (username : String) (req : UpdateUserRequest) (user : User)
        (lookupFault emailFault updateFault : Option String) (now : Time)
        (y1 y2 y3 y4 : Char) (rest : List Char),
      GetUserByUsername db username lookupFault = .ok user → req.Email = "" →
      isDigit y1 = true → isDigit y2 = true → isDigit y3 = true → isDigit y4 = true →
      req.Birthdate = String.mk (y1 :: y2 :: y3 :: y4 :: '-' :: rest) →
      UpdateUserProfileBySession db username req lookupFault emailFault now updateFault
        = ⟨.error (.New "invalid birthdate format"), db⟩) ∧
    time.Parse "2025-03-01" "1995-05-05" = .error parseError ∧
    UpdateUserProfileBySession sampleDB "bob" ⟨"", "", "", "1995-05-05", ""⟩ none none 50
      none = ⟨.error (.New "invalid birthdate format"), sampleDB⟩ ∧
    time.Parse "2006-01-02" "1995-05-05" = .ok (time.Date 1995 5 5 0 0 0 0) ∧
    time.Date 1995 5 5 0 0 0 0 = 799632000 * Second ∧
    time.Parse "2025-03-01" "20255-03-01" = .ok (time.Date 0 1 25 3 0 5 0) := by
  refine ⟨birthdateLayout_chunks, referenceLayout_chunks, Parse_birthdateLayout_rejects,
    ?_, by rfl, by rfl, by rfl, by decide, by rfl⟩
  intro db username req user lookupFault emailFault updateFault now y1 y2 y3 y4 rest huser
    hemail h1 h2 h3 h4 hb
  have hne : req.Birthdate ≠ "" := by
    rw [hb]
    intro h
    have := congrArg String.length h
    simp [String.length] at this
  have hparse : time.Parse "2025-03-01" req.Birthdate = .error parseError := by
    rw [hb]
    exact Parse_birthdateLayout_rejects y1 y2 y3 y4 rest h1 h2 h3 h4
  exact UpdateUserProfileBySession_birthdate_error db username req lookupFault emailFault
    now updateFault user huser hemail hne hparse

end SocialNetwork
